import Mathlib

/-!
# Librato Terraform provider: alert and metric reconcilers

A shallow embedding of `librato/resource_librato_alert.go` and
`librato/resource_librato_metric.go`.

* Go pointers (`*string`, `*bool`, `*uint`, ...) are `Option`s, `none` being `nil`.
* Go slices whose nil-ness the code can observe are `Option (List _)`.
* A `map[string]interface{}` whose keys are fixed by the resource schema is a
  record with one optional field per key: `none` stands for a key that is absent
  (or holds a value of another dynamic type, so that the comma-ok assertion
  fails), `some v` for a key holding `v`.
* The configuration and the prior state of a resource are records of the same
  kind, `none` standing for a key that was not provided. `helper/schema` hands a
  nested block over with every key of its schema present, a key that was not
  provided holding the zero value of its type (`ValueOrZero`).
* A runtime panic (nil dereference, failed unchecked type assertion) is an
  explicit result: `none` in the converters, `Status.fault` in the operations.
-/

set_option autoImplicit false

namespace Librato

/-! ## Go runtime values -/

/-- Values of Go's `float64`, by IEEE-754 class. A finite value is
`(-1)^neg * mant * 2^exp`. -/
inductive Float64 where
  | nan
  | inf (neg : Bool)
  | finite (neg : Bool) (mant : Nat) (exp : Int)
  deriving DecidableEq, Repr

/-- Go's `math.IsNaN`. -/
def Float64.IsNaN : Float64 → Bool
  | .nan => true
  | _ => false

/-- Width of Go's `int` and `uint` on the 64-bit targets the provider is built for. -/
def intSize : Nat := 64

/-- Go's conversion `uint(v)` of an `int`: reduction modulo `2^64`. -/
def uint (v : Int) : Nat := (v % (2 ^ intSize : Int)).toNat

/-- Value of a string of ASCII decimal digits, `none` when the string is empty
or holds another character. -/
def parseDigits : List Char → Option Nat
  | [] => none
  | cs => cs.foldlM (fun n c => if c.isDigit then some (n * 10 + (c.toNat - 48)) else none) 0

/-- Go's `strconv.Atoi`: the parsed value together with `err == nil`. A syntax
error yields `0`; a value out of the range of `int` yields the nearest bound. -/
def Atoi (s : String) : Int × Bool :=
  match s.toList with
  | [] => (0, false)
  | c :: cs =>
    let neg := c == '-'
    let digits := if c == '-' || c == '+' then cs else c :: cs
    match parseDigits digits with
    | none => (0, false)
    | some n =>
      if !neg && n ≥ 2 ^ (intSize - 1) then ((2 : Int) ^ (intSize - 1) - 1, false)
      else if neg && n > 2 ^ (intSize - 1) then (-(2 : Int) ^ (intSize - 1), false)
      else (if neg then -(n : Int) else (n : Int), true)

/-- Go's `strconv.ParseUint(s, 10, 0)`, `none` when it returns an error. -/
def ParseUint (s : String) : Option Nat :=
  match parseDigits s.toList with
  | none => none
  | some n => if n < 2 ^ intSize then some n else none

/-- Round the rational `num / den` to the nearest integer, ties to even. -/
def roundHalfEven (num den : Nat) : Nat :=
  let q := num / den
  let r := num % den
  if 2 * r < den then q
  else if 2 * r > den then q + 1
  else if q % 2 = 0 then q else q + 1

/-- Go's `fmt.Sprintf("%.f", f)` for a `float64`: the value rounded to an
integer, in decimal. -/
def Float64.fmtDotF : Float64 → String
  | .nan => "NaN"
  | .inf false => "+Inf"
  | .inf true => "-Inf"
  | .finite neg mant exp =>
    (if neg then "-" else "") ++
      toString (if 0 ≤ exp then mant * 2 ^ exp.toNat else roundHalfEven mant (2 ^ (-exp).toNat))

/-- Values of type `interface{}` produced by decoding JSON. Arrays and objects,
which the reconcilers never inspect at this position, are carried only with
their `fmt` rendering. -/
inductive JSONValue where
  | null
  | bool (b : Bool)
  | number (f : Float64)
  | string (s : String)
  | compound (rendered : String)
  deriving DecidableEq, Repr

/-- Go's `fmt.Sprintf("%.f", v)` for a value of type `interface{}`. -/
def JSONValue.fmtDotF : JSONValue → String
  | .null => "%!f(<nil>)"
  | .bool b => "%!f(bool=" ++ (if b then "true" else "false") ++ ")"
  | .number f => f.fmtDotF
  | .string _ => "%!f(string=)"
  | .compound rendered => rendered

/-! ## `schema.Set` of strings

`helper/schema` keeps the elements of a set in a map keyed by the hash code of
the element; for a set of strings the code is `schema.HashString`, the CRC-32
of the string. -/

/-- One shift of the bit-reflected CRC-32 register, polynomial `0xedb88320`. -/
def crc32Shift (crc : Nat) : Nat :=
  if crc % 2 = 1 then (crc / 2) ^^^ 0xedb88320 else crc / 2

/-- The CRC-32 register after one more byte. -/
def crc32Update (crc byte : Nat) : Nat :=
  crc32Shift (crc32Shift (crc32Shift (crc32Shift (crc32Shift (crc32Shift (crc32Shift
    (crc32Shift (crc ^^^ byte))))))))

/-- Go's `crc32.ChecksumIEEE` of a sequence of bytes. -/
def ChecksumIEEE (data : List Nat) : Nat :=
  (data.foldl crc32Update 0xffffffff) ^^^ 0xffffffff

/-- The UTF-8 encoding of a character. -/
def utf8Bytes (c : Char) : List Nat :=
  let n := c.toNat
  if n < 0x80 then [n]
  else if n < 0x800 then [0xc0 + n / 64, 0x80 + n % 64]
  else if n < 0x10000 then [0xe0 + n / 4096, 0x80 + n / 64 % 64, 0x80 + n % 64]
  else [0xf0 + n / 262144, 0x80 + n / 4096 % 64, 0x80 + n / 64 % 64, 0x80 + n % 64]

/-- `schema.HashString`, that is `hashcode.String`: the CRC-32 of the bytes of
the string as an `int`, made non-negative. -/
def HashString (s : String) : Int :=
  let v : Int := (ChecksumIEEE (s.toList.flatMap utf8Bytes) : Nat)
  if v ≥ 0 then v else if -v ≥ 0 then -v else 0

/-- A `*schema.Set` built with `schema.HashString`. The library stores one
element per hash code: the set is given by its elements, no two of which have
the same code. -/
structure SchemaSet where
  items : Finset String
  distinct : ∀ a ∈ items, ∀ b ∈ items, HashString a = HashString b → a = b

instance : DecidableEq SchemaSet := fun s t =>
  decidable_of_iff (s.items = t.items) (by cases s; cases t; simp)

instance : Membership String SchemaSet := ⟨fun s a => a ∈ s.items⟩

instance : EmptyCollection SchemaSet := ⟨⟨∅, by simp⟩⟩

/-- `(*schema.Set).Add`: the element is stored under its hash code unless the
code is taken already. -/
def SchemaSet.Add (s : SchemaSet) (item : String) : SchemaSet :=
  if h : ∃ b ∈ s.items, HashString b = HashString item then s
  else
    ⟨insert item s.items, by
      intro a ha b hb hab
      rcases Finset.mem_insert.mp ha with ha | ha
      · rcases Finset.mem_insert.mp hb with hb | hb
        · rw [ha, hb]
        · exact absurd ⟨b, hb, by rw [← hab, ha]⟩ h
      · rcases Finset.mem_insert.mp hb with hb | hb
        · exact absurd ⟨a, ha, by rw [hab, hb]⟩ h
        · exact s.distinct a ha b hb hab⟩

instance : Singleton String SchemaSet := ⟨fun a => (∅ : SchemaSet).Add a⟩

instance : Insert String SchemaSet := ⟨fun a s => s.Add a⟩

/-- `schema.NewSet(schema.HashString, items)`: the items are added one by one,
in order. -/
def NewSet (items : List String) : SchemaSet := items.foldl SchemaSet.Add ∅

/-- `(*schema.Set).List()`: the elements by ascending hash code. -/
def SchemaSet.List (s : SchemaSet) : List String :=
  ((s.items.image fun a => toLex (HashString a, a)).sort (· ≤ ·)).map fun p => (ofLex p).2

/-! ## Remote resources (`github.com/heroku/go-librato/librato`) -/

/-- `librato.AlertConditionTagSet`. -/
structure AlertConditionTagSet where
  Name : Option String := none
  Grouped : Option Bool := none
  Values : Option (List (Option String)) := none
  deriving DecidableEq, Repr

/-- `librato.AlertCondition`. The field `Type` is spelled `Type_`. -/
structure AlertCondition where
  Type_ : Option String := none
  MetricName : Option String := none
  Source : Option String := none
  DetectReset : Option Bool := none
  Duration : Option Nat := none
  Threshold : Option Float64 := none
  SummaryFunction : Option String := none
  Tags : Option (List AlertConditionTagSet) := none
  deriving DecidableEq, Repr

/-- `librato.AlertAttributes`. -/
structure AlertAttributes where
  RunbookURL : Option String := none
  deriving DecidableEq, Repr

/-- One element of a `[]interface{}` held in `Alert.Services`: a decoded JSON
object (of which only the entry under `"id"` is read, `null` when absent), a Go
`int` (as built by Create), or any other value. -/
inductive ServiceEntry where
  | object (id : JSONValue)
  | int (i : Int)
  | other
  deriving DecidableEq, Repr

/-- The `interface{}` field `Alert.Services`: `nil`, a `[]interface{}`, the
`[]*int` built by Update, or a value of any other dynamic type. -/
inductive ServicesValue where
  | nil
  | list (entries : List ServiceEntry)
  | intPtrs (ids : List (Option Int))
  | other
  deriving DecidableEq, Repr

/-- `librato.Alert`. -/
structure Alert where
  ID : Option Nat := none
  Name : Option String := none
  Description : Option String := none
  Active : Option Bool := none
  Md : Option Bool := none
  RearmSeconds : Option Nat := none
  Services : ServicesValue := .nil
  Conditions : Option (List AlertCondition) := none
  Attributes : Option AlertAttributes := none
  deriving DecidableEq, Repr

/-- The `interface{}` fields `MetricAttributes.DisplayMax` and `DisplayMin`:
`nil`, the `*string` stored by Create and Update, or a decoded JSON value
(arrays and objects carried only with their `fmt` rendering). -/
inductive DisplayValue where
  | nil
  | stringPtr (s : String)
  | bool (b : Bool)
  | number (f : Float64)
  | string (s : String)
  | compound (rendered : String)
  deriving DecidableEq, Repr

/-- `librato.MetricAttributes`. -/
structure MetricAttributes where
  Color : Option String := none
  DisplayMax : DisplayValue := .nil
  DisplayMin : DisplayValue := .nil
  DisplayUnitsLong : Option String := none
  DisplayUnitsShort : Option String := none
  DisplayStacked : Option Bool := none
  GapDetection : Option Bool := none
  Aggregate : Option Bool := none
  deriving DecidableEq, Repr

/-- `librato.Metric`. -/
structure Metric where
  Name : Option String := none
  Type_ : Option String := none
  Description : Option String := none
  DisplayName : Option String := none
  Period : Option Nat := none
  Composite : Option String := none
  Attributes : Option MetricAttributes := none
  deriving DecidableEq, Repr

/-! ## Bag-side values, one record per nested schema -/

/-- The `map[string]interface{}` of one `tag` block (schema lines 72-88). -/
structure TagBag where
  name : Option String := none
  grouped : Option Bool := none
  values : Option SchemaSet := none
  deriving DecidableEq

/-- The `map[string]interface{}` of one `condition` block (schema lines 55-106). -/
structure ConditionBag where
  type : Option String := none
  metric_name : Option String := none
  source : Option String := none
  tag : Option (List TagBag) := none
  detect_reset : Option Bool := none
  duration : Option Int := none
  threshold : Option Float64 := none
  summary_function : Option String := none
  deriving DecidableEq

/-- The `map[string]interface{}` of the alert `attributes` block. -/
structure AttributesBag where
  runbook_url : Option String := none
  deriving DecidableEq

/-- The `map[string]interface{}` of the metric `attributes` block. -/
structure MetricAttributesBag where
  color : Option String := none
  display_max : Option String := none
  display_min : Option String := none
  display_units_long : Option String := none
  display_units_short : Option String := none
  display_stacked : Option Bool := none
  gap_detection : Option Bool := none
  aggregate : Option Bool := none
  deriving DecidableEq

/-- The zero value of Go's `float64`. -/
def Float64.zero : Float64 := .finite false 0 0

/-- The map that `helper/schema` hands over for one `tag` block: every key of
the block's schema is present, a key that the configuration does not provide
holding its `Default`, else the zero value of its type
(`FieldReadResult.ValueOrZero`). -/
def TagBag.ValueOrZero (t : TagBag) : TagBag :=
  { name := some (t.name.getD "")
    grouped := some (t.grouped.getD false)
    values := some (t.values.getD ∅) }

/-- The map that `helper/schema` hands over for one `condition` block: every key
of the block's schema is present, a key that the configuration does not provide
holding the zero value of its type (`FieldReadResult.ValueOrZero`). -/
def ConditionBag.ValueOrZero (m : ConditionBag) : ConditionBag :=
  { type := some (m.type.getD "")
    metric_name := some (m.metric_name.getD "")
    source := some (m.source.getD "")
    tag := some ((m.tag.getD []).map TagBag.ValueOrZero)
    detect_reset := some (m.detect_reset.getD false)
    duration := some (m.duration.getD 0)
    threshold := some (m.threshold.getD Float64.zero)
    summary_function := some (m.summary_function.getD "") }

/-- Apply a conversion that may panic to every element of a slice, in order;
the first panic aborts. -/
def forEach {α β : Type} (f : α → Option β) : List α → Option (List β)
  | [] => some []
  | x :: xs =>
    match f x with
    | none => none
    | some y =>
      match forEach f xs with
      | none => none
      | some ys => some (y :: ys)

/-! ## Expanders (alert.go lines 374-441) -/

/-- `expandAlertConditionTagSet` (lines 410-428). -/
def expandAlertConditionTagSet (m : TagBag) : AlertConditionTagSet :=
  let tag : AlertConditionTagSet := {}
  let tag := match m.name with
    | some v => { tag with Name := some v }
    | none => tag
  let tag := match m.grouped with
    | some v => { tag with Grouped := some v }
    | none => tag
  let tag := match m.values with
    | some v => { tag with Values := some (v.List.map some) }
    | none => tag
  tag

/-- `expandAlertCondition` (lines 376-408). -/
def expandAlertCondition (m : ConditionBag) : AlertCondition :=
  let condition : AlertCondition := {}
  let condition := match m.type with
    | some v => { condition with Type_ := some v }
    | none => condition
  let condition := match m.metric_name with
    | some v => if v.length > 0 then { condition with MetricName := some v } else condition
    | none => condition
  let condition := match m.source with
    | some v => if v.length > 0 then { condition with Source := some v } else condition
    | none => condition
  let condition := match m.detect_reset with
    | some v => { condition with DetectReset := some v }
    | none => condition
  let condition := match m.duration with
    | some v => { condition with Duration := some (uint v) }
    | none => condition
  let condition := match m.summary_function with
    | some v => { condition with SummaryFunction := some v }
    | none => condition
  let condition := match m.threshold with
    | some v => if !v.IsNaN then { condition with Threshold := some v } else condition
    | none => condition
  let condition := match m.tag with
    | some v =>
      if v.length > 0 then { condition with Tags := some (v.map expandAlertConditionTagSet) }
      else condition
    | none => condition
  condition

/-- `expandAlertAttributes` (lines 430-441). -/
def expandAlertAttributes (input : List (Option AttributesBag)) : AlertAttributes :=
  match input with
  | [] => {}
  | none :: _ => {}
  | some m :: _ =>
    let attr : AlertAttributes := {}
    match m.runbook_url with
    | some v => { attr with RunbookURL := some v }
    | none => attr

/-! ## Flatteners (alert.go lines 443-502) -/

/-- `flattenTagsReferance` (lines 478-494); `none` when a `nil` entry of
`tag.Values` is dereferenced. -/
def flattenTagsReferance (tag : AlertConditionTagSet) : Option TagBag :=
  let m : TagBag := {}
  let m := match tag.Name with
    | some v => { m with name := some v }
    | none => m
  let m := match tag.Grouped with
    | some v => { m with grouped := some v }
    | none => m
  if (tag.Values.getD []).length > 0 then
    match forEach id (tag.Values.getD []) with
    | none => none
    | some values => some { m with values := some (NewSet values) }
  else some m

/-- `flattenCondition` (lines 445-476); `none` when flattening a tag panics. -/
def flattenCondition (condition : AlertCondition) : Option ConditionBag :=
  let m : ConditionBag := {}
  let m := match condition.Type_ with
    | some v => { m with type := some v }
    | none => m
  let m := match condition.MetricName with
    | some v => { m with metric_name := some v }
    | none => m
  let m := match condition.Source with
    | some v => { m with source := some v }
    | none => m
  let m := match condition.DetectReset with
    | some v => { m with detect_reset := some v }
    | none => m
  let m := match condition.Threshold with
    | some v => { m with threshold := some v }
    | none => m
  let m := match condition.SummaryFunction with
    | some v => { m with summary_function := some v }
    | none => m
  let m := match condition.Duration with
    | some v => { m with duration := some (v : Int) }
    | none => m
  if (condition.Tags.getD []).length > 0 then
    match forEach flattenTagsReferance (condition.Tags.getD []) with
    | none => none
    | some flattenedTags => some { m with tag := some flattenedTags }
  else some m

/-- `flattenAttributes` (lines 496-502). -/
def flattenAttributes (attr : AlertAttributes) : List AttributesBag :=
  let m : AttributesBag := {}
  let m := match attr.RunbookURL with
    | some v => { m with runbook_url := some v }
    | none => m
  [m]

/-! ## The desired-state bag (`schema.ResourceData`)

The bag is an external collaborator; its accessors follow the contract that
`helper/schema` documents:

* `Get` returns the value planned for a key: the configured value, else the
  `Default` the schema declares for the key, else the zero value of its type;
  the map of a nested block holds every key of the block's schema in this way;
* `GetOk` returns that value "and whether or not the key has been set to a
  non-zero value";
* `HasChange` compares the value recorded in the prior state with the planned one;
* `Set` and `SetId` record what the reconciler writes back.

No operation of the reconcilers reads a key after writing it, so the written
values are kept apart from the planned ones.
-/

/-- The typed fields of a `librato_alert` resource (schema lines 22-122), as the
configuration or the prior state provides them: `none` for a key that is not
provided. -/
structure AlertBag where
  name : Option String := none
  description : Option String := none
  active : Option Bool := none
  md : Option Bool := none
  rearm_seconds : Option Int := none
  services : Option SchemaSet := none
  condition : Option (List ConditionBag) := none
  attributes : Option (List (Option AttributesBag)) := none
  deriving DecidableEq

/-- The typed fields of a `librato_metric` resource (schema lines 21-91), as
the configuration or the prior state provides them. -/
structure MetricBag where
  name : Option String := none
  type : Option String := none
  display_name : Option String := none
  description : Option String := none
  period : Option Int := none
  composite : Option String := none
  attributes : Option (List (Option MetricAttributesBag)) := none
  deriving DecidableEq

/-- A value handed to `d.Set`. -/
inductive SetValue where
  | nil
  | string (s : String)
  | uint (n : Nat)
  | set (s : SchemaSet)
  | conditions (cs : List ConditionBag)
  | attributes (attrs : List AttributesBag)
  | metricAttributes (attrs : List MetricAttributesBag)
  deriving DecidableEq

/-- The `*schema.ResourceData` of an alert: the stored identifier, the values
of the prior state, the planned values, and the values written with `Set`,
latest first. -/
structure AlertData where
  id : String := ""
  state : AlertBag := {}
  config : AlertBag := {}
  written : List (String × SetValue) := []
  deriving DecidableEq

/-- The `*schema.ResourceData` of a metric. -/
structure MetricData where
  id : String := ""
  state : MetricBag := {}
  config : MetricBag := {}
  written : List (String × SetValue) := []
  deriving DecidableEq

/-- `d.Id()`. -/
def AlertData.Id (d : AlertData) : String := d.id

/-- `d.SetId(id)`. -/
def AlertData.SetId (d : AlertData) (id : String) : AlertData := { d with id := id }

/-- `d.Set(key, value)`, for a value of the shape the schema expects. -/
def AlertData.Set (d : AlertData) (key : String) (value : SetValue) : AlertData :=
  { d with written := (key, value) :: d.written }

/-- The writes that took `d` to `d1`, latest first. -/
def AlertData.writesSince (d1 d : AlertData) : List (String × SetValue) :=
  d1.written.take (d1.written.length - d.written.length)

/-- `d.Id()`. -/
def MetricData.Id (d : MetricData) : String := d.id

/-- `d.SetId(id)`. -/
def MetricData.SetId (d : MetricData) (id : String) : MetricData := { d with id := id }

/-- `d.Set(key, value)`, for a value of the shape the schema expects. -/
def MetricData.Set (d : MetricData) (key : String) (value : SetValue) : MetricData :=
  { d with written := (key, value) :: d.written }

/-- `d.Set(key, p)` for a pointer `p`: the value pointed to, `nil` for a nil pointer. -/
def MetricData.SetPtr (d : MetricData) (key : String) (p : Option SetValue) : MetricData :=
  d.Set key (p.getD .nil)

/-- The writes that took `d` to `d1`, latest first. -/
def MetricData.writesSince (d1 d : MetricData) : List (String × SetValue) :=
  d1.written.take (d1.written.length - d.written.length)

namespace AlertBag

/-- `Default: true` of `active` (line 34). -/
def defaultActive : Bool := true

/-- `Default: true` of `md` (line 39). -/
def defaultMd : Bool := true

/-- `Default: 600` of `rearm_seconds` (line 44). -/
def defaultRearmSeconds : Int := 600

end AlertBag

namespace AlertData

/-- `d.Get("name").(string)` on an alert. -/
def Get_name (d : AlertData) : String := d.config.name.getD ""

/-- `d.Get("active").(bool)`. -/
def Get_active (d : AlertData) : Bool := d.config.active.getD AlertBag.defaultActive

/-- `d.Get("md").(bool)`. -/
def Get_md (d : AlertData) : Bool := d.config.md.getD AlertBag.defaultMd

/-- `d.Get("description").(string)` on an alert. -/
def Get_description (d : AlertData) : String := d.config.description.getD ""

/-- `d.Get("rearm_seconds").(int)`. -/
def Get_rearm_seconds (d : AlertData) : Int :=
  d.config.rearm_seconds.getD AlertBag.defaultRearmSeconds

/-- `d.Get("services").(*schema.Set)`. -/
def Get_services (d : AlertData) : SchemaSet := d.config.services.getD ∅

/-- `d.Get("condition").([]interface{})`: the maps of the configured blocks as
`helper/schema` hands them over. -/
def Get_condition (d : AlertData) : List ConditionBag :=
  (d.config.condition.getD []).map ConditionBag.ValueOrZero

/-- `d.Get("attributes").([]interface{})` on an alert. -/
def Get_attributes (d : AlertData) : List (Option AttributesBag) := d.config.attributes.getD []

/-- `d.GetOk("description")` on an alert. -/
def GetOk_description (d : AlertData) : String × Bool :=
  (d.Get_description, decide (d.Get_description ≠ ""))

/-- `d.GetOk("rearm_seconds")`. -/
def GetOk_rearm_seconds (d : AlertData) : Int × Bool :=
  (d.Get_rearm_seconds, decide (d.Get_rearm_seconds ≠ 0))

/-- `d.GetOk("services")`. -/
def GetOk_services (d : AlertData) : SchemaSet × Bool :=
  (d.Get_services, decide (d.Get_services ≠ ∅))

/-- `d.GetOk("condition")`. -/
def GetOk_condition (d : AlertData) : List ConditionBag × Bool :=
  (d.Get_condition, decide (d.Get_condition ≠ []))

/-- `d.GetOk("attributes")` on an alert. -/
def GetOk_attributes (d : AlertData) : List (Option AttributesBag) × Bool :=
  (d.Get_attributes, decide (d.Get_attributes ≠ []))

/-- `d.HasChange("description")` on an alert. -/
def HasChange_description (d : AlertData) : Bool :=
  decide (d.state.description.getD "" ≠ d.Get_description)

/-- `d.HasChange("rearm_seconds")`. -/
def HasChange_rearm_seconds (d : AlertData) : Bool :=
  decide (d.state.rearm_seconds.getD 0 ≠ d.Get_rearm_seconds)

/-- `d.HasChange("services")`. -/
def HasChange_services (d : AlertData) : Bool :=
  decide (d.state.services.getD ∅ ≠ d.Get_services)

/-- `d.HasChange("condition")`. -/
def HasChange_condition (d : AlertData) : Bool :=
  decide ((d.state.condition.getD []).map ConditionBag.ValueOrZero ≠ d.Get_condition)

/-- `d.HasChange("attributes")` on an alert. -/
def HasChange_attributes (d : AlertData) : Bool :=
  decide (d.state.attributes.getD [] ≠ d.Get_attributes)

end AlertData

/-! ## Payloads of the Alert reconciler -/

/-- The `alert` that `resourceLibratoAlertCreate` builds (lines 129-158) and
passes to `client.Alerts.Create` (line 162). -/
def alertCreatePayload (d : AlertData) : Alert :=
  let alert : Alert :=
    { Name := some d.Get_name, Active := some d.Get_active, Md := some d.Get_md }
  let alert := match d.GetOk_description with
    | (v, true) => { alert with Description := some v }
    | _ => alert
  let alert := match d.GetOk_rearm_seconds with
    | (v, true) => { alert with RearmSeconds := some (uint v) }
    | _ => alert
  let alert := match d.GetOk_services with
    | (v, true) =>
      { alert with Services := .list (v.List.map fun serviceData => .int (Atoi serviceData).1) }
    | _ => alert
  let alert := match d.GetOk_condition with
    | (v, true) => { alert with Conditions := some (v.map expandAlertCondition) }
    | _ => alert
  let alert := match d.GetOk_attributes with
    | (v, true) => { alert with Attributes := some (expandAlertAttributes v) }
    | _ => alert
  alert

/-- The attributes step of `resourceLibratoAlertUpdate` (lines 283-303) when
`attributes` has changed: the value assigned to `alert.Attributes`, or the
message of the error returned at line 294. -/
def alertUpdateAttributes (d : AlertData) : Except String AlertAttributes :=
  match d.GetOk_attributes with
  | (_, false) => .ok { RunbookURL := some "" }
  | (attributeData, true) =>
    match attributeData.head? with
    | none => .error "No attributes found in attributes block"
    | some none => .error "No attributes found in attributes block"
    | some (some attributeDataMap) =>
      let attributes : AlertAttributes := {}
      let attributes := match attributeDataMap.runbook_url with
        | some v => if v ≠ "" then { attributes with RunbookURL := some v } else attributes
        | none => attributes
      .ok attributes

/-- The `alert` that `resourceLibratoAlertUpdate` builds (lines 252-303) and
passes to `client.Alerts.Update` (line 307); the error returned at line 294
when the attributes block is empty. -/
def alertUpdatePayload (d : AlertData) : Except String Alert :=
  let alert : Alert :=
    { Name := some d.Get_name, Active := some d.Get_active, Md := some d.Get_md }
  let alert :=
    if d.HasChange_description then { alert with Description := some d.Get_description }
    else alert
  let alert :=
    if d.HasChange_rearm_seconds then { alert with RearmSeconds := some (uint d.Get_rearm_seconds) }
    else alert
  let alert :=
    if d.HasChange_services then
      { alert with Services := .intPtrs (d.Get_services.List.map fun s =>
          match Atoi s with
          | (serviceID, true) => some serviceID
          | (_, false) => none) }
    else alert
  let alert :=
    if d.HasChange_condition then
      { alert with Conditions := some (d.Get_condition.map expandAlertCondition) }
    else alert
  if d.HasChange_attributes then
    match alertUpdateAttributes d with
    | .error e => .error e
    | .ok attributes => .ok { alert with Attributes := some attributes }
  else .ok alert

/-! ## Payloads of the Metric reconciler -/

namespace MetricData

/-- `d.Get("name").(string)` on a metric. -/
def Get_name (d : MetricData) : String := d.config.name.getD ""

/-- `d.Get("type").(string)`. -/
def Get_type (d : MetricData) : String := d.config.type.getD ""

/-- `d.Get("display_name").(string)`. -/
def Get_display_name (d : MetricData) : String := d.config.display_name.getD ""

/-- `d.Get("description").(string)` on a metric. -/
def Get_description (d : MetricData) : String := d.config.description.getD ""

/-- `d.Get("period").(int)`. -/
def Get_period (d : MetricData) : Int := d.config.period.getD 0

/-- `d.Get("composite").(string)`. -/
def Get_composite (d : MetricData) : String := d.config.composite.getD ""

/-- `d.Get("attributes").([]interface{})` on a metric. -/
def Get_attributes (d : MetricData) : List (Option MetricAttributesBag) :=
  d.config.attributes.getD []

/-- `d.GetOk("display_name")`. -/
def GetOk_display_name (d : MetricData) : String × Bool :=
  (d.Get_display_name, decide (d.Get_display_name ≠ ""))

/-- `d.GetOk("description")` on a metric. -/
def GetOk_description (d : MetricData) : String × Bool :=
  (d.Get_description, decide (d.Get_description ≠ ""))

/-- `d.GetOk("period")`. -/
def GetOk_period (d : MetricData) : Int × Bool :=
  (d.Get_period, decide (d.Get_period ≠ 0))

/-- `d.GetOk("composite")`. -/
def GetOk_composite (d : MetricData) : String × Bool :=
  (d.Get_composite, decide (d.Get_composite ≠ ""))

/-- `d.GetOk("attributes")` on a metric. -/
def GetOk_attributes (d : MetricData) : List (Option MetricAttributesBag) × Bool :=
  (d.Get_attributes, decide (d.Get_attributes ≠ []))

/-- `d.HasChange("type")`. -/
def HasChange_type (d : MetricData) : Bool :=
  decide (d.state.type.getD "" ≠ d.Get_type)

/-- `d.HasChange("description")` on a metric. -/
def HasChange_description (d : MetricData) : Bool :=
  decide (d.state.description.getD "" ≠ d.Get_description)

/-- `d.HasChange("display_name")`. -/
def HasChange_display_name (d : MetricData) : Bool :=
  decide (d.state.display_name.getD "" ≠ d.Get_display_name)

/-- `d.HasChange("period")`. -/
def HasChange_period (d : MetricData) : Bool :=
  decide (d.state.period.getD 0 ≠ d.Get_period)

/-- `d.HasChange("composite")`. -/
def HasChange_composite (d : MetricData) : Bool :=
  decide (d.state.composite.getD "" ≠ d.Get_composite)

/-- `d.HasChange("attributes")` on a metric. -/
def HasChange_attributes (d : MetricData) : Bool :=
  decide (d.state.attributes.getD [] ≠ d.Get_attributes)

end MetricData

/-- `extractBool` (metric.go lines 398-406) at one key of the attributes map. -/
def extractBool (raw : Option Bool) : Bool × Bool :=
  match raw with
  | none => (false, false)
  | some b => (b, true)

/-- The fields copied from `attributeDataMap` into `attributes`, as written
both in Create (metric.go lines 124-147) and in Update (lines 254-277). -/
def fillMetricAttributes (attributes : MetricAttributes) (attributeDataMap : MetricAttributesBag) :
    MetricAttributes :=
  let attributes := match attributeDataMap.color with
    | some v => if v ≠ "" then { attributes with Color := some v } else attributes
    | none => attributes
  let attributes := match attributeDataMap.display_max with
    | some v => if v ≠ "" then { attributes with DisplayMax := .stringPtr v } else attributes
    | none => attributes
  let attributes := match attributeDataMap.display_min with
    | some v => if v ≠ "" then { attributes with DisplayMin := .stringPtr v } else attributes
    | none => attributes
  let attributes := match attributeDataMap.display_units_long with
    | some v => if v ≠ "" then { attributes with DisplayUnitsLong := some v } else attributes
    | none => attributes
  let attributes := match attributeDataMap.display_units_short with
    | some v => if v ≠ "" then { attributes with DisplayUnitsShort := some v } else attributes
    | none => attributes
  let attributes := match extractBool attributeDataMap.display_stacked with
    | (v, true) => { attributes with DisplayStacked := some v }
    | _ => attributes
  let attributes := match extractBool attributeDataMap.gap_detection with
    | (v, true) => { attributes with GapDetection := some v }
    | _ => attributes
  let attributes := match extractBool attributeDataMap.aggregate with
    | (v, true) => { attributes with Aggregate := some v }
    | _ => attributes
  attributes

/-- The `metric` that `resourceLibratoMetricCreate` builds (lines 98-151) and
passes to `client.Metrics.Update` (line 153); `none` when the unchecked
assertion of line 121 panics on a nil element. -/
def metricCreatePayload (d : MetricData) : Option Metric :=
  let metric : Metric := { Name := some d.Get_name, Type_ := some d.Get_type }
  let metric := match d.GetOk_display_name with
    | (a, true) => { metric with DisplayName := some a }
    | _ => metric
  let metric := match d.GetOk_description with
    | (a, true) => { metric with Description := some a }
    | _ => metric
  let metric := match d.GetOk_period with
    | (a, true) => { metric with Period := some (uint a) }
    | _ => metric
  let metric := match d.GetOk_composite with
    | (a, true) => { metric with Composite := some a }
    | _ => metric
  match d.GetOk_attributes with
  | (attributeData, true) =>
    match attributeData with
    | [none] => none
    | [some attributeDataMap] =>
      some { metric with Attributes := some (fillMetricAttributes {} attributeDataMap) }
    | _ => some metric
  | _ => some metric

/-- The `metric` that `resourceLibratoMetricUpdate` builds (lines 225-283) and
passes to `client.Metrics.Update` (line 287); `none` when the unchecked
assertion of line 252 panics on a nil element. -/
def metricUpdatePayload (d : MetricData) : Option Metric :=
  let id := d.Id
  let metric : Metric := { Name := some id }
  let metric :=
    if d.HasChange_type then { metric with Type_ := some d.Get_type } else metric
  let metric :=
    if d.HasChange_description then { metric with Description := some d.Get_description }
    else metric
  let metric :=
    if d.HasChange_display_name then { metric with DisplayName := some d.Get_display_name }
    else metric
  let metric :=
    if d.HasChange_period then { metric with Period := some (uint d.Get_period) } else metric
  let metric :=
    if d.HasChange_composite then { metric with Composite := some d.Get_composite } else metric
  if d.HasChange_attributes then
    let attributes : MetricAttributes := {}
    match d.Get_attributes with
    | [none] => none
    | [some attributeDataMap] =>
      some { metric with Attributes := some (fillMetricAttributes attributes attributeDataMap) }
    | _ => some { metric with Attributes := some attributes }
  else some metric

/-! ## The remote API client -/

/-- An `error` returned by the client: a `*librato.ErrorResponse` carrying the
HTTP status code of the response, or an error of any other type. -/
inductive ClientError where
  | response (statusCode : Nat) (message : String)
  | other (message : String)
  deriving DecidableEq, Repr

/-- `err.Error()`, as rendered by the `%s` verb. -/
def ClientError.Error : ClientError → String
  | .response _ message => message
  | .other message => message

/-- The test `errResp, ok := err.(*librato.ErrorResponse); ok &&
errResp.Response.StatusCode == 404`. -/
def ClientError.isNotFound : ClientError → Bool
  | .response statusCode _ => statusCode == 404
  | .other _ => false

/-- A call issued to the client. -/
inductive Call where
  | alertsCreate (alert : Alert)
  | alertsGet (id : Nat)
  | alertsUpdate (id : Nat) (alert : Alert)
  | alertsDelete (id : Nat)
  | metricsGet (name : String)
  | metricsUpdate (metric : Metric)
  | metricsDelete (name : String)
  deriving DecidableEq, Repr

/-- The `*librato.Client`. The remote API is eventually consistent, so the
answer to a call may depend on every call issued before it: each method
receives that history, earliest call first. -/
structure Client where
  AlertsCreate : List Call → Alert → Except ClientError Alert
  AlertsGet : List Call → Nat → Except ClientError Alert
  AlertsUpdate : List Call → Nat → Alert → Option ClientError
  AlertsDelete : List Call → Nat → Option ClientError
  MetricsGet : List Call → String → Except ClientError Metric
  MetricsUpdate : List Call → Metric → Option ClientError
  MetricsDelete : List Call → String → Option ClientError

/-- How an operation of a reconciler ends: it returns `nil`, it returns an
error with the given message, or it panics. -/
inductive Status where
  | ok
  | error (message : String)
  | fault
  deriving DecidableEq, Repr

/-- The result of running an operation: how it ended, the bag it leaves, and
the calls it issued to the client, earliest first. -/
structure Outcome (δ : Type) where
  status : Status
  data : δ
  calls : List Call

/-- A hexadecimal digit, lower case. -/
def hexDigit (n : Nat) : Char := "0123456789abcdef".toList.getD n (Char.ofNat 48)

/-- Go's `strconv.Quote` on one rune: a double quote and a backslash are
escaped, the control characters of ASCII are written with their letter (`\a`,
`\b`, `\f`, `\n`, `\r`, `\t`, `\v`) or as `\x` and two hexadecimal digits,
every other rune of ASCII stands for itself. A rune outside ASCII is written as
itself, which is what Go does for the printable ones. -/
def quoteRune (c : Char) : String :=
  if c.toNat = 34 then "\\\"" else if c.toNat = 92 then "\\\\"
  else if c.toNat = 7 then "\\a" else if c.toNat = 8 then "\\b"
  else if c.toNat = 12 then "\\f" else if c.toNat = 10 then "\\n"
  else if c.toNat = 13 then "\\r" else if c.toNat = 9 then "\\t"
  else if c.toNat = 11 then "\\v"
  else if c.toNat < 32 ∨ c.toNat = 127 then
    "\\x" ++ String.mk [hexDigit (c.toNat / 16), hexDigit (c.toNat % 16)]
  else String.singleton c

/-- Go's `strconv.Quote`. -/
def Quote (s : String) : String :=
  "\"" ++ String.join (s.toList.map quoteRune) ++ "\""

/-- The message of the `*strconv.NumError` that `strconv.ParseUint` returns for `s`. -/
def parseUintError (s : String) : String :=
  "strconv.ParseUint: parsing " ++ Quote s ++ ": " ++
    (if (parseDigits s.toList).isSome then "value out of range" else "invalid syntax")

/-! ## Read of the Alert reconciler -/

/-- The body of the loop at alert.go lines 220-223 for one element of
`alert.Services`; `none` when the assertion `s.(map[string]interface{})` panics. -/
def flattenService : ServiceEntry → Option String
  | .object id => some id.fmtDotF
  | _ => none

/-- The flatten step of `resourceLibratoAlertRead` (lines 206-241) on the alert
returned by `Get`: how it ends, and the bag at that point. -/
def flattenAlert (d : AlertData) (alert : Alert) : Status × AlertData :=
  match alert.Name with
  | none => (.fault, d)
  | some name =>
    let d := d.Set "name" (.string name)
    let d := match alert.Description with
      | some description => d.Set "description" (.string description)
      | none => d
    let d := match alert.RearmSeconds with
      | some rearmSeconds =>
        if rearmSeconds ≠ 600 then d.Set "rearm_seconds" (.uint rearmSeconds) else d
      | none => d
    match alert.Services with
    | .list entries =>
      match forEach flattenService entries with
      | none => (.fault, d)
      | some services =>
        let d := d.Set "services" (.set (NewSet services))
        let conditions :=
          if (alert.Conditions.getD []).length > 0 then
            match forEach flattenCondition (alert.Conditions.getD []) with
            | none => none
            | some conditions => some (d.Set "condition" (.conditions conditions))
          else some d
        match conditions with
        | none => (.fault, d)
        | some d =>
          let d := match alert.Attributes with
            | some attributes => d.Set "attributes" (.attributes (flattenAttributes attributes))
            | none => d
          (.ok, d)
    | _ => (.fault, d)

/-- `resourceLibratoAlertRead` (lines 185-242), run after the calls `past`. -/
def resourceLibratoAlertRead (client : Client) (d : AlertData) (past : List Call) :
    Outcome AlertData :=
  match ParseUint d.Id with
  | none => { status := .error (parseUintError d.Id), data := d, calls := [] }
  | some id =>
    match client.AlertsGet past id with
    | .error err =>
      if err.isNotFound then
        { status := .ok, data := d.SetId "", calls := [.alertsGet id] }
      else
        { status := .error ("Error reading Librato Alert " ++ d.Id ++ ": " ++ err.Error),
          data := d, calls := [.alertsGet id] }
    | .ok alert =>
      { status := (flattenAlert d alert).1, data := (flattenAlert d alert).2,
        calls := [.alertsGet id] }

/-! ## Read of the Metric reconciler -/

/-- `metricAttributesGather` (metric.go lines 356-391). `sprintV` is
`fmt.Sprintf("%v", x)` of the Go runtime, applied to the non-nil
`interface{}` values `DisplayMax` and `DisplayMin`. An empty result is Go's
nil slice. -/
def metricAttributesGather (sprintV : DisplayValue → String)
    (attributes : Option MetricAttributes) : List MetricAttributesBag :=
  let retAttributes : MetricAttributesBag := {}
  let retAttributes := match attributes with
    | none => retAttributes
    | some attributes =>
      let ret := retAttributes
      let ret := match attributes.Color with
        | some v => { ret with color := some v }
        | none => ret
      let ret :=
        if attributes.DisplayMax ≠ .nil then
          { ret with display_max := some (sprintV attributes.DisplayMax) }
        else ret
      let ret :=
        if attributes.DisplayMin ≠ .nil then
          { ret with display_min := some (sprintV attributes.DisplayMin) }
        else ret
      let ret := match attributes.DisplayUnitsLong with
        | some v => { ret with display_units_long := some v }
        | none => ret
      let ret := match attributes.DisplayUnitsShort with
        | some v => { ret with display_units_short := some v }
        | none => ret
      let ret := match attributes.DisplayStacked with
        | some v => { ret with display_stacked := some v }
        | none => ret
      let ret := match attributes.GapDetection with
        | some v => { ret with gap_detection := some v }
        | none => ret
      let ret := match attributes.Aggregate with
        | some v => { ret with aggregate := some v }
        | none => ret
      ret
  if retAttributes = {} then [] else [retAttributes]

/-- The flatten step of `resourceLibratoMetricRead` (lines 192-219). -/
def flattenMetric (sprintV : DisplayValue → String) (d : MetricData) (metric : Metric) :
    MetricData :=
  let d := d.SetPtr "name" (metric.Name.map .string)
  let d := d.SetPtr "type" (metric.Type_.map .string)
  let d := match metric.Description with
    | some v => d.Set "description" (.string v)
    | none => d
  let d := match metric.DisplayName with
    | some v => d.Set "display_name" (.string v)
    | none => d
  let d := match metric.Period with
    | some v => d.Set "period" (.uint v)
    | none => d
  let d := match metric.Composite with
    | some v => d.Set "composite" (.string v)
    | none => d
  let attributes := metricAttributesGather sprintV metric.Attributes
  d.Set "attributes" (.metricAttributes attributes)

/-- `resourceLibratoMetricRead` (lines 177-220), run after the calls `past`. -/
def resourceLibratoMetricRead (sprintV : DisplayValue → String) (client : Client)
    (d : MetricData) (past : List Call) : Outcome MetricData :=
  let id := d.Id
  match client.MetricsGet past id with
  | .error err =>
    if err.isNotFound then
      { status := .ok, data := d.SetId "", calls := [.metricsGet id] }
    else
      { status := .error ("Error reading Librato Metric " ++ id ++ ": " ++ err.Error),
        data := d, calls := [.metricsGet id] }
  | .ok metric =>
    { status := .ok, data := flattenMetric sprintV d metric, calls := [.metricsGet id] }

/-! ## The eventual-consistency waiter (`helper/resource`) -/

/-- One second as a `time.Duration`, in nanoseconds. -/
def Second : Nat := 1000000000

/-- One minute as a `time.Duration`. -/
def Minute : Nat := 60 * Second

/-- The `%s` rendering of an `error` that may be nil. -/
def fmtError : Option String → String
  | some message => message
  | none => "%!s(<nil>)"

/-- Go's `strconv.FormatUint(n, 10)`. -/
def FormatUint (n : Nat) : String := toString n

/-- A non-nil `*resource.RetryError`, carrying the message of its error. -/
inductive RetryError where
  | RetryableError (err : String)
  | NonRetryableError (err : String)
  deriving DecidableEq, Repr

/-- Modelled from the spec: the bounded-polling waiter of section 4.4 as
reached through `resource.Retry(timeout, f)`, whose code is not among the
sources. The probe `f` is polled at once and then again and again: a nil
result ends the wait with success, a non-retryable error aborts it at once
with that error, a retryable error lets it go on. Real time is not modelled:
`polls` is the number of further polls that fit before the timeout, and when
none is left the wait ends with the last error of the probe. `history` holds
the calls issued so far; the result is the error of the wait (`none` for
success) with the calls its probes issued. -/
def Retry (f : List Call → Option RetryError × List Call) :
    Nat → List Call → Option String × List Call
  | polls, history =>
    match f history with
    | (none, calls) => (none, calls)
    | (some (.NonRetryableError err), calls) => (some err, calls)
    | (some (.RetryableError err), calls) =>
      match polls with
      | 0 => (some err, calls)
      | polls + 1 =>
        match Retry f polls (history ++ calls) with
        | (result, more) => (result, calls ++ more)

/-- What a `resource.StateRefreshFunc` returns: the state and the error. The
result value is left out: the probes of this provider return a non-nil value
whenever they return no error. -/
structure RefreshResult where
  state : String
  err : Option String
  deriving DecidableEq, Repr

/-- A `resource.StateChangeConf`, with the fields this provider sets. -/
structure StateChangeConf where
  Pending : List String
  Target : List String
  Timeout : Nat
  MinTimeout : Nat
  ContinuousTargetOccurence : Nat
  Refresh : List Call → RefreshResult × List Call

/-- The message of the error with which a wait ends at its timeout. -/
def StateChangeConf.timeoutError (conf : StateChangeConf) : String :=
  "timeout while waiting for state to become '" ++ ", ".intercalate conf.Target ++ "'"

/-- The message of the error with which a wait ends on a state that is neither
a target nor a pending one. -/
def StateChangeConf.unexpectedStateError (conf : StateChangeConf) (state : String) : String :=
  "unexpected state '" ++ state ++ "', wanted target '" ++ ", ".intercalate conf.Target ++ "'"

/-- Modelled from the spec: the polling loop of the waiter of section 4.4
(`StateChangeConf.WaitForState`), whose code is not among the sources. The
probe is polled at once and then again and again; an error of the probe aborts
the wait at once with that error; a target state adds one to the count of
consecutive target observations and the wait succeeds when the count reaches
`ContinuousTargetOccurence`; a pending state resets the count. Real time is
not modelled: `polls` is the number of further polls that fit before
`Timeout`, polls being at least `MinTimeout` apart. -/
def StateChangeConf.waitLoop (conf : StateChangeConf) :
    Nat → Nat → List Call → Option String × List Call
  | polls, targetOccurence, history =>
    match conf.Refresh history with
    | (r, calls) =>
      match r.err with
      | some err => (some err, calls)
      | none =>
        if r.state ∈ conf.Target ∧
            targetOccurence + 1 = max conf.ContinuousTargetOccurence 1 then
          (none, calls)
        else if r.state ∈ conf.Target ∨ r.state ∈ conf.Pending then
          match polls with
          | 0 => (some conf.timeoutError, calls)
          | polls + 1 =>
            match conf.waitLoop polls (if r.state ∈ conf.Target then targetOccurence + 1 else 0)
              (history ++ calls) with
            | (result, more) => (result, calls ++ more)
        else (some (conf.unexpectedStateError r.state), calls)

/-- Modelled from the spec: `conf.WaitForState()`, the waiter of section 4.4
started with no target observation yet. -/
def StateChangeConf.WaitForState (conf : StateChangeConf) (polls : Nat) (history : List Call) :
    Option String × List Call :=
  conf.waitLoop polls 0 history

/-- The outcome of an operation that ran after the calls `earlier` of the same
invocation. -/
def Outcome.after {δ : Type} (o : Outcome δ) (earlier : List Call) : Outcome δ :=
  { o with calls := earlier ++ o.calls }

/-! ## Create, Update and Delete of the Alert reconciler

Each operation takes the client, the number `polls` of further polls that fit
in its wait, the bag, and the calls `past` issued before it. -/

/-- The probe of the wait after Create (alert.go lines 167-176). -/
def alertCreatedProbe (client : Client) (id : Nat) (history : List Call) :
    Option RetryError × List Call :=
  match client.AlertsGet history id with
  | .error err =>
    if err.isNotFound then (some (.RetryableError err.Error), [.alertsGet id])
    else (some (.NonRetryableError err.Error), [.alertsGet id])
  | .ok _ => (none, [.alertsGet id])

/-- `resourceLibratoAlertCreate` (lines 126-183). At line 178 the message is
built from `err`, the variable assigned at line 162, which is nil on that path:
the closure of line 167 declares an `err` of its own. -/
def resourceLibratoAlertCreate (client : Client) (polls : Nat) (d : AlertData)
    (past : List Call) : Outcome AlertData :=
  let alert := alertCreatePayload d
  match client.AlertsCreate past alert with
  | .error err =>
    { status := .error ("Error creating Librato alert " ++ alert.Name.getD "" ++ ": " ++ err.Error),
      data := d, calls := [.alertsCreate alert] }
  | .ok alertRes =>
    let err : Option String := none
    match alertRes.ID with
    | none => { status := .fault, data := d, calls := [.alertsCreate alert] }
    | some id =>
      match Retry (alertCreatedProbe client id) polls (past ++ [.alertsCreate alert]) with
      | (some _, calls) =>
        { status := .error ("Error creating librato alert: " ++ fmtError err),
          data := d, calls := .alertsCreate alert :: calls }
      | (none, calls) =>
        (resourceLibratoAlertRead client (d.SetId (FormatUint id))
          (past ++ .alertsCreate alert :: calls)).after (.alertsCreate alert :: calls)

/-- The `Refresh` function of the wait after Update (alert.go lines 321-331). -/
def alertUpdateRefresh (client : Client) (id : Nat) (history : List Call) :
    RefreshResult × List Call :=
  match client.AlertsGet history id with
  | .error getErr => ({ state := "", err := some getErr.Error }, [.alertsGet id])
  | .ok _ => ({ state := "true", err := none }, [.alertsGet id])

/-- The `wait` of `resourceLibratoAlertUpdate` (alert.go lines 315-332). -/
def alertUpdateWait (client : Client) (id : Nat) : StateChangeConf :=
  { Pending := ["false"]
    Target := ["true"]
    Timeout := 5 * Minute
    MinTimeout := 2 * Second
    ContinuousTargetOccurence := 5
    Refresh := alertUpdateRefresh client id }

/-- `resourceLibratoAlertUpdate` (lines 244-340). -/
def resourceLibratoAlertUpdate (client : Client) (polls : Nat) (d : AlertData)
    (past : List Call) : Outcome AlertData :=
  match ParseUint d.Id with
  | none => { status := .error (parseUintError d.Id), data := d, calls := [] }
  | some id =>
    match alertUpdatePayload d with
    | .error e => { status := .error e, data := d, calls := [] }
    | .ok alert =>
      match client.AlertsUpdate past id alert with
      | some updErr =>
        { status := .error ("Error updating Librato alert: " ++ updErr.Error),
          data := d, calls := [.alertsUpdate id alert] }
      | none =>
        match (alertUpdateWait client id).WaitForState polls (past ++ [.alertsUpdate id alert]) with
        | (some err, calls) =>
          { status := .error ("Failed updating Librato Alert " ++ toString id ++ ": " ++ err),
            data := d, calls := .alertsUpdate id alert :: calls }
        | (none, calls) =>
          (resourceLibratoAlertRead client d (past ++ .alertsUpdate id alert :: calls)).after
            (.alertsUpdate id alert :: calls)

/-- The probe of the wait after Delete (alert.go lines 357-366). -/
def alertDeletedProbe (client : Client) (id : Nat) (history : List Call) :
    Option RetryError × List Call :=
  match client.AlertsGet history id with
  | .error err =>
    if err.isNotFound then (none, [.alertsGet id])
    else (some (.NonRetryableError err.Error), [.alertsGet id])
  | .ok _ => (some (.RetryableError "alert still exists"), [.alertsGet id])

/-- `resourceLibratoAlertDelete` (lines 342-372). At line 368 the message is
built from `err`, the variable assigned at line 352, which is nil on that path. -/
def resourceLibratoAlertDelete (client : Client) (polls : Nat) (d : AlertData)
    (past : List Call) : Outcome AlertData :=
  match ParseUint d.Id with
  | none => { status := .error (parseUintError d.Id), data := d, calls := [] }
  | some id =>
    match client.AlertsDelete past id with
    | some err =>
      { status := .error ("Error deleting Alert: " ++ err.Error), data := d,
        calls := [.alertsDelete id] }
    | none =>
      let err : Option String := none
      match Retry (alertDeletedProbe client id) polls (past ++ [.alertsDelete id]) with
      | (some _, calls) =>
        { status := .error ("Error deleting librato alert: " ++ fmtError err),
          data := d, calls := .alertsDelete id :: calls }
      | (none, calls) => { status := .ok, data := d, calls := .alertsDelete id :: calls }

/-! ## Create, Update and Delete of the Metric reconciler -/

/-- The probe of the wait after Create (metric.go lines 159-168). -/
def metricCreatedProbe (client : Client) (name : String) (history : List Call) :
    Option RetryError × List Call :=
  match client.MetricsGet history name with
  | .error err =>
    if err.isNotFound then (some (.RetryableError err.Error), [.metricsGet name])
    else (some (.NonRetryableError err.Error), [.metricsGet name])
  | .ok _ => (none, [.metricsGet name])

/-- `resourceLibratoMetricCreate` (lines 95-175). -/
def resourceLibratoMetricCreate (sprintV : DisplayValue → String) (client : Client)
    (polls : Nat) (d : MetricData) (past : List Call) : Outcome MetricData :=
  match metricCreatePayload d with
  | none => { status := .fault, data := d, calls := [] }
  | some metric =>
    match client.MetricsUpdate past metric with
    | some err =>
      { status := .error ("Error creating Librato metric: " ++ err.Error), data := d,
        calls := [.metricsUpdate metric] }
    | none =>
      match metric.Name with
      | none => { status := .fault, data := d, calls := [.metricsUpdate metric] }
      | some name =>
        match Retry (metricCreatedProbe client name) polls (past ++ [.metricsUpdate metric]) with
        | (some retryErr, calls) =>
          { status := .error ("Error creating Librato metric: " ++ retryErr), data := d,
            calls := .metricsUpdate metric :: calls }
        | (none, calls) =>
          (resourceLibratoMetricRead sprintV client (d.SetId name)
            (past ++ .metricsUpdate metric :: calls)).after (.metricsUpdate metric :: calls)

/-- The `Refresh` function of the wait after Update (metric.go lines 301-308). -/
def metricUpdateRefresh (client : Client) (id : String) (history : List Call) :
    RefreshResult × List Call :=
  match client.MetricsGet history id with
  | .error getErr => ({ state := "", err := some getErr.Error }, [.metricsGet id])
  | .ok _ => ({ state := "true", err := none }, [.metricsGet id])

/-- The `wait` of `resourceLibratoMetricUpdate` (metric.go lines 295-309). -/
def metricUpdateWait (client : Client) (id : String) : StateChangeConf :=
  { Pending := ["false"]
    Target := ["true"]
    Timeout := 5 * Minute
    MinTimeout := 2 * Second
    ContinuousTargetOccurence := 5
    Refresh := metricUpdateRefresh client id }

/-- `resourceLibratoMetricUpdate` (lines 222-318). -/
def resourceLibratoMetricUpdate (sprintV : DisplayValue → String) (client : Client)
    (polls : Nat) (d : MetricData) (past : List Call) : Outcome MetricData :=
  let id := d.Id
  match metricUpdatePayload d with
  | none => { status := .fault, data := d, calls := [] }
  | some metric =>
    match client.MetricsUpdate past metric with
    | some err =>
      { status := .error ("Error updating Librato metric: " ++ err.Error), data := d,
        calls := [.metricsUpdate metric] }
    | none =>
      match (metricUpdateWait client id).WaitForState polls (past ++ [.metricsUpdate metric]) with
      | (some err, calls) =>
        { status := .error ("Failed updating Librato Metric " ++ id ++ ": " ++ err),
          data := d, calls := .metricsUpdate metric :: calls }
      | (none, calls) =>
        (resourceLibratoMetricRead sprintV client d
          (past ++ .metricsUpdate metric :: calls)).after (.metricsUpdate metric :: calls)

/-- The probe of the wait after Delete (metric.go lines 332-347). -/
def metricDeletedProbe (client : Client) (id : String) (history : List Call) :
    Option RetryError × List Call :=
  match client.MetricsGet history id with
  | .error err =>
    if err.isNotFound then (none, [.metricsGet id])
    else (some (.NonRetryableError err.Error), [.metricsGet id])
  | .ok _ => (some (.RetryableError "metric still exists"), [.metricsGet id])

/-- `resourceLibratoMetricDelete` (lines 320-353). -/
def resourceLibratoMetricDelete (client : Client) (polls : Nat) (d : MetricData)
    (past : List Call) : Outcome MetricData :=
  let id := d.Id
  match client.MetricsDelete past id with
  | some err =>
    { status := .error ("Error deleting Metric: " ++ err.Error), data := d,
      calls := [.metricsDelete id] }
  | none =>
    match Retry (metricDeletedProbe client id) polls (past ++ [.metricsDelete id]) with
    | (some retryErr, calls) =>
      { status := .error ("Error deleting librato metric: " ++ retryErr), data := d,
        calls := .metricsDelete id :: calls }
    | (none, calls) => { status := .ok, data := d, calls := .metricsDelete id :: calls }

/-! ## The provider (`provider.go`) -/

/-- The values `d.Get` returns for the keys of the provider schema (lines
15-36): the configured value, else the environment default of the key, else the
empty string. -/
structure ProviderData where
  url : String := ""
  email : String := ""
  token : String := ""
  deriving DecidableEq, Repr

/-- `providerConfigure` (lines 50-62). `url.Parse` of `net/url` and the two
constructors of go-librato, `librato.NewClientWithBaseURL` and
`librato.NewClient`, are not among the sources: they are parameters, `Parse`
returning the URL or the message of its error. -/
def providerConfigure {URL C : Type} (Parse : String → Except String URL)
    (NewClientWithBaseURL : URL → String → String → C) (NewClient : String → String → C)
    (d : ProviderData) : Except String C :=
  let email := d.email
  let token := d.token
  if d.url ≠ "" then
    match Parse d.url with
    | .error err => .error ("Unable to parse librato URL: " ++ err)
    | .ok u => .ok (NewClientWithBaseURL u email token)
  else .ok (NewClient email token)

/-! ## The converters, statement by statement

Each definition below is one `if` statement of `expandAlertCondition` or of
`flattenCondition`, acting on the value built so far; the converters are the
composition of their statements (`expandAlertCondition_steps`,
`flattenCondition_steps`). -/

namespace expandAlertCondition

/-- Lines 379-381. -/
def setType (m : ConditionBag) (condition : AlertCondition) : AlertCondition :=
  match m.type with
  | some v => { condition with Type_ := some v }
  | none => condition

/-- Lines 382-384. -/
def setMetricName (m : ConditionBag) (condition : AlertCondition) : AlertCondition :=
  match m.metric_name with
  | some v => if v.length > 0 then { condition with MetricName := some v } else condition
  | none => condition

/-- Lines 385-387. -/
def setSource (m : ConditionBag) (condition : AlertCondition) : AlertCondition :=
  match m.source with
  | some v => if v.length > 0 then { condition with Source := some v } else condition
  | none => condition

/-- Lines 388-390. -/
def setDetectReset (m : ConditionBag) (condition : AlertCondition) : AlertCondition :=
  match m.detect_reset with
  | some v => { condition with DetectReset := some v }
  | none => condition

/-- Lines 391-393. -/
def setDuration (m : ConditionBag) (condition : AlertCondition) : AlertCondition :=
  match m.duration with
  | some v => { condition with Duration := some (uint v) }
  | none => condition

/-- Lines 394-396. -/
def setSummaryFunction (m : ConditionBag) (condition : AlertCondition) : AlertCondition :=
  match m.summary_function with
  | some v => { condition with SummaryFunction := some v }
  | none => condition

/-- Lines 397-399. -/
def setThreshold (m : ConditionBag) (condition : AlertCondition) : AlertCondition :=
  match m.threshold with
  | some v => if !v.IsNaN then { condition with Threshold := some v } else condition
  | none => condition

/-- Lines 400-406. -/
def setTags (m : ConditionBag) (condition : AlertCondition) : AlertCondition :=
  match m.tag with
  | some v =>
    if v.length > 0 then { condition with Tags := some (v.map expandAlertConditionTagSet) }
    else condition
  | none => condition

end expandAlertCondition

namespace flattenCondition

/-- Lines 447-449. -/
def setType (condition : AlertCondition) (m : ConditionBag) : ConditionBag :=
  match condition.Type_ with
  | some v => { m with type := some v }
  | none => m

/-- Lines 450-452. -/
def setMetricName (condition : AlertCondition) (m : ConditionBag) : ConditionBag :=
  match condition.MetricName with
  | some v => { m with metric_name := some v }
  | none => m

/-- Lines 453-455. -/
def setSource (condition : AlertCondition) (m : ConditionBag) : ConditionBag :=
  match condition.Source with
  | some v => { m with source := some v }
  | none => m

/-- Lines 456-458. -/
def setDetectReset (condition : AlertCondition) (m : ConditionBag) : ConditionBag :=
  match condition.DetectReset with
  | some v => { m with detect_reset := some v }
  | none => m

/-- Lines 459-461. -/
def setThreshold (condition : AlertCondition) (m : ConditionBag) : ConditionBag :=
  match condition.Threshold with
  | some v => { m with threshold := some v }
  | none => m

/-- Lines 462-464. -/
def setSummaryFunction (condition : AlertCondition) (m : ConditionBag) : ConditionBag :=
  match condition.SummaryFunction with
  | some v => { m with summary_function := some v }
  | none => m

/-- Lines 465-467. -/
def setDuration (condition : AlertCondition) (m : ConditionBag) : ConditionBag :=
  match condition.Duration with
  | some v => { m with duration := some (v : Int) }
  | none => m

/-- Lines 468-475. -/
def setTag (condition : AlertCondition) (m : ConditionBag) : Option ConditionBag :=
  if (condition.Tags.getD []).length > 0 then
    match forEach flattenTagsReferance (condition.Tags.getD []) with
    | none => none
    | some flattenedTags => some { m with tag := some flattenedTags }
  else some m

end flattenCondition

/-- A tag map as it comes back from the remote form: an empty `values` set is dropped. -/
def TagBag.dropEmptyValues (t : TagBag) : TagBag :=
  { t with values := if t.values = some ∅ then none else t.values }

/-! ## Sample inputs -/

/-- A client whose `Get` calls answer with the given results and whose writes succeed. -/
def sampleClient (alert : Except ClientError Alert) (metric : Except ClientError Metric) :
    Client where
  AlertsCreate := fun _ a => .ok a
  AlertsGet := fun _ _ => alert
  AlertsUpdate := fun _ _ _ => none
  AlertsDelete := fun _ _ => none
  MetricsGet := fun _ _ => metric
  MetricsUpdate := fun _ _ => none
  MetricsDelete := fun _ _ => none

/-- The bag of alert 42, nothing written yet. -/
def sampleAlertData : AlertData := { id := "42" }

/-- The bag of the metric `cpu`, nothing written yet. -/
def sampleMetricData : MetricData := { id := "cpu" }

/-- A bag in which only `name` is configured. -/
def minimalAlertData : AlertData := { config := { name := some "cpu-high" } }

/-- A remote alert with a name and flags, no description, no rearm interval, an
empty services list, no conditions and no attributes. -/
def minimalRemoteAlert : Alert :=
  { ID := some 42, Name := some "cpu-high", Active := some true, Md := some true,
    Services := .list [] }

/-- The bag of alert 42 in an Update where only `services` changed, from the
empty set to the set holding `"7"`. -/
def servicesChangedData : AlertData :=
  { id := "42"
    state := { name := some "cpu-high", active := some true, md := some true,
               rearm_seconds := some 600 }
    config := { name := some "cpu-high", services := some {"7"} } }

/-- The bag of alert 42 in an Update that removes the `attributes` block. -/
def attributesRemovedData : AlertData :=
  { id := "42"
    state := { name := some "cpu-high", active := some true, md := some true,
               rearm_seconds := some 600,
               attributes := some [some { runbook_url := some "https://runbook" }] }
    config := { name := some "cpu-high" } }

/-- The bag of the metric `cpu` in an Update where only `description` changed. -/
def descriptionChangedMetric : MetricData :=
  { id := "cpu"
    state := { name := some "cpu", type := some "gauge", description := some "old" }
    config := { name := some "cpu", type := some "gauge", description := some "new" } }

/-- The bag of the metric `cpu` in an Update that removes the `attributes` block. -/
def attributesRemovedMetric : MetricData :=
  { id := "cpu"
    state := { name := some "cpu", type := some "gauge",
               attributes := some [some { color := some "red" }] }
    config := { name := some "cpu", type := some "gauge" } }

/-- A condition map whose `threshold` is set to not-a-number. -/
def nanThresholdCondition : ConditionBag :=
  { type := some "above", metric_name := some "cpu", threshold := some .nan }

/-- A tag map whose `values` is set to the empty set. -/
def emptyValuesTag : TagBag := { name := some "env", values := some ∅ }

/-- A condition map with every key set. -/
def fullCondition : ConditionBag :=
  { type := some "above", metric_name := some "cpu", source := some "web-1",
    tag := some [{ name := some "env", grouped := some true, values := some {"prod"} }],
    detect_reset := some false, duration := some 600,
    threshold := some (.finite false 10 0), summary_function := some "average" }

/-- A condition map with only the required keys. -/
def requiredOnlyCondition : ConditionBag := { type := some "above", metric_name := some "cpu" }

/-- The `float64` `f` holds the non-negative integer `n`. -/
def Float64.holdsNat (f : Float64) (n : Nat) : Bool :=
  match f with
  | .finite false mant exp =>
    if 0 ≤ exp then mant * 2 ^ exp.toNat == n else mant == n * 2 ^ (-exp).toNat
  | _ => false

/-- A remote alert whose `Name` is null. -/
def namelessRemoteAlert : Alert := { ID := some 42, Services := .list [] }

/-- A remote alert whose `Services` field is null. -/
def nullServicesRemoteAlert : Alert := { ID := some 42, Name := some "cpu-high" }

/-- A remote alert whose `Services` list holds a value that is not an object. -/
def malformedServicesRemoteAlert : Alert :=
  { ID := some 42, Name := some "cpu-high", Services := .list [.other] }

/-- A remote alert with a tag one of whose `Values` entries is null. -/
def nullTagValueRemoteAlert : Alert :=
  { ID := some 42, Name := some "cpu-high", Services := .list [],
    Conditions := some [{ Type_ := some "above", MetricName := some "cpu",
                          Tags := some [{ Name := some "env", Values := some [none] }] }] }

/-- A bag with one configured condition. -/
def conditionAlertData : AlertData :=
  { config := { name := some "cpu-high", condition := some [fullCondition] } }

/-- One remote condition with one tag. -/
def remoteCondition : AlertCondition :=
  { Type_ := some "above", MetricName := some "cpu", Duration := some 600,
    Tags := some [{ Name := some "env", Values := some [some "b", some "a", some "b"] }] }

/-- A remote alert with one condition and one service, of id 7. -/
def fullRemoteAlert : Alert :=
  { ID := some 42, Name := some "cpu-high",
    Services := .list [.object (.number (.finite false 7 0))],
    Conditions := some [remoteCondition] }

/-- The minimal remote alert with the services 7 and 9. -/
def twoServicesRemoteAlert : Alert :=
  { minimalRemoteAlert with
    Services := ServicesValue.list
      [.object (.number (.finite false 7 0)), .object (.number (.finite false 9 0))] }

/-- The same alert with its services listed as 9, 7, 7. -/
def repeatedServicesRemoteAlert : Alert :=
  { minimalRemoteAlert with
    Services := ServicesValue.list
      [.object (.number (.finite false 9 0)), .object (.number (.finite false 7 0)),
        .object (.number (.finite false 7 0))] }

/-- The number of `Get` calls in a history. -/
def getCount (history : List Call) : Nat :=
  history.countP fun c =>
    match c with
    | .alertsGet _ => true
    | .metricsGet _ => true
    | _ => false

/-- A client whose writes succeed, Create answering with id 42, and whose
`Get` calls are answered in turn by the given scripts: the n-th `Get` of an
invocation gets the n-th answer. -/
def scriptedClient (alerts : Nat → Except ClientError Alert)
    (metrics : Nat → Except ClientError Metric) : Client where
  AlertsCreate := fun _ a => .ok { a with ID := some 42 }
  AlertsGet := fun history _ => alerts (getCount history)
  AlertsUpdate := fun _ _ _ => none
  AlertsDelete := fun _ _ => none
  MetricsGet := fun history _ => metrics (getCount history)
  MetricsUpdate := fun _ _ => none
  MetricsDelete := fun _ _ => none

/-- A client whose `Delete` calls fail with the given error. -/
def deleteFailsClient (err : ClientError) : Client where
  AlertsCreate := fun _ a => .ok { a with ID := some 42 }
  AlertsGet := fun _ _ => .error (.response 404 "not found")
  AlertsUpdate := fun _ _ _ => none
  AlertsDelete := fun _ _ => some err
  MetricsGet := fun _ _ => .error (.response 404 "not found")
  MetricsUpdate := fun _ _ => none
  MetricsDelete := fun _ _ => some err

/-- A first `Get` answered with 404, every later one with the minimal alert. -/
def notFoundThenAlert : Nat → Except ClientError Alert
  | 0 => .error (.response 404 "not found")
  | _ => .ok minimalRemoteAlert

/-- A first `Get` answered with 404, every later one with the metric `cpu`. -/
def notFoundThenMetric : Nat → Except ClientError Metric
  | 0 => .error (.response 404 "not found")
  | _ => .ok { Name := some "cpu", Type_ := some "gauge" }

/-- Every `Get` answered with the HTTP status 500 and the message `boom`. -/
def alwaysBoom {α : Type} : Nat → Except ClientError α :=
  fun _ => .error (.response 500 "boom")

/-- A bag whose stored identifier is not a number. -/
def unparsableIdData : AlertData := { id := "abc", config := { name := some "cpu-high" } }

/-- The bag of a metric `cpu` to create. -/
def newMetricData : MetricData :=
  { config := { name := some "cpu", type := some "gauge" } }

/-- A stand-in for `url.Parse`: it rejects the string `::` and returns every
other string as its own URL. -/
def sampleParse (s : String) : Except String String :=
  if s = "::" then .error "missing protocol scheme" else .ok s

/-- The fields of a `*librato.Client` that `provider_test.go` reads. -/
structure ClientConfig where
  BaseURL : String
  Email : String
  Token : String
  deriving DecidableEq, Repr

/-- A stand-in for `librato.NewClientWithBaseURL`: the client holds its three
arguments, as `provider_test.go` asserts at lines 58-68. -/
def sampleNewClientWithBaseURL (baseURL email token : String) : ClientConfig :=
  { BaseURL := baseURL, Email := email, Token := token }

/-- A stand-in for `librato.NewClient`: the client is on the base URL that
`provider_test.go` asserts at line 39. -/
def sampleNewClient (email token : String) : ClientConfig :=
  { BaseURL := "https://metrics-api.librato.com/v1/", Email := email, Token := token }

/-- Every `Get` answered with the minimal alert. -/
def alwaysAlert : Nat → Except ClientError Alert := fun _ => .ok minimalRemoteAlert

/-- Every `Get` answered with the metric `cpu`. -/
def alwaysMetric : Nat → Except ClientError Metric :=
  fun _ => .ok { Name := some "cpu", Type_ := some "gauge" }

/-- A remote alert 42 whose `Active` and `Md` are both false. -/
def inactiveRemoteAlert : Alert :=
  { ID := some 42, Name := some "cpu-high", Description := some "load", Active := some false,
    Md := some false, RearmSeconds := some 300, Services := .list [],
    Attributes := some { RunbookURL := some "https://runbook" } }

/-- The bag of alert 42 with `active` and `md` configured and earlier writes under both keys. -/
def activeAlertData : AlertData :=
  { id := "42"
    state := { name := some "cpu-high", active := some true, md := some true }
    config := { name := some "cpu-high", active := some true, md := some true }
    written := [("active", .string "kept"), ("md", .string "kept")] }

/-- The bag of the metric `cpu` in an Update whose planned `name` is `cpu2` and
whose description changed. -/
def renamedMetricData : MetricData :=
  { id := "cpu"
    state := { name := some "cpu", type := some "gauge" }
    config := { name := some "cpu2", type := some "gauge", description := some "new" } }

/-- The first five `Get`s answered with the metric `cpu`, every later one with 404. -/
def goneAfterFive : Nat → Except ClientError Metric :=
  fun n => if n < 5 then .ok { Name := some "cpu", Type_ := some "gauge" }
    else .error (.response 404 "not found")

/-- The bag of alert 42 whose planned `services` holds the one entry `abc`, the
prior state holding no service. -/
def unparsableServiceData : AlertData :=
  { id := "42"
    state := { name := some "cpu-high", active := some true, md := some true,
               rearm_seconds := some 600 }
    config := { name := some "cpu-high", services := some {"abc"} } }

/-- The bag of alert 42 whose planned `services` holds the one entry
`9223372036854775808`, one more than the largest `int`. -/
def outOfRangeServiceData : AlertData :=
  { id := "42"
    state := { name := some "cpu-high", active := some true, md := some true,
               rearm_seconds := some 600 }
    config := { name := some "cpu-high", services := some {"9223372036854775808"} } }

/-- A bag whose one configured condition provides only the required keys. -/
def requiredOnlyAlertData : AlertData :=
  { config := { name := some "cpu-high", condition := some [requiredOnlyCondition] } }

/-- A second condition map with every key set, with two tags. -/
def secondCondition : ConditionBag :=
  { type := some "below", metric_name := some "mem", source := some "web-2",
    tag := some [{ name := some "region", grouped := some false, values := some {"eu"} },
                 { name := some "tier", grouped := some true, values := some {"db"} }],
    detect_reset := some true, duration := some 60,
    threshold := some (.finite false 5 0), summary_function := some "max" }

/-- A bag with two configured conditions. -/
def twoConditionsAlertData : AlertData :=
  { config := { name := some "cpu-high", condition := some [fullCondition, secondCondition] } }

/-- A second remote condition, with two tags. -/
def secondRemoteCondition : AlertCondition :=
  { Type_ := some "below", MetricName := some "mem", Duration := some 60,
    Tags := some [{ Name := some "region", Values := some [some "eu"] },
                  { Name := some "tier", Grouped := some true }] }

/-- A remote alert with two conditions. -/
def twoConditionsRemoteAlert : Alert :=
  { ID := some 42, Name := some "cpu-high", Services := .list [],
    Conditions := some [remoteCondition, secondRemoteCondition] }

/-- The minimal remote alert with the services 86821 and 14740600, whose
decimal renderings have the same hash code, 350569284. -/
def collidingServicesRemoteAlert : Alert :=
  { minimalRemoteAlert with
    Services := ServicesValue.list
      [.object (.number (.finite false 86821 0)), .object (.number (.finite false 14740600 0))] }

/-- The same alert with its two services in the other order. -/
def collidingServicesReversedRemoteAlert : Alert :=
  { minimalRemoteAlert with
    Services := ServicesValue.list
      [.object (.number (.finite false 14740600 0)), .object (.number (.finite false 86821 0))] }

/-! ## Lemmas on schema sets -/

theorem SchemaSet.ext_items {s t : SchemaSet} (h : s.items = t.items) : s = t := by
  cases s; cases t; simpa using h

theorem SchemaSet.mem_iff (s : SchemaSet) (a : String) : a ∈ s ↔ a ∈ s.items := Iff.rfl

theorem SchemaSet.items_empty : (∅ : SchemaSet).items = ∅ := rfl

theorem SchemaSet.items_singleton (a : String) : ({a} : SchemaSet).items = {a} := by
  show ((∅ : SchemaSet).Add a).items = {a}
  simp [SchemaSet.Add, SchemaSet.items_empty]

theorem SchemaSet.eq_empty_iff (s : SchemaSet) : s = ∅ ↔ s.items = ∅ :=
  ⟨fun h => by rw [h]; rfl, fun h => SchemaSet.ext_items h⟩

theorem SchemaSet.mem_List (s : SchemaSet) (a : String) : a ∈ s.List ↔ a ∈ s.items := by
  simp [SchemaSet.List]

theorem SchemaSet.length_List (s : SchemaSet) : s.List.length = s.items.card := by
  simp only [SchemaSet.List, List.length_map, Finset.length_sort]
  exact Finset.card_image_of_injective _ fun a b h => by
    have := congrArg (fun p => (ofLex p).2) h
    simpa using this

theorem SchemaSet.List_singleton (a : String) : ({a} : SchemaSet).List = [a] := by
  simp [SchemaSet.List, SchemaSet.items_singleton]

theorem SchemaSet.List_empty : (∅ : SchemaSet).List = [] := by
  simp [SchemaSet.List, SchemaSet.items_empty]

theorem NewSet_nil : NewSet [] = ∅ := rfl

theorem SchemaSet.mem_Add (s : SchemaSet) (item a : String) :
    a ∈ (s.Add item).items ↔
      a ∈ s.items ∨ (a = item ∧ ∀ b ∈ s.items, HashString b ≠ HashString item) := by
  unfold SchemaSet.Add
  by_cases h : ∃ b ∈ s.items, HashString b = HashString item
  · rw [dif_pos h]
    constructor
    · exact Or.inl
    · rintro (h1 | ⟨_, h2⟩)
      · exact h1
      · obtain ⟨b, hb, hbe⟩ := h
        exact absurd hbe (h2 b hb)
  · rw [dif_neg h]
    simp only [Finset.mem_insert]
    constructor
    · rintro (h1 | h1)
      · exact Or.inr ⟨h1, fun b hb hbe => h ⟨b, hb, hbe⟩⟩
      · exact Or.inl h1
    · rintro (h1 | ⟨h1, _⟩)
      · exact Or.inr h1
      · exact Or.inl h1

/-- The elements of a set after adding a list of items: those it had, and every
item that is the first of the list with its hash code, the code being free. -/
theorem mem_foldl_Add (l : List String) :
    ∀ (s : SchemaSet) (a : String), a ∈ (l.foldl SchemaSet.Add s).items ↔
      a ∈ s.items ∨ ((∀ b ∈ s.items, HashString b ≠ HashString a) ∧
        l.find? (fun b => HashString b == HashString a) = some a) := by
  induction l with
  | nil => intro s a; simp
  | cons x l ih =>
    intro s a
    rw [List.foldl_cons, ih (s.Add x) a]
    by_cases hxa : HashString x = HashString a
    · have hfind : (x :: l).find? (fun b => HashString b == HashString a) = some x := by
        simp [List.find?, hxa]
      rw [hfind]
      constructor
      · rintro (h1 | ⟨h1, _⟩)
        · rcases (s.mem_Add x a).mp h1 with h2 | ⟨h2, h3⟩
          · exact Or.inl h2
          · subst h2
            exact Or.inr ⟨h3, rfl⟩
        · by_cases hc : ∃ b ∈ s.items, HashString b = HashString x
          · obtain ⟨b, hb, hbe⟩ := hc
            exact absurd (hbe.trans hxa) (h1 b ((s.mem_Add x b).mpr (Or.inl hb)))
          · exact absurd hxa (h1 x ((s.mem_Add x x).mpr
              (Or.inr ⟨rfl, fun b hb hbe => hc ⟨b, hb, hbe⟩⟩)))
      · rintro (h1 | ⟨h1, h2⟩)
        · exact Or.inl ((s.mem_Add x a).mpr (Or.inl h1))
        · simp only [Option.some.injEq] at h2
          subst h2
          exact Or.inl ((s.mem_Add x x).mpr (Or.inr ⟨rfl, h1⟩))
    · have hfind : (x :: l).find? (fun b => HashString b == HashString a) =
          l.find? (fun b => HashString b == HashString a) := by
        have hb : (HashString x == HashString a) = false := by simpa using hxa
        simp [List.find?, hb]
      rw [hfind]
      have hax : a ≠ x := fun h => hxa (by rw [h])
      constructor
      · rintro (h1 | ⟨h1, h2⟩)
        · rcases (s.mem_Add x a).mp h1 with h3 | ⟨h3, _⟩
          · exact Or.inl h3
          · exact absurd h3 hax
        · exact Or.inr ⟨fun b hb => h1 b ((s.mem_Add x b).mpr (Or.inl hb)), h2⟩
      · rintro (h1 | ⟨h1, h2⟩)
        · exact Or.inl ((s.mem_Add x a).mpr (Or.inl h1))
        · refine Or.inr ⟨fun b hb => ?_, h2⟩
          rcases (s.mem_Add x b).mp hb with h3 | ⟨h3, _⟩
          · exact h1 b h3
          · rw [h3]
            exact hxa

/-- The elements of `NewSet items`: each item that is the first of the list with
its hash code. -/
theorem mem_NewSet (items : List String) (a : String) :
    a ∈ NewSet items ↔ items.find? (fun b => HashString b == HashString a) = some a := by
  rw [SchemaSet.mem_iff, NewSet, mem_foldl_Add]
  simp [SchemaSet.items_empty]

theorem mem_of_mem_NewSet (items : List String) (a : String) (h : a ∈ NewSet items) :
    a ∈ items :=
  List.mem_of_find?_eq_some ((mem_NewSet items a).mp h)

/-- When no two different items have the same hash code, the elements of
`NewSet items` are the items. -/
theorem mem_NewSet_of_distinct (items : List String)
    (hd : ∀ a ∈ items, ∀ b ∈ items, HashString a = HashString b → a = b) (a : String) :
    a ∈ NewSet items ↔ a ∈ items := by
  refine ⟨mem_of_mem_NewSet items a, fun ha => (mem_NewSet items a).mpr ?_⟩
  cases hf : items.find? (fun b => HashString b == HashString a) with
  | none =>
    have := List.find?_eq_none.mp hf a ha
    simp at this
  | some b =>
    have hb := List.mem_of_find?_eq_some hf
    have hbe := List.find?_some hf
    simp only [beq_iff_eq] at hbe
    rw [hd b hb a ha hbe]

theorem NewSet_List (s : SchemaSet) : NewSet s.List = s := by
  apply SchemaSet.ext_items
  ext a
  rw [← SchemaSet.mem_iff, mem_NewSet_of_distinct, SchemaSet.mem_List]
  intro x hx y hy hxy
  exact s.distinct x ((s.mem_List x).mp hx) y ((s.mem_List y).mp hy) hxy

theorem SchemaSet.nodup_List (s : SchemaSet) : s.List.Nodup := by
  unfold SchemaSet.List
  refine List.Nodup.map_on ?_ (Finset.sort_nodup _ _)
  intro p hp q hq h
  rw [Finset.mem_sort, Finset.mem_image] at hp hq
  obtain ⟨a, _, rfl⟩ := hp
  obtain ⟨b, _, rfl⟩ := hq
  simp only [ofLex_toLex] at h
  rw [h]

theorem NewSet_items_of_distinct (items : List String)
    (hd : ∀ a ∈ items, ∀ b ∈ items, HashString a = HashString b → a = b) :
    (NewSet items).items = items.toFinset := by
  ext a
  rw [← SchemaSet.mem_iff, mem_NewSet_of_distinct items hd, List.mem_toFinset]

set_option maxRecDepth 8192 in
/-- The elements are listed by ascending hash code: the set of `"1"` and `"2"`
lists `"2"`, of code 450215437, before `"1"`, of code 2212294583. -/
theorem NewSet_List_one_two : (NewSet ["1", "2"]).List = ["2", "1"] := by
  have h1 : HashString "1" = 2212294583 := by decide
  have h2 : HashString "2" = 450215437 := by decide
  have hi : (NewSet ["1", "2"]).items = {"1", "2"} := by decide
  unfold SchemaSet.List
  rw [hi]
  have himg : (Finset.image (fun a => toLex (HashString a, a)) ({"1", "2"} : Finset String)) =
      {toLex ((450215437 : Int), "2"), toLex ((2212294583 : Int), "1")} := by
    rw [Finset.image_insert, Finset.image_singleton, h1, h2, Finset.pair_comm]
  rw [himg]
  have hlt : ∀ b ∈ ({toLex ((2212294583 : Int), "1")} : Finset (Lex (Int × String))),
      toLex ((450215437 : Int), "2") ≤ b := by
    intro b hb
    rw [Finset.mem_singleton] at hb
    subst hb
    exact le_of_lt (Prod.Lex.left _ _ (by decide))
  rw [Finset.sort_insert _ hlt (by simp), Finset.sort_singleton]
  rfl

/-! ## Framing lemmas for the flatten step of Alert Read -/

theorem flattenAlert_written (d : AlertData) (alert : Alert) :
    (flattenAlert d alert).2.written = (flattenAlert {} alert).2.written ++ d.written := by
  unfold flattenAlert
  repeat' split
  all_goals simp_all [AlertData.Set]

theorem flattenAlert_status (d : AlertData) (alert : Alert) :
    (flattenAlert d alert).1 = (flattenAlert {} alert).1 := by
  unfold flattenAlert
  repeat' split
  all_goals simp_all [AlertData.Set]

theorem flattenAlert_id (d : AlertData) (alert : Alert) :
    (flattenAlert d alert).2.id = d.id := by
  unfold flattenAlert
  repeat' split
  all_goals simp_all [AlertData.Set]

theorem flattenAlert_writesSince (d : AlertData) (alert : Alert) :
    (flattenAlert d alert).2.writesSince d = (flattenAlert {} alert).2.written := by
  unfold AlertData.writesSince
  rw [flattenAlert_written d alert]
  simp

theorem resourceLibratoAlertRead_ok (client : Client) (d : AlertData) (past : List Call)
    (id : Nat) (alert : Alert) (hid : ParseUint d.Id = some id)
    (hget : client.AlertsGet past id = .ok alert) :
    resourceLibratoAlertRead client d past =
      { status := (flattenAlert d alert).1, data := (flattenAlert d alert).2,
        calls := [.alertsGet id] } := by
  simp [resourceLibratoAlertRead, hid, hget]

/-- The writes of a flatten step that does not panic, under the key `rearm_seconds`. -/
theorem flattenAlert_rearm (alert : Alert) (hrun : (flattenAlert {} alert).1 ≠ .fault) :
    (flattenAlert {} alert).2.written.lookup "rearm_seconds" =
      match alert.RearmSeconds with
      | some n => if n ≠ 600 then some (.uint n) else none
      | none => none := by
  revert hrun
  unfold flattenAlert
  repeat' split
  all_goals simp_all [AlertData.Set, List.lookup]


theorem exists_mem_iff_lookup_isSome {β : Type} (ws : List (String × β)) (k : String) :
    (∃ v, (k, v) ∈ ws) ↔ (ws.lookup k).isSome = true := by
  induction ws with
  | nil => simp
  | cons p ws ih =>
    obtain ⟨k1, v1⟩ := p
    by_cases h : k = k1
    · subst h
      simp [List.lookup]
    · have h1 : (k == k1) = false := by simpa using h
      simp [List.lookup, h1, h, ← ih]

theorem lookup_append_of_some {β : Type} (ws rest : List (String × β)) (k : String) (v : β)
    (h : ws.lookup k = some v) : (ws ++ rest).lookup k = some v := by
  induction ws with
  | nil => simp at h
  | cons p ws ih =>
    obtain ⟨k1, v1⟩ := p
    by_cases h1 : (k == k1) = true
    · simp [List.lookup, h1] at h ⊢
      exact h
    · simp only [Bool.not_eq_true] at h1
      simp [List.lookup, h1] at h ⊢
      exact ih h

/-- C1: for every alert that `Get` returns and on which Read runs to completion,
Read writes `rearm_seconds` to the bag if and only if the remote `RearmSeconds`
is non-null and different from 600, and the value then stored in the bag is the
remote value. -/
theorem read_writes_rearm_seconds_iff (client : Client) (d : AlertData) (past : List Call)
    (id : Nat) (alert : Alert) (hid : ParseUint d.Id = some id)
    (hget : client.AlertsGet past id = .ok alert)
    (hrun : (resourceLibratoAlertRead client d past).status ≠ .fault) :
    ((∃ v, ("rearm_seconds", v) ∈ (resourceLibratoAlertRead client d past).data.writesSince d) ↔
      ∃ n, alert.RearmSeconds = some n ∧ n ≠ 600) ∧
    (∀ n, alert.RearmSeconds = some n → n ≠ 600 →
      (resourceLibratoAlertRead client d past).data.written.lookup "rearm_seconds" =
        some (.uint n)) := by
  rw [resourceLibratoAlertRead_ok client d past id alert hid hget] at hrun ⊢
  simp only at hrun ⊢
  rw [flattenAlert_status] at hrun
  have hl := flattenAlert_rearm alert hrun
  rw [flattenAlert_writesSince, exists_mem_iff_lookup_isSome, hl]
  constructor
  · cases hr : alert.RearmSeconds with
    | none => simp
    | some n => by_cases h6 : n = 600 <;> simp [h6]
  · intro n hn h6
    rw [flattenAlert_written]
    apply lookup_append_of_some
    rw [hl, hn]
    simp [h6]

/-- Witness of C1: a remote value 300 is written as 300, a remote value 600 is not written. -/
theorem read_writes_rearm_seconds_iff_witness :
    (resourceLibratoAlertRead
        (sampleClient (.ok { Name := some "cpu-high", RearmSeconds := some 300, Services := .list [] })
          (.error (.other "unused")))
        sampleAlertData []).data.written.lookup "rearm_seconds" = some (.uint 300) ∧
    ¬ (∃ v, ("rearm_seconds", v) ∈
      ((resourceLibratoAlertRead
        (sampleClient (.ok { Name := some "cpu-high", RearmSeconds := some 600, Services := .list [] })
          (.error (.other "unused")))
        sampleAlertData []).data.writesSince sampleAlertData)) :=
  ⟨(read_writes_rearm_seconds_iff _ sampleAlertData [] 42 _ (by decide) rfl (by decide)).2 300 rfl
      (by decide),
    fun h => by
      have := (read_writes_rearm_seconds_iff
        (sampleClient (.ok { Name := some "cpu-high", RearmSeconds := some 600, Services := .list [] })
          (.error (.other "unused"))) sampleAlertData [] 42 _ (by decide) rfl (by decide)).1.mp h
      obtain ⟨n, hn, h6⟩ := this
      simp at hn
      exact h6 hn.symm⟩


/-- C2: when `Get` fails with HTTP status 404, Alert Read and Metric Read return
success, clear the stored identifier and write nothing to the bag; when `Get`
fails with any other error they return an error and leave the stored identifier
(and the bag) unchanged. -/
theorem read_get_error :
    (∀ (client : Client) (d : AlertData) (past : List Call) (id : Nat) (err : ClientError),
      ParseUint d.Id = some id → client.AlertsGet past id = .error err →
        ((∃ message, err = .response 404 message) →
          (resourceLibratoAlertRead client d past).status = .ok ∧
          (resourceLibratoAlertRead client d past).data.Id = "" ∧
          (resourceLibratoAlertRead client d past).data.written = d.written) ∧
        ((∀ message, err ≠ .response 404 message) →
          (∃ e, (resourceLibratoAlertRead client d past).status = .error e) ∧
          (resourceLibratoAlertRead client d past).data = d)) ∧
    (∀ (sprintV : DisplayValue → String) (client : Client) (d : MetricData) (past : List Call)
        (err : ClientError),
      client.MetricsGet past d.Id = .error err →
        ((∃ message, err = .response 404 message) →
          (resourceLibratoMetricRead sprintV client d past).status = .ok ∧
          (resourceLibratoMetricRead sprintV client d past).data.Id = "" ∧
          (resourceLibratoMetricRead sprintV client d past).data.written = d.written) ∧
        ((∀ message, err ≠ .response 404 message) →
          (∃ e, (resourceLibratoMetricRead sprintV client d past).status = .error e) ∧
          (resourceLibratoMetricRead sprintV client d past).data = d)) := by
  constructor
  · intro client d past id err hid hget
    constructor
    · rintro ⟨message, rfl⟩
      simp only [resourceLibratoAlertRead, hid, hget]
      simp [ClientError.isNotFound, AlertData.SetId, AlertData.Id]
    · intro hne
      have hnf : err.isNotFound = false := by
        cases err with
        | response statusCode message =>
          have := hne message
          simp only [ClientError.isNotFound, beq_eq_false_iff_ne]
          intro h
          exact this (by rw [h])
        | other message => rfl
      simp [resourceLibratoAlertRead, hid, hget, hnf]
  · intro sprintV client d past err hget
    constructor
    · rintro ⟨message, rfl⟩
      simp only [resourceLibratoMetricRead, hget]
      simp [ClientError.isNotFound, MetricData.SetId, MetricData.Id]
    · intro hne
      have hnf : err.isNotFound = false := by
        cases err with
        | response statusCode message =>
          have := hne message
          simp only [ClientError.isNotFound, beq_eq_false_iff_ne]
          intro h
          exact this (by rw [h])
        | other message => rfl
      simp [resourceLibratoMetricRead, hget, hnf]

/-- Witness of C2: a 404 and a 500 answer, on alert 42 and on the metric `cpu`. -/
theorem read_get_error_witness :
    ((resourceLibratoAlertRead
        (sampleClient (.error (.response 404 "not found")) (.error (.response 404 "not found")))
        sampleAlertData []).status = .ok ∧
      (resourceLibratoAlertRead
        (sampleClient (.error (.response 404 "not found")) (.error (.response 404 "not found")))
        sampleAlertData []).data.Id = "" ∧
      (resourceLibratoAlertRead
        (sampleClient (.error (.response 404 "not found")) (.error (.response 404 "not found")))
        sampleAlertData []).data.written = sampleAlertData.written) ∧
    ((∃ e, (resourceLibratoAlertRead
        (sampleClient (.error (.response 500 "oops")) (.error (.response 500 "oops")))
        sampleAlertData []).status = .error e) ∧
      (resourceLibratoAlertRead
        (sampleClient (.error (.response 500 "oops")) (.error (.response 500 "oops")))
        sampleAlertData []).data = sampleAlertData) ∧
    ((resourceLibratoMetricRead (fun _ => "")
        (sampleClient (.error (.response 404 "not found")) (.error (.response 404 "not found")))
        sampleMetricData []).status = .ok ∧
      (resourceLibratoMetricRead (fun _ => "")
        (sampleClient (.error (.response 404 "not found")) (.error (.response 404 "not found")))
        sampleMetricData []).data.Id = "" ∧
      (resourceLibratoMetricRead (fun _ => "")
        (sampleClient (.error (.response 404 "not found")) (.error (.response 404 "not found")))
        sampleMetricData []).data.written = sampleMetricData.written) ∧
    ((∃ e, (resourceLibratoMetricRead (fun _ => "")
        (sampleClient (.error (.response 500 "oops")) (.error (.response 500 "oops")))
        sampleMetricData []).status = .error e) ∧
      (resourceLibratoMetricRead (fun _ => "")
        (sampleClient (.error (.response 500 "oops")) (.error (.response 500 "oops")))
        sampleMetricData []).data = sampleMetricData) :=
  ⟨(read_get_error.1
      (sampleClient (.error (.response 404 "not found")) (.error (.response 404 "not found")))
      sampleAlertData [] 42 (.response 404 "not found") (by decide) rfl).1 ⟨"not found", rfl⟩,
    (read_get_error.1
      (sampleClient (.error (.response 500 "oops")) (.error (.response 500 "oops")))
      sampleAlertData [] 42 (.response 500 "oops") (by decide) rfl).2 (fun message h => by
        injection h with h1 _
        exact absurd h1 (by decide)),
    (read_get_error.2 (fun _ => "")
      (sampleClient (.error (.response 404 "not found")) (.error (.response 404 "not found")))
      sampleMetricData [] (.response 404 "not found") rfl).1 ⟨"not found", rfl⟩,
    (read_get_error.2 (fun _ => "")
      (sampleClient (.error (.response 500 "oops")) (.error (.response 500 "oops")))
      sampleMetricData [] (.response 500 "oops") rfl).2 (fun message h => by
        injection h with h1 _
        exact absurd h1 (by decide))⟩

/-- Counterexample of C3: with only `name` configured, the payload of Create
carries `RearmSeconds = 600`, the schema default, rather than leaving it unset. -/
theorem create_payload_only_name_counterexample :
    minimalAlertData.config = { name := some "cpu-high" } ∧
    (alertCreatePayload minimalAlertData).RearmSeconds = some 600 ∧
    ¬ ((alertCreatePayload minimalAlertData).Name = some "cpu-high" ∧
      (alertCreatePayload minimalAlertData).Active = some true ∧
      (alertCreatePayload minimalAlertData).Md = some true ∧
      (alertCreatePayload minimalAlertData).Description = none ∧
      (alertCreatePayload minimalAlertData).RearmSeconds = none ∧
      (alertCreatePayload minimalAlertData).Services = .nil ∧
      (alertCreatePayload minimalAlertData).Conditions = none ∧
      (alertCreatePayload minimalAlertData).Attributes = none) := by
  decide

/-- C3, amended: for every bag in which only `name` is configured, the payload
of Create has `Name` equal to the configured name, `Active = true`, `Md = true`
and `RearmSeconds = 600` (the schema default, which `GetOk` reports as set), and
`Description`, `Services`, `Conditions` and `Attributes` unset. -/
theorem create_payload_only_name (d : AlertData) (name : String)
    (h : d.config = { name := some name }) :
    alertCreatePayload d =
      { Name := some name, Active := some true, Md := some true, RearmSeconds := some 600 } := by
  simp [alertCreatePayload, AlertData.Get_name, AlertData.Get_active, AlertData.Get_md,
    AlertData.GetOk_description, AlertData.GetOk_rearm_seconds, AlertData.GetOk_services,
    AlertData.GetOk_condition, AlertData.GetOk_attributes, AlertData.Get_description,
    AlertData.Get_rearm_seconds, AlertData.Get_services, AlertData.Get_condition,
    AlertData.Get_attributes, AlertBag.defaultActive, AlertBag.defaultMd,
    AlertBag.defaultRearmSeconds, h, uint, intSize]

/-- Witness of C3, amended, on the bag with `name = "cpu-high"`. -/
theorem create_payload_only_name_witness :
    minimalAlertData.config = { name := some "cpu-high" } ∧
    alertCreatePayload minimalAlertData =
      { Name := some "cpu-high", Active := some true, Md := some true,
        RearmSeconds := some 600 } :=
  ⟨rfl, create_payload_only_name minimalAlertData "cpu-high" rfl⟩

/-- Counterexample of C4: on a remote alert without description, rearm interval,
services, conditions or attributes, a successful Read does write the key
`services`, with the empty set. -/
theorem read_minimal_alert_counterexample :
    (resourceLibratoAlertRead (sampleClient (.ok minimalRemoteAlert) (.error (.other "unused")))
      sampleAlertData []).status = .ok ∧
    ("services", SetValue.set ∅) ∈
      (resourceLibratoAlertRead (sampleClient (.ok minimalRemoteAlert) (.error (.other "unused")))
        sampleAlertData []).data.writesSince sampleAlertData := by
  decide

/-- C4, amended: for every remote alert whose `Description` is null, whose
`RearmSeconds` is null or 600, whose `Services` list is empty, whose `Conditions`
list is empty and whose `Attributes` is null, a successful Read writes exactly
`name` and then `services`, the latter as the empty set; it writes none of
`description`, `rearm_seconds`, `condition`, `attributes`. -/
theorem read_minimal_alert (client : Client) (d : AlertData) (past : List Call) (id : Nat)
    (alert : Alert) (hid : ParseUint d.Id = some id)
    (hget : client.AlertsGet past id = .ok alert)
    (hdesc : alert.Description = none)
    (hrearm : alert.RearmSeconds = none ∨ alert.RearmSeconds = some 600)
    (hserv : alert.Services = .list [])
    (hcond : alert.Conditions.getD [] = [])
    (hattr : alert.Attributes = none)
    (hok : (resourceLibratoAlertRead client d past).status = .ok) :
    ∃ name, alert.Name = some name ∧
      (resourceLibratoAlertRead client d past).data.writesSince d =
        [("services", .set ∅), ("name", .string name)] := by
  rw [resourceLibratoAlertRead_ok client d past id alert hid hget] at hok ⊢
  simp only at hok ⊢
  rw [flattenAlert_status] at hok
  rw [flattenAlert_writesSince]
  revert hok
  unfold flattenAlert
  cases hname : alert.Name with
  | none => simp
  | some name =>
    rcases hrearm with hrearm | hrearm <;>
      simp [hdesc, hrearm, hserv, hcond, hattr, forEach, AlertData.Set, NewSet]

/-- Witness of C4, amended, on the minimal remote alert. -/
theorem read_minimal_alert_witness :
    ∃ name, minimalRemoteAlert.Name = some name ∧
      (resourceLibratoAlertRead (sampleClient (.ok minimalRemoteAlert) (.error (.other "unused")))
        sampleAlertData []).data.writesSince sampleAlertData =
        [("services", .set ∅), ("name", .string name)] :=
  read_minimal_alert (sampleClient (.ok minimalRemoteAlert) (.error (.other "unused")))
    sampleAlertData [] 42 minimalRemoteAlert (by decide) rfl rfl (Or.inl rfl) rfl rfl rfl
    (by decide)


/-- C5: the payload of an Alert Update always carries `Name`, `Active` and `Md`
taken from the bag, and each of `Description`, `RearmSeconds`, `Services`,
`Conditions`, `Attributes` is set in it if and only if the bag reports the
corresponding field as changed. A payload is produced unless `attributes` changed
into an empty block, in which case Update returns an error before any call. -/
theorem update_payload_fields (d : AlertData) :
    (∀ alert, alertUpdatePayload d = .ok alert →
      alert.Name = some d.Get_name ∧ alert.Active = some d.Get_active ∧
      alert.Md = some d.Get_md ∧
      (alert.Description ≠ none ↔ d.HasChange_description = true) ∧
      (alert.RearmSeconds ≠ none ↔ d.HasChange_rearm_seconds = true) ∧
      (alert.Services ≠ .nil ↔ d.HasChange_services = true) ∧
      (alert.Conditions ≠ none ↔ d.HasChange_condition = true) ∧
      (alert.Attributes ≠ none ↔ d.HasChange_attributes = true)) ∧
    ((d.HasChange_attributes = true → d.Get_attributes.head? ≠ some none) →
      ∃ alert, alertUpdatePayload d = .ok alert) := by
  constructor
  · intro alert h
    unfold alertUpdatePayload at h
    by_cases h5 : d.HasChange_attributes = true
    · simp only [h5, if_true] at h
      cases h6 : alertUpdateAttributes d with
      | error e => simp [h6] at h
      | ok attributes =>
        simp only [h6, Except.ok.injEq] at h
        subst h
        by_cases h1 : d.HasChange_description = true <;>
        by_cases h2 : d.HasChange_rearm_seconds = true <;>
        by_cases h3 : d.HasChange_services = true <;>
        by_cases h4 : d.HasChange_condition = true <;>
        simp [h1, h2, h3, h4, h5]
    · simp only [h5, Bool.false_eq_true, if_false, reduceIte, Except.ok.injEq] at h
      subst h
      by_cases h1 : d.HasChange_description = true <;>
      by_cases h2 : d.HasChange_rearm_seconds = true <;>
      by_cases h3 : d.HasChange_services = true <;>
      by_cases h4 : d.HasChange_condition = true <;>
      simp [h1, h2, h3, h4, h5]
  · intro h
    unfold alertUpdatePayload
    by_cases h5 : d.HasChange_attributes = true
    · have hh := h h5
      simp only [h5, if_true]
      unfold alertUpdateAttributes AlertData.GetOk_attributes
      cases hb : decide (d.Get_attributes ≠ []) with
      | false => simp
      | true =>
        simp only
        cases hl : d.Get_attributes with
        | nil => simp [hl] at hb
        | cons a rest =>
          cases a with
          | none => simp [hl] at hh
          | some m => simp
    · simp [h5]


theorem alertUpdatePayload_servicesChangedData :
    alertUpdatePayload servicesChangedData =
      .ok { Name := some "cpu-high", Active := some true, Md := some true,
            Services := .intPtrs [some 7] } := by
  have h7 : Atoi "7" = (7, true) := by decide
  have hs : SchemaSet.List {"7"} = ["7"] := SchemaSet.List_singleton "7"
  have hne : ¬ ((∅ : SchemaSet) = {"7"}) := by decide
  simp [alertUpdatePayload, servicesChangedData, AlertData.HasChange_description,
    AlertData.HasChange_rearm_seconds, AlertData.HasChange_services,
    AlertData.HasChange_condition, AlertData.HasChange_attributes, AlertData.Get_name,
    AlertData.Get_active, AlertData.Get_md, AlertData.Get_description,
    AlertData.Get_rearm_seconds, AlertData.Get_services, AlertData.Get_condition,
    AlertData.Get_attributes, AlertBag.defaultActive, AlertBag.defaultMd,
    AlertBag.defaultRearmSeconds, h7, hs, hne]

/-- Witness of C5: when only `services` changed from the empty set to the set
holding `"7"`, the payload carries name, active, md and `services = [7]`, and
nothing else. -/
theorem update_payload_fields_witness :
    alertUpdatePayload servicesChangedData =
      .ok { Name := some "cpu-high", Active := some true, Md := some true,
            Services := .intPtrs [some 7] } ∧
    servicesChangedData.HasChange_services = true ∧
    servicesChangedData.HasChange_description = false ∧
    servicesChangedData.HasChange_rearm_seconds = false ∧
    servicesChangedData.HasChange_condition = false ∧
    servicesChangedData.HasChange_attributes = false ∧
    ∃ alert, alertUpdatePayload servicesChangedData = .ok alert :=
  have h := (update_payload_fields servicesChangedData).1 _ alertUpdatePayload_servicesChangedData
  ⟨alertUpdatePayload_servicesChangedData,
    h.2.2.2.2.2.1.mp (by decide),
    by simpa using h.2.2.2.1,
    by simpa using h.2.2.2.2.1,
    by simpa using h.2.2.2.2.2.2.1,
    by simpa using h.2.2.2.2.2.2.2,
    (update_payload_fields servicesChangedData).2 (by decide)⟩

/-- C6: in an Alert Update in which `attributes` is reported as changed and the
bag no longer has an `attributes` block, the payload is produced and its
`Attributes` is a non-null object whose runbook URL is the empty string. -/
theorem update_payload_attributes_removed (d : AlertData)
    (hchanged : d.HasChange_attributes = true) (hgone : d.GetOk_attributes.2 = false) :
    ∃ alert, alertUpdatePayload d = .ok alert ∧
      alert.Attributes = some { RunbookURL := some "" } := by
  unfold alertUpdatePayload
  simp only [hchanged, if_true]
  unfold alertUpdateAttributes
  cases hg : d.GetOk_attributes with
  | mk v ok =>
    rw [hg] at hgone
    simp only at hgone
    subst hgone
    simp

/-- Witness of C6: the `attributes` block of alert 42 is removed. -/
theorem update_payload_attributes_removed_witness :
    attributesRemovedData.HasChange_attributes = true ∧
    attributesRemovedData.GetOk_attributes.2 = false ∧
    ∃ alert, alertUpdatePayload attributesRemovedData = .ok alert ∧
      alert.Attributes = some { RunbookURL := some "" } :=
  ⟨by decide, by decide,
    update_payload_attributes_removed attributesRemovedData (by decide) (by decide)⟩

/-- Counterexample of C7: a Metric Update in which only `description` changed
sends a payload whose `Attributes` is null. -/
theorem metric_update_attributes_counterexample :
    descriptionChangedMetric.HasChange_attributes = false ∧
    metricUpdatePayload descriptionChangedMetric =
      some { Name := some "cpu", Description := some "new" } ∧
    ¬ (∃ metric, metricUpdatePayload descriptionChangedMetric = some metric ∧
      metric.Attributes ≠ none) := by
  decide

/-- C7, amended: the payload of a Metric Update has a non-null `Attributes`
object if and only if the bag reports the `attributes` block as changed; when it
changed and the bag has no block left, every field of the object is unset. -/
theorem metric_update_attributes_iff (d : MetricData) (metric : Metric)
    (h : metricUpdatePayload d = some metric) :
    (metric.Attributes ≠ none ↔ d.HasChange_attributes = true) ∧
    (d.HasChange_attributes = true → d.Get_attributes = [] → metric.Attributes = some {}) := by
  unfold metricUpdatePayload at h
  by_cases h5 : d.HasChange_attributes = true
  · simp only [h5, if_true] at h
    split at h
    · simp at h
    · simp only [Option.some.injEq] at h
      subst h
      simp_all
    · simp only [Option.some.injEq] at h
      subst h
      simp [h5]
  · simp only [h5, Bool.false_eq_true, if_false, reduceIte, Option.some.injEq] at h
    subst h
    by_cases h1 : d.HasChange_type = true <;>
    by_cases h2 : d.HasChange_description = true <;>
    by_cases h3 : d.HasChange_display_name = true <;>
    by_cases h4 : d.HasChange_period = true <;>
    by_cases h6 : d.HasChange_composite = true <;>
    simp [h1, h2, h3, h4, h5, h6]

/-- Witness of C7, amended: the `attributes` block of the metric `cpu` is removed. -/
theorem metric_update_attributes_iff_witness :
    metricUpdatePayload attributesRemovedMetric =
      some { Name := some "cpu", Attributes := some {} } ∧
    attributesRemovedMetric.HasChange_attributes = true ∧
    attributesRemovedMetric.Get_attributes = [] ∧
    ({ Name := some "cpu", Attributes := some {} } : Metric).Attributes = some {} :=
  ⟨by decide,
    (metric_update_attributes_iff attributesRemovedMetric
      { Name := some "cpu", Attributes := some {} } (by decide)).1.mp (by decide),
    by decide,
    (metric_update_attributes_iff attributesRemovedMetric
      { Name := some "cpu", Attributes := some {} } (by decide)).2 (by decide) (by decide)⟩


/-! ## Lemmas on the shape converters -/

theorem string_length_pos_iff (s : String) : s.length > 0 ↔ s ≠ "" := by
  constructor
  · intro h hs
    subst hs
    simp at h
  · intro h
    rcases s with ⟨l⟩
    cases l with
    | nil => exact absurd rfl h
    | cons c cs => simp [String.length]

theorem forEach_id_map_some {α : Type} (xs : List α) : forEach id (xs.map some) = some xs := by
  induction xs with
  | nil => rfl
  | cons x xs ih => simp [forEach, ih]

theorem forEach_map_of_total {α β γ : Type} (f : α → β) (g : β → Option γ) (h : α → γ)
    (hgf : ∀ a, g (f a) = some (h a)) (xs : List α) :
    forEach g (xs.map f) = some (xs.map h) := by
  induction xs with
  | nil => rfl
  | cons x xs ih => simp [forEach, ih, hgf]

theorem flatten_expand_tag (t : TagBag) :
    flattenTagsReferance (expandAlertConditionTagSet t) = some t.dropEmptyValues := by
  rcases t with ⟨name, grouped, values⟩
  cases values with
  | none =>
    cases name <;> cases grouped <;>
      simp [flattenTagsReferance, expandAlertConditionTagSet, TagBag.dropEmptyValues]
  | some vs =>
    by_cases hv : vs = ∅
    · subst hv
      cases name <;> cases grouped <;>
        simp [flattenTagsReferance, expandAlertConditionTagSet, TagBag.dropEmptyValues,
          SchemaSet.List_empty]
    · have hlen : 0 < vs.List.length := by
        rw [SchemaSet.length_List]
        exact Finset.card_pos.mpr (Finset.nonempty_iff_ne_empty.mpr
          fun h => hv ((SchemaSet.eq_empty_iff vs).mpr h))
      cases name <;> cases grouped <;>
        simp [flattenTagsReferance, expandAlertConditionTagSet, TagBag.dropEmptyValues,
          hlen, forEach_id_map_some, NewSet_List, hv]

theorem map_dropEmptyValues_of_nonempty (ts : List TagBag)
    (h : ∀ t ∈ ts, t.values ≠ some ∅) : ts.map TagBag.dropEmptyValues = ts := by
  induction ts with
  | nil => rfl
  | cons t ts ih =>
    have ht : t.values ≠ some ∅ := h t (List.mem_cons_self t ts)
    have hts : ∀ t ∈ ts, t.values ≠ some ∅ := fun t1 h1 => h t1 (List.mem_cons_of_mem t h1)
    simp [TagBag.dropEmptyValues, ht, ih hts]

theorem uint_of_nonneg (v : Int) (h0 : 0 ≤ v) (h1 : v < 2 ^ intSize) :
    ((uint v : Nat) : Int) = v := by
  unfold uint
  rw [Int.emod_eq_of_lt h0 (by exact_mod_cast h1)]
  exact Int.toNat_of_nonneg h0

theorem expandAlertCondition_steps (m : ConditionBag) :
    expandAlertCondition m =
      expandAlertCondition.setTags m (expandAlertCondition.setThreshold m
        (expandAlertCondition.setSummaryFunction m (expandAlertCondition.setDuration m
          (expandAlertCondition.setDetectReset m (expandAlertCondition.setSource m
            (expandAlertCondition.setMetricName m (expandAlertCondition.setType m {}))))))) :=
  rfl

theorem flattenCondition_steps (condition : AlertCondition) :
    flattenCondition condition =
      flattenCondition.setTag condition (flattenCondition.setDuration condition
        (flattenCondition.setSummaryFunction condition (flattenCondition.setThreshold condition
          (flattenCondition.setDetectReset condition (flattenCondition.setSource condition
            (flattenCondition.setMetricName condition
              (flattenCondition.setType condition {}))))))) :=
  rfl

theorem expandAlertCondition_eq (m : ConditionBag) :
    expandAlertCondition m =
      { Type_ := m.type
        MetricName := if m.metric_name = some "" then none else m.metric_name
        Source := if m.source = some "" then none else m.source
        DetectReset := m.detect_reset
        Duration := m.duration.map uint
        Threshold := if m.threshold = some .nan then none else m.threshold
        SummaryFunction := m.summary_function
        Tags := if m.tag = some [] then none
          else m.tag.map (List.map expandAlertConditionTagSet) } := by
  rcases m with ⟨ty, mn, src, tag, dr, dur, thr, sf⟩
  rw [expandAlertCondition_steps]
  have e1 : expandAlertCondition.setType ⟨ty, mn, src, tag, dr, dur, thr, sf⟩ {} =
      { Type_ := ty } := by
    cases ty <;> rfl
  rw [e1]
  have e2 : expandAlertCondition.setMetricName ⟨ty, mn, src, tag, dr, dur, thr, sf⟩
      { Type_ := ty } =
      { Type_ := ty, MetricName := if mn = some "" then none else mn } := by
    cases mn with
    | none => rfl
    | some v =>
      by_cases hv : v = "" <;>
        simp [expandAlertCondition.setMetricName, string_length_pos_iff, hv]
  rw [e2]
  generalize (if mn = some "" then none else mn) = mn1
  have e3 : expandAlertCondition.setSource ⟨ty, mn, src, tag, dr, dur, thr, sf⟩
      { Type_ := ty, MetricName := mn1 } =
      { Type_ := ty, MetricName := mn1, Source := if src = some "" then none else src } := by
    cases src with
    | none => rfl
    | some v =>
      by_cases hv : v = "" <;>
        simp [expandAlertCondition.setSource, string_length_pos_iff, hv]
  rw [e3]
  generalize (if src = some "" then none else src) = src1
  have e4 : expandAlertCondition.setDetectReset ⟨ty, mn, src, tag, dr, dur, thr, sf⟩
      { Type_ := ty, MetricName := mn1, Source := src1 } =
      { Type_ := ty, MetricName := mn1, Source := src1, DetectReset := dr } := by
    cases dr <;> rfl
  rw [e4]
  have e5 : expandAlertCondition.setDuration ⟨ty, mn, src, tag, dr, dur, thr, sf⟩
      { Type_ := ty, MetricName := mn1, Source := src1, DetectReset := dr } =
      { Type_ := ty, MetricName := mn1, Source := src1, DetectReset := dr,
        Duration := dur.map uint } := by
    cases dur <;> rfl
  rw [e5]
  generalize dur.map uint = dur1
  have e6 : expandAlertCondition.setSummaryFunction ⟨ty, mn, src, tag, dr, dur, thr, sf⟩
      { Type_ := ty, MetricName := mn1, Source := src1, DetectReset := dr, Duration := dur1 } =
      { Type_ := ty, MetricName := mn1, Source := src1, DetectReset := dr, Duration := dur1,
        SummaryFunction := sf } := by
    cases sf <;> rfl
  rw [e6]
  have e7 : expandAlertCondition.setThreshold ⟨ty, mn, src, tag, dr, dur, thr, sf⟩
      { Type_ := ty, MetricName := mn1, Source := src1, DetectReset := dr, Duration := dur1,
        SummaryFunction := sf } =
      { Type_ := ty, MetricName := mn1, Source := src1, DetectReset := dr, Duration := dur1,
        SummaryFunction := sf, Threshold := if thr = some .nan then none else thr } := by
    cases thr with
    | none => rfl
    | some v => cases v <;> simp [expandAlertCondition.setThreshold, Float64.IsNaN]
  rw [e7]
  generalize (if thr = some Float64.nan then none else thr) = thr1
  cases tag with
  | none => rfl
  | some v => cases v <;> simp [expandAlertCondition.setTags]


theorem forEach_length {α β : Type} (f : α → Option β) (xs : List α) (ys : List β)
    (h : forEach f xs = some ys) : ys.length = xs.length := by
  induction xs generalizing ys with
  | nil =>
    simp [forEach] at h
    subst h
    rfl
  | cons x xs ih =>
    unfold forEach at h
    cases hx : f x with
    | none => simp [hx] at h
    | some y =>
      cases hxs : forEach f xs with
      | none => simp [hx, hxs] at h
      | some ys1 =>
        simp [hx, hxs] at h
        subst h
        simp [ih ys1 hxs]

theorem flattenCondition_eq (c : AlertCondition) :
    flattenCondition c =
      (forEach flattenTagsReferance (c.Tags.getD [])).map fun flattenedTags =>
        { type := c.Type_
          metric_name := c.MetricName
          source := c.Source
          tag := if flattenedTags = [] then none else some flattenedTags
          detect_reset := c.DetectReset
          duration := c.Duration.map (fun n : Nat => (n : Int))
          threshold := c.Threshold
          summary_function := c.SummaryFunction } := by
  rcases c with ⟨ty, mn, src, dr, dur, thr, sf, tags⟩
  rw [flattenCondition_steps]
  have e1 : flattenCondition.setType ⟨ty, mn, src, dr, dur, thr, sf, tags⟩ {} =
      { type := ty } := by
    cases ty <;> rfl
  rw [e1]
  have e2 : flattenCondition.setMetricName ⟨ty, mn, src, dr, dur, thr, sf, tags⟩
      { type := ty } = { type := ty, metric_name := mn } := by
    cases mn <;> rfl
  rw [e2]
  have e3 : flattenCondition.setSource ⟨ty, mn, src, dr, dur, thr, sf, tags⟩
      { type := ty, metric_name := mn } = { type := ty, metric_name := mn, source := src } := by
    cases src <;> rfl
  rw [e3]
  have e4 : flattenCondition.setDetectReset ⟨ty, mn, src, dr, dur, thr, sf, tags⟩
      { type := ty, metric_name := mn, source := src } =
      { type := ty, metric_name := mn, source := src, detect_reset := dr } := by
    cases dr <;> rfl
  rw [e4]
  have e5 : flattenCondition.setThreshold ⟨ty, mn, src, dr, dur, thr, sf, tags⟩
      { type := ty, metric_name := mn, source := src, detect_reset := dr } =
      { type := ty, metric_name := mn, source := src, detect_reset := dr, threshold := thr } := by
    cases thr <;> rfl
  rw [e5]
  have e6 : flattenCondition.setSummaryFunction ⟨ty, mn, src, dr, dur, thr, sf, tags⟩
      { type := ty, metric_name := mn, source := src, detect_reset := dr, threshold := thr } =
      { type := ty, metric_name := mn, source := src, detect_reset := dr, threshold := thr,
        summary_function := sf } := by
    cases sf <;> rfl
  rw [e6]
  have e7 : flattenCondition.setDuration ⟨ty, mn, src, dr, dur, thr, sf, tags⟩
      { type := ty, metric_name := mn, source := src, detect_reset := dr, threshold := thr,
        summary_function := sf } =
      { type := ty, metric_name := mn, source := src, detect_reset := dr, threshold := thr,
        summary_function := sf, duration := dur.map (fun n : Nat => (n : Int)) } := by
    cases dur <;> rfl
  rw [e7]
  generalize dur.map (fun n : Nat => (n : Int)) = dur1
  unfold flattenCondition.setTag
  cases tags with
  | none => simp [forEach]
  | some ts =>
    cases ts with
    | nil => simp [forEach]
    | cons t ts =>
      cases h : forEach flattenTagsReferance (t :: ts) with
      | none => simp [h]
      | some ft =>
        have hlen := forEach_length _ _ _ h
        have hne : ft ≠ [] := by
          intro h0
          subst h0
          simp at hlen
        simp [h, hne]


theorem flatten_expand_condition (m : ConditionBag) :
    flattenCondition (expandAlertCondition m) =
      some { type := m.type
             metric_name := if m.metric_name = some "" then none else m.metric_name
             source := if m.source = some "" then none else m.source
             tag := if m.tag = some [] then none
               else m.tag.map (List.map TagBag.dropEmptyValues)
             detect_reset := m.detect_reset
             duration := m.duration.map fun v => ((uint v : Nat) : Int)
             threshold := if m.threshold = some .nan then none else m.threshold
             summary_function := m.summary_function } := by
  rw [flattenCondition_eq, expandAlertCondition_eq]
  simp only
  cases htag : m.tag with
  | none => simp [forEach, Function.comp_def]
  | some ts =>
    cases ts with
    | nil => simp [forEach, Function.comp_def]
    | cons t ts =>
      have hf := forEach_map_of_total expandAlertConditionTagSet flattenTagsReferance
        TagBag.dropEmptyValues flatten_expand_tag (t :: ts)
      simp only [reduceCtorEq, Option.some.injEq, if_false, Option.map_some', Option.getD_some,
        hf]
      simp [Function.comp_def]

/-- Counterexample of C8: a `threshold` explicitly set to not-a-number and a
`values` explicitly set to the empty set do not come back from the round trip. -/
theorem condition_round_trip_counterexample :
    (nanThresholdCondition.threshold = some .nan ∧
      flattenCondition (expandAlertCondition nanThresholdCondition) =
        some { type := some "above", metric_name := some "cpu", threshold := none }) ∧
    (emptyValuesTag.values = some ∅ ∧
      flattenTagsReferance (expandAlertConditionTagSet emptyValuesTag) =
        some { name := some "env", values := none }) := by
  have h1 : nanThresholdCondition.threshold = some .nan := by decide
  have h2 : flattenCondition (expandAlertCondition nanThresholdCondition) =
      some { type := some "above", metric_name := some "cpu", threshold := none } := by
    decide
  have h3 : emptyValuesTag.values = some ∅ := by decide
  have h4 : flattenTagsReferance (expandAlertConditionTagSet emptyValuesTag) =
      some { name := some "env", values := none } := by
    rw [flatten_expand_tag]
    decide
  exact ⟨⟨h1, h2⟩, h3, h4⟩

/-- C8, amended: the round trip never panics and restores `type`, `detect_reset`
and `summary_function` as set; `metric_name` and `source` unless set to the empty
string; `threshold` unless set to not-a-number; `duration` when it is a
non-negative `int`; `tag` when the list is non-empty and none of its tags has an
empty `values` set; and, for a tag, `name` and `grouped` as set and `values`
unless it is the empty set. -/
theorem condition_round_trip :
    (∀ m : ConditionBag, ∃ m1, flattenCondition (expandAlertCondition m) = some m1 ∧
      m1.type = m.type ∧
      (m.metric_name ≠ some "" → m1.metric_name = m.metric_name) ∧
      (m.source ≠ some "" → m1.source = m.source) ∧
      m1.detect_reset = m.detect_reset ∧
      (∀ v, m.duration = some v → 0 ≤ v → v < 2 ^ intSize → m1.duration = some v) ∧
      (m.threshold ≠ some .nan → m1.threshold = m.threshold) ∧
      m1.summary_function = m.summary_function ∧
      (∀ ts, m.tag = some ts → ts ≠ [] → (∀ t ∈ ts, t.values ≠ some ∅) → m1.tag = some ts)) ∧
    (∀ t : TagBag, ∃ t1, flattenTagsReferance (expandAlertConditionTagSet t) = some t1 ∧
      t1.name = t.name ∧ t1.grouped = t.grouped ∧
      (t.values ≠ some ∅ → t1.values = t.values)) := by
  constructor
  · intro m
    refine ⟨_, flatten_expand_condition m, rfl, ?_, ?_, rfl, ?_, ?_, rfl, ?_⟩
    · intro h
      simp [h]
    · intro h
      simp [h]
    · intro v hv h0 h1
      simp [hv, uint_of_nonneg v h0 h1]
    · intro h
      simp [h]
    · intro ts hts hne hvals
      simp [hts, hne, map_dropEmptyValues_of_nonempty ts hvals]
  · intro t
    refine ⟨_, flatten_expand_tag t, rfl, rfl, ?_⟩
    intro h
    simp [TagBag.dropEmptyValues, h]

/-- Witness of C8, amended: a condition with every key set comes back unchanged. -/
theorem condition_round_trip_witness :
    ∃ m1, flattenCondition (expandAlertCondition fullCondition) = some m1 ∧
      m1.type = some "above" ∧ m1.metric_name = some "cpu" ∧ m1.source = some "web-1" ∧
      m1.detect_reset = some false ∧ m1.duration = some 600 ∧
      m1.threshold = some (.finite false 10 0) ∧ m1.summary_function = some "average" ∧
      m1.tag = some [{ name := some "env", grouped := some true, values := some {"prod"} }] ∧
      ∃ t1, flattenTagsReferance (expandAlertConditionTagSet
          { name := some "env", grouped := some true, values := some {"prod"} }) = some t1 ∧
        t1.name = some "env" ∧ t1.grouped = some true ∧ t1.values = some {"prod"} := by
  obtain ⟨t1, g, g1, g2, g3⟩ := condition_round_trip.2
    { name := some "env", grouped := some true, values := some {"prod"} }
  obtain ⟨m1, h, h1, h2, h3, h4, h5, h6, h7, h8⟩ := condition_round_trip.1 fullCondition
  have hd : fullCondition.duration = some 600 := by decide
  have ht : fullCondition.tag =
      some [{ name := some "env", grouped := some true, values := some {"prod"} }] := by
    decide
  exact ⟨m1, h, h1, h2 (by decide), h3 (by decide), h4, h5 600 hd (by decide) (by decide),
    h6 (by decide), h7, h8 _ ht (by decide) (by decide), t1, g, g1, g2, g3 (by decide)⟩

theorem alertCreatePayload_conditions (d : AlertData) :
    (alertCreatePayload d).Conditions.getD [] = d.Get_condition.map expandAlertCondition := by
  unfold alertCreatePayload
  simp only [AlertData.GetOk_description, AlertData.GetOk_rearm_seconds,
    AlertData.GetOk_services, AlertData.GetOk_condition, AlertData.GetOk_attributes]
  by_cases h1 : d.Get_description = "" <;> by_cases h2 : d.Get_rearm_seconds = 0 <;>
    by_cases h3 : d.Get_services = ∅ <;> by_cases h4 : d.Get_condition = [] <;>
    by_cases h5 : d.Get_attributes = [] <;> simp [h1, h2, h3, h4, h5]

/-- A key that is absent from the map handed to `expandAlertCondition` (or holds
a value of another dynamic type) leaves the corresponding field of the remote
condition nil. -/
theorem expandAlertCondition_absent_key (m : ConditionBag) :
    (m.source = none → (expandAlertCondition m).Source = none) ∧
    (m.detect_reset = none → (expandAlertCondition m).DetectReset = none) ∧
    (m.duration = none → (expandAlertCondition m).Duration = none) ∧
    (m.threshold = none → (expandAlertCondition m).Threshold = none) ∧
    (m.summary_function = none → (expandAlertCondition m).SummaryFunction = none) ∧
    (m.tag = none → (expandAlertCondition m).Tags = none) := by
  rw [expandAlertCondition_eq]
  refine ⟨?_, ?_, ?_, ?_, ?_, ?_⟩ <;> intro h <;> simp [h]

/-- Counterexample of C9: for a condition block that provides only `type` and
`metric_name`, the payload of Create carries `DetectReset = false`,
`Duration = 0`, `Threshold = 0` and `SummaryFunction = ""`. -/
theorem expand_fills_zero_values_counterexample :
    requiredOnlyAlertData.config.condition =
      some [{ type := some "above", metric_name := some "cpu" }] ∧
    (alertCreatePayload requiredOnlyAlertData).Conditions =
      some [{ Type_ := some "above", MetricName := some "cpu", DetectReset := some false,
              Duration := some 0, Threshold := some Float64.zero,
              SummaryFunction := some "" }] := by
  refine ⟨rfl, ?_⟩
  decide

/-- C9, amended: `helper/schema` hands a condition block over with every key
present, a key that was not provided holding the zero value of its type. On that
map `expandAlertCondition` leaves `Source` and `Tags` nil when `source` and
`tag` were not provided, and sets `DetectReset` to false, `Duration` to 0,
`Threshold` to 0 and `SummaryFunction` to the empty string when `detect_reset`,
`duration`, `threshold` and `summary_function` were not provided; a value that
was provided is treated as by the guards of the code. The conditions of the
payload of Create are the expansions of these maps. -/
theorem expand_of_unprovided_key :
    (∀ m : ConditionBag,
      (m.source = none → (expandAlertCondition m.ValueOrZero).Source = none) ∧
      (m.tag = none → (expandAlertCondition m.ValueOrZero).Tags = none) ∧
      (m.detect_reset = none → (expandAlertCondition m.ValueOrZero).DetectReset = some false) ∧
      (m.duration = none → (expandAlertCondition m.ValueOrZero).Duration = some 0) ∧
      (m.threshold = none →
        (expandAlertCondition m.ValueOrZero).Threshold = some Float64.zero) ∧
      (m.summary_function = none →
        (expandAlertCondition m.ValueOrZero).SummaryFunction = some "") ∧
      (∀ v, m.source = some v →
        (expandAlertCondition m.ValueOrZero).Source = if v = "" then none else some v) ∧
      (∀ v, m.detect_reset = some v →
        (expandAlertCondition m.ValueOrZero).DetectReset = some v) ∧
      (∀ v, m.duration = some v →
        (expandAlertCondition m.ValueOrZero).Duration = some (uint v)) ∧
      (∀ v, m.threshold = some v →
        (expandAlertCondition m.ValueOrZero).Threshold = if v = .nan then none else some v) ∧
      (∀ v, m.summary_function = some v →
        (expandAlertCondition m.ValueOrZero).SummaryFunction = some v) ∧
      (∀ ts, m.tag = some ts →
        (expandAlertCondition m.ValueOrZero).Tags =
          if ts = [] then none
          else some (ts.map fun t => expandAlertConditionTagSet t.ValueOrZero))) ∧
    (∀ (d : AlertData) (i : Nat) (m : ConditionBag),
      (d.config.condition.getD [])[i]? = some m →
      ((alertCreatePayload d).Conditions.getD [])[i]? =
        some (expandAlertCondition m.ValueOrZero)) := by
  constructor
  · intro m
    rw [expandAlertCondition_eq]
    refine ⟨?_, ?_, ?_, ?_, ?_, ?_, ?_, ?_, ?_, ?_, ?_, ?_⟩
    · intro h
      simp [ConditionBag.ValueOrZero, h]
    · intro h
      simp [ConditionBag.ValueOrZero, h]
    · intro h
      simp [ConditionBag.ValueOrZero, h]
    · intro h
      simp [ConditionBag.ValueOrZero, h, uint, intSize]
    · intro h
      simp [ConditionBag.ValueOrZero, h, Float64.zero]
    · intro h
      simp [ConditionBag.ValueOrZero, h]
    · intro v h
      by_cases hv : v = "" <;> simp [ConditionBag.ValueOrZero, h, hv]
    · intro v h
      simp [ConditionBag.ValueOrZero, h]
    · intro v h
      simp [ConditionBag.ValueOrZero, h]
    · intro v h
      by_cases hv : v = .nan <;> simp [ConditionBag.ValueOrZero, h, hv]
    · intro v h
      simp [ConditionBag.ValueOrZero, h]
    · intro ts h
      by_cases hts : ts = [] <;> simp [ConditionBag.ValueOrZero, h, hts]
  · intro d i m h
    rw [alertCreatePayload_conditions]
    simp [AlertData.Get_condition, List.getElem?_map, h]

/-- Witness of C9, amended: the condition block that provides only `type` and
`metric_name`. -/
theorem expand_of_unprovided_key_witness :
    (expandAlertCondition requiredOnlyCondition.ValueOrZero).Source = none ∧
    (expandAlertCondition requiredOnlyCondition.ValueOrZero).Tags = none ∧
    (expandAlertCondition requiredOnlyCondition.ValueOrZero).DetectReset = some false ∧
    (expandAlertCondition requiredOnlyCondition.ValueOrZero).Duration = some 0 ∧
    (expandAlertCondition requiredOnlyCondition.ValueOrZero).Threshold = some Float64.zero ∧
    (expandAlertCondition requiredOnlyCondition.ValueOrZero).SummaryFunction = some "" ∧
    (expandAlertCondition fullCondition.ValueOrZero).Source = some "web-1" ∧
    (expandAlertCondition fullCondition.ValueOrZero).Duration = some 600 ∧
    ((alertCreatePayload requiredOnlyAlertData).Conditions.getD [])[0]? =
      some (expandAlertCondition requiredOnlyCondition.ValueOrZero) :=
  have h := expand_of_unprovided_key.1 requiredOnlyCondition
  have hf := expand_of_unprovided_key.1 fullCondition
  ⟨h.1 (by decide), h.2.1 (by decide), h.2.2.1 (by decide), h.2.2.2.1 (by decide),
    h.2.2.2.2.1 (by decide), h.2.2.2.2.2.1 (by decide),
    hf.2.2.2.2.2.2.1 "web-1" (by decide),
    by rw [hf.2.2.2.2.2.2.2.2.1 600 (by decide)]; decide,
    expand_of_unprovided_key.2 requiredOnlyAlertData 0 requiredOnlyCondition (by decide)⟩

/-- C10: a `threshold` that is not-a-number leaves the remote `Threshold` nil;
any other `threshold` is copied into it. -/
theorem expand_threshold (m : ConditionBag) :
    (m.threshold = some .nan → (expandAlertCondition m).Threshold = none) ∧
    (∀ v, m.threshold = some v → v ≠ .nan → (expandAlertCondition m).Threshold = some v) := by
  rw [expandAlertCondition_eq]
  constructor
  · intro h
    simp [h]
  · intro v h hv
    simp [h, hv]

/-- Witness of C10: the thresholds NaN and 10. -/
theorem expand_threshold_witness :
    (expandAlertCondition nanThresholdCondition).Threshold = none ∧
    (expandAlertCondition fullCondition).Threshold = some (.finite false 10 0) :=
  ⟨(expand_threshold nanThresholdCondition).1 (by decide),
    (expand_threshold fullCondition).2 _ (by decide) (by decide)⟩


/-! ## Ordered and unordered collections (C11-C14) -/

theorem forEach_getElem? {α β : Type} (f : α → Option β) (xs : List α) (ys : List β)
    (h : forEach f xs = some ys) (i : Nat) (x : α) (hx : xs[i]? = some x) :
    ys[i]? = f x := by
  induction xs generalizing ys i with
  | nil => simp at hx
  | cons a xs ih =>
    unfold forEach at h
    cases ha : f a with
    | none => simp [ha] at h
    | some b =>
      cases hxs : forEach f xs with
      | none => simp [ha, hxs] at h
      | some ys1 =>
        simp [ha, hxs] at h
        subst h
        cases i with
        | zero =>
          simp at hx
          subst hx
          simp [ha]
        | succ j =>
          simp at hx
          simpa using ih ys1 hxs j hx

theorem flattenAlert_condition (alert : Alert) (conditions : List AlertCondition)
    (hc : alert.Conditions = some conditions) (hne : conditions ≠ [])
    (hrun : (flattenAlert {} alert).1 ≠ .fault) :
    ∃ written, forEach flattenCondition conditions = some written ∧
      (flattenAlert {} alert).2.written.lookup "condition" = some (.conditions written) := by
  have hlen : 0 < conditions.length := List.length_pos.mpr hne
  revert hrun
  unfold flattenAlert
  repeat' split
  all_goals simp_all [AlertData.Set, List.lookup]


/-- C11: the `Conditions` of the payload of Create are `expandAlertCondition` of the
bag's conditions, element by element and in the same order (so of the same
length), each condition's `Tags` being the expansion of its tags in the same
order; and a Read that completes on a remote alert with at least one condition
writes a `condition` list of the same length whose i-th element is
`flattenCondition` of the i-th remote condition. -/
theorem conditions_keep_length_and_order :
    (∀ d : AlertData,
      ((alertCreatePayload d).Conditions.getD []).length = d.Get_condition.length ∧
      ∀ (i : Nat) (m : ConditionBag), d.Get_condition[i]? = some m →
        ((alertCreatePayload d).Conditions.getD [])[i]? = some (expandAlertCondition m)) ∧
    (∀ m : ConditionBag,
      ((expandAlertCondition m).Tags.getD []).length = (m.tag.getD []).length ∧
      ∀ (i : Nat) (t : TagBag), (m.tag.getD [])[i]? = some t →
        ((expandAlertCondition m).Tags.getD [])[i]? = some (expandAlertConditionTagSet t)) ∧
    (∀ (client : Client) (d : AlertData) (past : List Call) (id : Nat) (alert : Alert)
        (conditions : List AlertCondition),
      ParseUint d.Id = some id → client.AlertsGet past id = .ok alert →
      alert.Conditions = some conditions → conditions ≠ [] →
      (resourceLibratoAlertRead client d past).status ≠ .fault →
      ∃ written,
        (resourceLibratoAlertRead client d past).data.written.lookup "condition" =
          some (.conditions written) ∧
        written.length = conditions.length ∧
        ∀ (i : Nat) (c : AlertCondition), conditions[i]? = some c →
          written[i]? = flattenCondition c) := by
  refine ⟨?_, ?_, ?_⟩
  · intro d
    rw [alertCreatePayload_conditions]
    refine ⟨by simp, ?_⟩
    intro i m h
    simp [h]
  · intro m
    rw [expandAlertCondition_eq]
    cases htag : m.tag with
    | none => simp
    | some ts =>
      cases ts with
      | nil => simp
      | cons t ts =>
        refine ⟨by simp, ?_⟩
        intro i t1 h
        simp only [Option.getD_some] at h
        have hm : (List.map expandAlertConditionTagSet (t :: ts))[i]? =
            some (expandAlertConditionTagSet t1) := by
          rw [List.getElem?_map, h]
          rfl
        simpa using hm
  · intro client d past id alert conditions hid hget hc hne hrun
    rw [resourceLibratoAlertRead_ok client d past id alert hid hget] at hrun ⊢
    simp only at hrun ⊢
    rw [flattenAlert_status] at hrun
    obtain ⟨written, hw, hl⟩ := flattenAlert_condition alert conditions hc hne hrun
    refine ⟨written, ?_, forEach_length _ _ _ hw, ?_⟩
    · rw [flattenAlert_written]
      exact lookup_append_of_some _ _ _ _ hl
    · intro i c hi
      exact forEach_getElem? _ _ _ hw i c hi


/-- Witness of C11: two configured conditions, the second with two tags, and a
remote alert with two conditions; each element is found at its own index. -/
theorem conditions_keep_length_and_order_witness :
    ((alertCreatePayload twoConditionsAlertData).Conditions.getD []).length = 2 ∧
    ((alertCreatePayload twoConditionsAlertData).Conditions.getD [])[0]? =
      some (expandAlertCondition fullCondition) ∧
    ((alertCreatePayload twoConditionsAlertData).Conditions.getD [])[1]? =
      some (expandAlertCondition secondCondition) ∧
    expandAlertCondition fullCondition ≠ expandAlertCondition secondCondition ∧
    ((expandAlertCondition secondCondition).Tags.getD []).length = 2 ∧
    ((expandAlertCondition secondCondition).Tags.getD [])[0]? =
      some (expandAlertConditionTagSet
        { name := some "region", grouped := some false, values := some {"eu"} }) ∧
    ((expandAlertCondition secondCondition).Tags.getD [])[1]? =
      some (expandAlertConditionTagSet
        { name := some "tier", grouped := some true, values := some {"db"} }) ∧
    ∃ written,
      (resourceLibratoAlertRead
        (sampleClient (.ok twoConditionsRemoteAlert) (.error (.other "unused")))
        sampleAlertData []).data.written.lookup "condition" = some (.conditions written) ∧
      written.length = 2 ∧ written[0]? = flattenCondition remoteCondition ∧
      written[1]? = flattenCondition secondRemoteCondition ∧
      flattenCondition remoteCondition ≠ flattenCondition secondRemoteCondition := by
  obtain ⟨written, h1, h2, h3⟩ := conditions_keep_length_and_order.2.2
    (sampleClient (.ok twoConditionsRemoteAlert) (.error (.other "unused"))) sampleAlertData [] 42
    twoConditionsRemoteAlert [remoteCondition, secondRemoteCondition] (by decide) rfl (by decide)
    (by decide) (by decide)
  exact ⟨(conditions_keep_length_and_order.1 twoConditionsAlertData).1.trans (by decide),
    (conditions_keep_length_and_order.1 twoConditionsAlertData).2 0 fullCondition (by decide),
    (conditions_keep_length_and_order.1 twoConditionsAlertData).2 1 secondCondition (by decide),
    by decide,
    (conditions_keep_length_and_order.2.1 secondCondition).1.trans (by decide),
    (conditions_keep_length_and_order.2.1 secondCondition).2 0 _ (by decide),
    (conditions_keep_length_and_order.2.1 secondCondition).2 1 _ (by decide),
    written, h1, h2, h3 0 remoteCondition (by decide), h3 1 secondRemoteCondition (by decide),
    by decide⟩

theorem roundHalfEven_mul (n k : Nat) : roundHalfEven (n * 2 ^ k) (2 ^ k) = n := by
  have hp : 0 < 2 ^ k := Nat.two_pow_pos k
  unfold roundHalfEven
  simp [Nat.mul_mod_left, Nat.mul_div_cancel _ hp, hp]

theorem fmtDotF_of_holdsNat (f : Float64) (n : Nat) (h : f.holdsNat n = true) :
    f.fmtDotF = toString n := by
  cases f with
  | nan => simp [Float64.holdsNat] at h
  | inf neg => simp [Float64.holdsNat] at h
  | finite neg mant exp =>
    cases neg with
    | true => simp [Float64.holdsNat] at h
    | false =>
      by_cases he : 0 ≤ exp
      · simp only [Float64.holdsNat, he, if_true, beq_iff_eq] at h
        simp [Float64.fmtDotF, he, h]
      · simp only [Float64.holdsNat, he, if_false, beq_iff_eq] at h
        subst h
        simp [Float64.fmtDotF, he, roundHalfEven_mul]

theorem forEach_flattenService_of_ids (entries : List ServiceEntry) (ids : List Nat)
    (h : List.Forall₂ (fun e n => ∃ f : Float64, e = .object (.number f) ∧ f.holdsNat n = true)
      entries ids) :
    forEach flattenService entries = some (ids.map toString) := by
  induction h with
  | nil => rfl
  | cons hx _ ih =>
    obtain ⟨f, rfl, hf⟩ := hx
    simp [forEach, flattenService, JSONValue.fmtDotF, fmtDotF_of_holdsNat f _ hf, ih]

theorem flattenAlert_services (alert : Alert) (entries : List ServiceEntry)
    (services : List String) (hs : alert.Services = .list entries)
    (hf : forEach flattenService entries = some services)
    (hrun : (flattenAlert {} alert).1 ≠ .fault) :
    (flattenAlert {} alert).2.written.lookup "services" = some (.set (NewSet services)) := by
  revert hrun
  unfold flattenAlert
  repeat' split
  all_goals simp_all [AlertData.Set, List.lookup]

/-- The set that a successful Read writes under `services`: `schema.NewSet` of
the renderings of the ids, in the order of the remote list. -/
theorem read_services_written (client : Client) (d : AlertData) (past : List Call) (id : Nat)
    (alert : Alert) (entries : List ServiceEntry) (ids : List Nat)
    (hid : ParseUint d.Id = some id) (hget : client.AlertsGet past id = .ok alert)
    (hs : alert.Services = .list entries)
    (hids : List.Forall₂ (fun e n => ∃ f : Float64, e = .object (.number f) ∧ f.holdsNat n = true)
      entries ids)
    (hok : (resourceLibratoAlertRead client d past).status = .ok) :
    (resourceLibratoAlertRead client d past).data.written.lookup "services" =
      some (.set (NewSet (ids.map toString))) := by
  rw [resourceLibratoAlertRead_ok client d past id alert hid hget] at hok ⊢
  simp only at hok ⊢
  rw [flattenAlert_status] at hok
  have hrun : (flattenAlert {} alert).1 ≠ .fault := by
    rw [hok]
    decide
  rw [flattenAlert_written]
  apply lookup_append_of_some
  exact flattenAlert_services alert entries _ hs (forEach_flattenService_of_ids entries ids hids)
    hrun

/-- An item is in `NewSet items` exactly when no item before its first
occurrence has its hash code. -/
theorem mem_NewSet_iff_first (items : List String) (a : String) :
    a ∈ NewSet items ↔
      ∃ pre post, items = pre ++ a :: post ∧ ∀ b ∈ pre, HashString b ≠ HashString a := by
  rw [mem_NewSet, List.find?_eq_some]
  simp

set_option maxRecDepth 8192 in
/-- Counterexample of C12: the services 86821 and 14740600 have renderings with
the same hash code, and a successful Read sets `services` to a set that holds
the first rendering only. -/
theorem read_services_collision_counterexample :
    (resourceLibratoAlertRead
      (sampleClient (.ok collidingServicesRemoteAlert) (.error (.other "unused")))
      sampleAlertData []).status = .ok ∧
    (resourceLibratoAlertRead
      (sampleClient (.ok collidingServicesRemoteAlert) (.error (.other "unused")))
      sampleAlertData []).data.written.lookup "services" =
        some (.set (NewSet ["86821", "14740600"])) ∧
    HashString "86821" = HashString "14740600" ∧
    "86821" ∈ NewSet ["86821", "14740600"] ∧
    ¬ "14740600" ∈ NewSet ["86821", "14740600"] := by
  have hh : HashString "86821" = HashString "14740600" := by decide
  refine ⟨by decide, ?_, hh, ?_, ?_⟩
  · exact read_services_written
      (sampleClient (.ok collidingServicesRemoteAlert) (.error (.other "unused")))
      sampleAlertData [] 42 collidingServicesRemoteAlert
      [.object (.number (.finite false 86821 0)), .object (.number (.finite false 14740600 0))]
      [86821, 14740600] (by decide) rfl rfl
      (List.Forall₂.cons ⟨.finite false 86821 0, rfl, by decide⟩
        (List.Forall₂.cons ⟨.finite false 14740600 0, rfl, by decide⟩ List.Forall₂.nil))
      (by decide)
  · rw [mem_NewSet]
    simp [List.find?]
  · rw [mem_NewSet]
    simp [List.find?, hh]

/-- C12, amended: when every element of the remote `Services` list is an object
whose `id` is a number holding a non-negative integer, a successful Read sets
`services` to the set that `schema.NewSet` builds from the decimal renderings of
those integers in the order of the list. Every element of the set is such a
rendering; a rendering is in the set exactly when no rendering before its first
occurrence has its hash code; and when no two different renderings have the same
hash code the set holds exactly the renderings. -/
theorem read_services_ids (client : Client) (d : AlertData) (past : List Call) (id : Nat)
    (alert : Alert) (entries : List ServiceEntry) (ids : List Nat)
    (hid : ParseUint d.Id = some id) (hget : client.AlertsGet past id = .ok alert)
    (hs : alert.Services = .list entries)
    (hids : List.Forall₂ (fun e n => ∃ f : Float64, e = .object (.number f) ∧ f.holdsNat n = true)
      entries ids)
    (hok : (resourceLibratoAlertRead client d past).status = .ok) :
    ∃ services : SchemaSet,
      (resourceLibratoAlertRead client d past).data.written.lookup "services" =
        some (.set services) ∧
      services = NewSet (ids.map toString) ∧
      (∀ v, v ∈ services → ∃ n ∈ ids, v = toString n) ∧
      (∀ n ∈ ids, (toString n ∈ services ↔
        ∃ pre post, ids.map toString = pre ++ toString n :: post ∧
          ∀ b ∈ pre, HashString b ≠ HashString (toString n))) ∧
      ((∀ m ∈ ids, ∀ n ∈ ids, HashString (toString m) = HashString (toString n) →
          toString m = toString n) →
        ∀ v, v ∈ services ↔ ∃ n ∈ ids, v = toString n) := by
  refine ⟨NewSet (ids.map toString),
    read_services_written client d past id alert entries ids hid hget hs hids hok, rfl, ?_, ?_, ?_⟩
  · intro v hv
    have := mem_of_mem_NewSet _ v hv
    rw [List.mem_map] at this
    obtain ⟨n, hn, hnv⟩ := this
    exact ⟨n, hn, hnv.symm⟩
  · intro n _
    exact mem_NewSet_iff_first _ _
  · intro hd v
    rw [mem_NewSet_of_distinct, List.mem_map]
    · constructor
      · rintro ⟨n, hn, hnv⟩
        exact ⟨n, hn, hnv.symm⟩
      · rintro ⟨n, hn, hnv⟩
        exact ⟨n, hn, hnv.symm⟩
    · intro a ha b hb hab
      rw [List.mem_map] at ha hb
      obtain ⟨m, hm, rfl⟩ := ha
      obtain ⟨n, hn, rfl⟩ := hb
      exact hd m hm n hn hab

/-- Witness of C12, amended: the services with the ids 7 and 9 give the set that
holds `"7"` and `"9"` and nothing else. -/
theorem read_services_ids_witness :
    ∃ services : SchemaSet,
      (resourceLibratoAlertRead
        (sampleClient (.ok twoServicesRemoteAlert) (.error (.other "unused")))
        sampleAlertData []).data.written.lookup "services" = some (.set services) ∧
      services = NewSet ["7", "9"] ∧
      ∀ v, v ∈ services ↔ v = "7" ∨ v = "9" := by
  obtain ⟨services, h1, h2, _, _, h5⟩ := read_services_ids
    (sampleClient (.ok twoServicesRemoteAlert) (.error (.other "unused")))
    sampleAlertData [] 42 twoServicesRemoteAlert
    [.object (.number (.finite false 7 0)), .object (.number (.finite false 9 0))] [7, 9]
    (by decide) rfl rfl
    (List.Forall₂.cons ⟨.finite false 7 0, rfl, by decide⟩
      (List.Forall₂.cons ⟨.finite false 9 0, rfl, by decide⟩ List.Forall₂.nil))
    (by decide)
  refine ⟨services, h1, h2, fun v => ?_⟩
  have hne : HashString "7" ≠ HashString "9" := by decide
  rw [h5 (by
    intro m hm n hn h
    simp only [List.mem_cons, List.mem_singleton, List.not_mem_nil, or_false] at hm hn
    rcases hm with rfl | rfl <;> rcases hn with rfl | rfl
    · rfl
    · exact absurd h hne
    · exact absurd h.symm hne
    · rfl)]
  constructor
  · rintro ⟨n, hn, rfl⟩
    simp only [List.mem_cons, List.mem_singleton, List.not_mem_nil, or_false] at hn
    rcases hn with rfl | rfl
    · exact Or.inl rfl
    · exact Or.inr rfl
  · rintro (rfl | rfl)
    · exact ⟨7, by simp, rfl⟩
    · exact ⟨9, by simp, rfl⟩

theorem forEach_eq_none_iff {α β : Type} (f : α → Option β) (xs : List α) :
    forEach f xs = none ↔ ∃ x ∈ xs, f x = none := by
  induction xs with
  | nil => simp [forEach]
  | cons a xs ih =>
    unfold forEach
    cases ha : f a with
    | none => simp [ha]
    | some b =>
      cases hxs : forEach f xs with
      | none =>
        have := ih.mp hxs
        simp [ha, this]
      | some ys =>
        have hno : ¬ ∃ x ∈ xs, f x = none := fun h => by
          have := ih.mpr h
          simp [hxs] at this
        simp only [reduceCtorEq, false_iff]
        rintro ⟨x, hx, hfx⟩
        rcases List.mem_cons.mp hx with rfl | hx
        · simp [ha] at hfx
        · exact hno ⟨x, hx, hfx⟩

theorem forEach_mem {α β : Type} (f : α → Option β) (xs : List α) (ys : List β)
    (h : forEach f xs = some ys) (y : β) : y ∈ ys ↔ ∃ x ∈ xs, f x = some y := by
  induction xs generalizing ys with
  | nil =>
    simp [forEach] at h
    subst h
    simp
  | cons a xs ih =>
    unfold forEach at h
    cases ha : f a with
    | none => simp [ha] at h
    | some b =>
      cases hxs : forEach f xs with
      | none => simp [ha, hxs] at h
      | some ys1 =>
        simp [ha, hxs] at h
        subst h
        rw [List.mem_cons, ih ys1 hxs]
        constructor
        · rintro (rfl | ⟨x, hx, hfx⟩)
          · exact ⟨a, List.mem_cons_self a xs, ha⟩
          · exact ⟨x, List.mem_cons_of_mem a hx, hfx⟩
        · rintro ⟨x, hx, hfx⟩
          rcases List.mem_cons.mp hx with rfl | hx
          · left
            rw [ha] at hfx
            exact (Option.some.inj hfx).symm
          · exact Or.inr ⟨x, hx, hfx⟩

/-- Two slices with the same elements, whatever their order and repetitions,
none of which are converted to different strings with the same hash code, are
converted to the same set, and the conversion of one panics exactly when that
of the other does. -/
theorem forEach_NewSet_congr {α : Type} (f : α → Option String) (xs1 xs2 : List α)
    (h : ∀ x, x ∈ xs1 ↔ x ∈ xs2)
    (hd : ∀ x ∈ xs1, ∀ y ∈ xs1, ∀ a b, f x = some a → f y = some b →
      HashString a = HashString b → a = b) :
    (forEach f xs1).map NewSet = (forEach f xs2).map NewSet := by
  cases h1 : forEach f xs1 with
  | none =>
    obtain ⟨x, hx, hfx⟩ := (forEach_eq_none_iff f xs1).mp h1
    rw [(forEach_eq_none_iff f xs2).mpr ⟨x, (h x).mp hx, hfx⟩]
  | some ys1 =>
    cases h2 : forEach f xs2 with
    | none =>
      obtain ⟨x, hx, hfx⟩ := (forEach_eq_none_iff f xs2).mp h2
      rw [(forEach_eq_none_iff f xs1).mpr ⟨x, (h x).mpr hx, hfx⟩] at h1
      simp at h1
    | some ys2 =>
      have hmem : ∀ y, y ∈ ys1 ↔ y ∈ ys2 := by
        intro y
        rw [forEach_mem f xs1 ys1 h1, forEach_mem f xs2 ys2 h2]
        constructor
        · rintro ⟨x, hx, hfx⟩
          exact ⟨x, (h x).mp hx, hfx⟩
        · rintro ⟨x, hx, hfx⟩
          exact ⟨x, (h x).mpr hx, hfx⟩
      have hd1 : ∀ a ∈ ys1, ∀ b ∈ ys1, HashString a = HashString b → a = b := by
        intro a ha b hb hab
        obtain ⟨x, hx, hfx⟩ := (forEach_mem f xs1 ys1 h1 a).mp ha
        obtain ⟨y, hy, hfy⟩ := (forEach_mem f xs1 ys1 h1 b).mp hb
        exact hd x hx y hy a b hfx hfy hab
      have hd2 : ∀ a ∈ ys2, ∀ b ∈ ys2, HashString a = HashString b → a = b :=
        fun a ha b hb hab => hd1 a ((hmem a).mpr ha) b ((hmem b).mpr hb) hab
      simp only [Option.map_some', Option.some.injEq]
      apply SchemaSet.ext_items
      ext y
      rw [← SchemaSet.mem_iff, ← SchemaSet.mem_iff, mem_NewSet_of_distinct ys1 hd1,
        mem_NewSet_of_distinct ys2 hd2]
      exact hmem y

theorem flattenTagsReferance_values (tag : AlertConditionTagSet) :
    (flattenTagsReferance tag).map (fun m => m.values) =
      (forEach id (tag.Values.getD [])).map fun values =>
        if tag.Values.getD [] = [] then none else some (NewSet values) := by
  rcases tag with ⟨name, grouped, values⟩
  cases values with
  | none => cases name <;> cases grouped <;> simp [flattenTagsReferance, forEach]
  | some vs =>
    cases vs with
    | nil => cases name <;> cases grouped <;> simp [flattenTagsReferance, forEach]
    | cons v vs =>
      cases hf : forEach id (v :: vs) with
      | none => cases name <;> cases grouped <;> simp [flattenTagsReferance, hf]
      | some ys => cases name <;> cases grouped <;> simp [flattenTagsReferance, hf]

theorem flattenAlert_services_congr (d : AlertData) (alert : Alert)
    (entries1 entries2 : List ServiceEntry) (h : ∀ e, e ∈ entries1 ↔ e ∈ entries2)
    (hd : ∀ e1 ∈ entries1, ∀ e2 ∈ entries1, ∀ a b, flattenService e1 = some a →
      flattenService e2 = some b → HashString a = HashString b → a = b) :
    flattenAlert d { alert with Services := .list entries1 } =
      flattenAlert d { alert with Services := .list entries2 } := by
  have hc := forEach_NewSet_congr flattenService entries1 entries2 h hd
  unfold flattenAlert
  cases alert.Name with
  | none => rfl
  | some name =>
    simp only
    cases h1 : forEach flattenService entries1 with
    | none =>
      cases h2 : forEach flattenService entries2 with
      | none => rfl
      | some s2 => simp [h1, h2] at hc
    | some s1 =>
      cases h2 : forEach flattenService entries2 with
      | none => simp [h1, h2] at hc
      | some s2 =>
        simp only [h1, h2, Option.map_some', Option.some.injEq] at hc
        simp only [hc]

theorem flattenTagsReferance_of_values (tag : AlertConditionTagSet) (values : List String)
    (hv : tag.Values = some (values.map some)) (hne : values ≠ []) :
    ∃ m, flattenTagsReferance tag = some m ∧ m.values = some (NewSet values) := by
  have hlen : 0 < values.length := List.length_pos.mpr hne
  rcases tag with ⟨name, grouped, vs⟩
  simp only at hv
  subst hv
  cases name <;> cases grouped <;>
    simp [flattenTagsReferance, forEach_id_map_some, hlen]

set_option maxRecDepth 8192 in
/-- Counterexample of C13: the values `plumless` and `buckeroo` have the same
hash code, and the tag that lists them in this order is flattened to another
`values` set than the tag that lists them in the other order; likewise Read
produces different `services` sets for the services 86821, 14740600 and
14740600, 86821. -/
theorem flatten_sets_order_counterexample :
    HashString "plumless" = HashString "buckeroo" ∧
    (flattenTagsReferance
        { Name := some "env", Values := some [some "plumless", some "buckeroo"] }).map
        (fun m => m.values) = some (some {"plumless"}) ∧
    (flattenTagsReferance
        { Name := some "env", Values := some [some "buckeroo", some "plumless"] }).map
        (fun m => m.values) = some (some {"buckeroo"}) ∧
    ({"plumless"} : SchemaSet) ≠ {"buckeroo"} ∧
    (resourceLibratoAlertRead
      (sampleClient (.ok collidingServicesRemoteAlert) (.error (.other "unused")))
      sampleAlertData []).data.written.lookup "services" = some (.set {"86821"}) ∧
    (resourceLibratoAlertRead
      (sampleClient (.ok collidingServicesReversedRemoteAlert) (.error (.other "unused")))
      sampleAlertData []).data.written.lookup "services" = some (.set {"14740600"}) ∧
    ({"86821"} : SchemaSet) ≠ {"14740600"} := by
  refine ⟨by decide, by decide, by decide, by decide, by decide, by decide, by decide⟩

/-- C13, amended: the sets produced by flatten hold each entry once, and ignore
order and duplicates as long as no two different entries have the same hash
code. A tag whose `Values` list is not empty and free of such collisions is
flattened to a `values` set whose elements are exactly the entries of the list,
each listed once; two such tags whose `Values` have the same elements, in any
order and with any repetitions, are flattened to the same `values` set; and two
remote alerts that differ only in that their `Services` lists have the same
elements in another order or with other repetitions, no two different ids
being rendered with the same hash code, are read identically, with the same
`services` set, which a successful Read writes and whose elements are exactly
the renderings of the entries, each listed once. -/
theorem flatten_sets_ignore_order_and_duplicates :
    (∀ (tag : AlertConditionTagSet) (values : List String),
      tag.Values = some (values.map some) → values ≠ [] →
      (∀ a ∈ values, ∀ b ∈ values, HashString a = HashString b → a = b) →
      ∃ m s, flattenTagsReferance tag = some m ∧ m.values = some s ∧
        (∀ v, v ∈ s ↔ v ∈ values) ∧ (∀ v, v ∈ s.List ↔ v ∈ values) ∧
        ∀ v ∈ values, s.List.count v = 1) ∧
    (∀ tag1 tag2 : AlertConditionTagSet,
      (∀ v, v ∈ tag1.Values.getD [] ↔ v ∈ tag2.Values.getD []) →
      (∀ a b, some a ∈ tag1.Values.getD [] → some b ∈ tag1.Values.getD [] →
        HashString a = HashString b → a = b) →
      (flattenTagsReferance tag1).map (fun m => m.values) =
        (flattenTagsReferance tag2).map (fun m => m.values)) ∧
    (∀ (client1 client2 : Client) (d : AlertData) (past : List Call) (id : Nat) (alert : Alert)
        (entries1 entries2 : List ServiceEntry),
      ParseUint d.Id = some id →
      client1.AlertsGet past id = .ok { alert with Services := .list entries1 } →
      client2.AlertsGet past id = .ok { alert with Services := .list entries2 } →
      (∀ e, e ∈ entries1 ↔ e ∈ entries2) →
      (∀ e1 ∈ entries1, ∀ e2 ∈ entries1, ∀ a b, flattenService e1 = some a →
        flattenService e2 = some b → HashString a = HashString b → a = b) →
      resourceLibratoAlertRead client1 d past = resourceLibratoAlertRead client2 d past) ∧
    (∀ (client : Client) (d : AlertData) (past : List Call) (id : Nat) (alert : Alert)
        (entries : List ServiceEntry) (renderings : List String),
      ParseUint d.Id = some id → client.AlertsGet past id = .ok alert →
      alert.Services = .list entries → forEach flattenService entries = some renderings →
      (∀ a ∈ renderings, ∀ b ∈ renderings, HashString a = HashString b → a = b) →
      (resourceLibratoAlertRead client d past).status = .ok →
      ∃ s, (resourceLibratoAlertRead client d past).data.written.lookup "services" =
          some (.set s) ∧
        (∀ v, v ∈ s ↔ v ∈ renderings) ∧ (∀ v, v ∈ s.List ↔ v ∈ renderings) ∧
        ∀ v ∈ renderings, s.List.count v = 1) := by
  refine ⟨?_, ?_, ?_, ?_⟩
  · intro tag values hv hne hd
    obtain ⟨m, hm, hvals⟩ := flattenTagsReferance_of_values tag values hv hne
    have hmem : ∀ v, v ∈ NewSet values ↔ v ∈ values := mem_NewSet_of_distinct values hd
    have hlist : ∀ v, v ∈ (NewSet values).List ↔ v ∈ values := fun v => by
      rw [SchemaSet.mem_List, ← SchemaSet.mem_iff, hmem]
    exact ⟨m, NewSet values, hm, hvals, hmem, hlist, fun v hv =>
      List.count_eq_one_of_mem (SchemaSet.nodup_List _) ((hlist v).mpr hv)⟩
  · intro tag1 tag2 h hd
    rw [flattenTagsReferance_values, flattenTagsReferance_values]
    have hnil : tag1.Values.getD [] = [] ↔ tag2.Values.getD [] = [] := by
      simp only [List.eq_nil_iff_forall_not_mem]
      constructor
      · intro h1 v hv
        exact h1 v ((h v).mpr hv)
      · intro h2 v hv
        exact h2 v ((h v).mp hv)
    have hc := forEach_NewSet_congr id _ _ h (fun x hx y hy a b hxa hyb hab => by
      simp only [id] at hxa hyb
      subst hxa
      subst hyb
      exact hd a b hx hy hab)
    cases h1 : forEach id (tag1.Values.getD []) with
    | none =>
      cases h2 : forEach id (tag2.Values.getD []) with
      | none => rfl
      | some s2 => simp [h1, h2] at hc
    | some s1 =>
      cases h2 : forEach id (tag2.Values.getD []) with
      | none => simp [h1, h2] at hc
      | some s2 =>
        simp only [h1, h2, Option.map_some', Option.some.injEq] at hc
        by_cases hn : tag1.Values.getD [] = []
        · simp [hn, hnil.mp hn]
        · have hn2 : ¬ tag2.Values.getD [] = [] := fun h0 => hn (hnil.mpr h0)
          simp [hn, hn2, hc]
  · intro client1 client2 d past id alert entries1 entries2 hid h1 h2 h hd
    rw [resourceLibratoAlertRead_ok client1 d past id _ hid h1,
      resourceLibratoAlertRead_ok client2 d past id _ hid h2,
      flattenAlert_services_congr d alert entries1 entries2 h hd]
  · intro client d past id alert entries renderings hid hget hs hf hd hok
    rw [resourceLibratoAlertRead_ok client d past id alert hid hget] at hok ⊢
    simp only at hok ⊢
    rw [flattenAlert_status] at hok
    have hrun : (flattenAlert {} alert).1 ≠ .fault := by
      rw [hok]
      decide
    have hmem : ∀ v, v ∈ NewSet renderings ↔ v ∈ renderings :=
      mem_NewSet_of_distinct renderings hd
    have hlist : ∀ v, v ∈ (NewSet renderings).List ↔ v ∈ renderings := fun v => by
      rw [SchemaSet.mem_List, ← SchemaSet.mem_iff, hmem]
    refine ⟨NewSet renderings, ?_, hmem, hlist, fun v hv =>
      List.count_eq_one_of_mem (SchemaSet.nodup_List _) ((hlist v).mpr hv)⟩
    rw [flattenAlert_written]
    exact lookup_append_of_some _ _ _ _ (flattenAlert_services alert entries _ hs hf hrun)

/-- Witness of C13, amended: the values `b, a, b` give the set that holds `a`
and `b`, each once, the same as the values `a, b`; and the services `7, 9` are
read as the services `9, 7, 7`. -/
theorem flatten_sets_ignore_order_and_duplicates_witness :
    (∃ m s, flattenTagsReferance
        { Name := some "env", Values := some [some "b", some "a", some "b"] } = some m ∧
      m.values = some s ∧ (∀ v, v ∈ s ↔ v ∈ ["b", "a", "b"]) ∧
      (∀ v, v ∈ s.List ↔ v ∈ ["b", "a", "b"]) ∧ ∀ v ∈ ["b", "a", "b"], s.List.count v = 1) ∧
    (flattenTagsReferance { Name := some "env", Values := some [some "a", some "b"] }).map
        (fun m => m.values) =
      (flattenTagsReferance
        { Name := some "env", Values := some [some "b", some "a", some "b"] }).map
        (fun m => m.values) ∧
    resourceLibratoAlertRead
        (sampleClient (.ok twoServicesRemoteAlert) (.error (.other "unused"))) sampleAlertData [] =
      resourceLibratoAlertRead
        (sampleClient (.ok repeatedServicesRemoteAlert) (.error (.other "unused")))
        sampleAlertData [] ∧
    ∃ s, (resourceLibratoAlertRead
        (sampleClient (.ok repeatedServicesRemoteAlert) (.error (.other "unused")))
        sampleAlertData []).data.written.lookup "services" = some (.set s) ∧
      (∀ v, v ∈ s ↔ v ∈ ["9", "7", "7"]) ∧ (∀ v, v ∈ s.List ↔ v ∈ ["9", "7", "7"]) ∧
      ∀ v ∈ ["9", "7", "7"], s.List.count v = 1 := by
  have hab : HashString "a" ≠ HashString "b" := by decide
  have h79 : HashString "7" ≠ HashString "9" := by decide
  have h7 : flattenService (.object (.number (.finite false 7 0))) = some "7" := by decide
  have h9 : flattenService (.object (.number (.finite false 9 0))) = some "9" := by decide
  refine ⟨flatten_sets_ignore_order_and_duplicates.1 _ ["b", "a", "b"] rfl (by decide) ?_,
    flatten_sets_ignore_order_and_duplicates.2.1 _ _ ?_ ?_,
    flatten_sets_ignore_order_and_duplicates.2.2.1
      (sampleClient (.ok twoServicesRemoteAlert) (.error (.other "unused")))
      (sampleClient (.ok repeatedServicesRemoteAlert) (.error (.other "unused")))
      sampleAlertData [] 42 minimalRemoteAlert
      [.object (.number (.finite false 7 0)), .object (.number (.finite false 9 0))]
      [.object (.number (.finite false 9 0)), .object (.number (.finite false 7 0)),
        .object (.number (.finite false 7 0))]
      (by decide) rfl rfl ?_ ?_,
    flatten_sets_ignore_order_and_duplicates.2.2.2
      (sampleClient (.ok repeatedServicesRemoteAlert) (.error (.other "unused")))
      sampleAlertData [] 42 repeatedServicesRemoteAlert
      [.object (.number (.finite false 9 0)), .object (.number (.finite false 7 0)),
        .object (.number (.finite false 7 0))] ["9", "7", "7"]
      (by decide) rfl rfl (by decide) ?_ (by decide)⟩
  · intro a ha b hb h
    simp only [List.mem_cons, List.mem_singleton, List.not_mem_nil, or_false] at ha hb
    rcases ha with rfl | rfl | rfl <;> rcases hb with rfl | rfl | rfl <;>
      first | rfl | exact absurd h hab | exact absurd h.symm hab
  · intro v
    simp only [Option.getD_some, List.mem_cons, List.mem_singleton, List.not_mem_nil]
    tauto
  · intro a b ha hb h
    simp only [Option.getD_some, List.mem_cons, List.mem_singleton, List.not_mem_nil,
      Option.some.injEq, or_false] at ha hb
    rcases ha with rfl | rfl <;> rcases hb with rfl | rfl <;>
      first | rfl | exact absurd h hab | exact absurd h.symm hab
  · intro e
    simp only [List.mem_cons, List.mem_singleton, List.not_mem_nil]
    tauto
  · intro e1 he1 e2 he2 a b ha hb h
    simp only [List.mem_cons, List.mem_singleton, List.not_mem_nil, or_false] at he1 he2
    rcases he1 with rfl | rfl <;> rcases he2 with rfl | rfl
    · rw [h7] at ha hb
      rw [← Option.some.inj ha, ← Option.some.inj hb]
    · rw [h7] at ha
      rw [h9] at hb
      rw [← Option.some.inj ha, ← Option.some.inj hb] at h
      exact absurd h h79
    · rw [h9] at ha
      rw [h7] at hb
      rw [← Option.some.inj ha, ← Option.some.inj hb] at h
      exact absurd h.symm h79
    · rw [h9] at ha hb
      rw [← Option.some.inj ha, ← Option.some.inj hb]
  · intro a ha b hb h
    simp only [List.mem_cons, List.mem_singleton, List.not_mem_nil, or_false] at ha hb
    rcases ha with rfl | rfl | rfl <;> rcases hb with rfl | rfl | rfl <;>
      first | rfl | exact absurd h h79 | exact absurd h.symm h79

/-- C14, the code at the failing inputs: Read panics on a remote alert whose
`Name` is null, whose `Services` is null, whose `Services` list holds a value
that is not an object, or one of whose tag `Values` entries is null. -/
theorem read_faults_on_malformed_alert :
    (resourceLibratoAlertRead (sampleClient (.ok namelessRemoteAlert) (.error (.other "unused")))
      sampleAlertData []).status = .fault ∧
    (resourceLibratoAlertRead
      (sampleClient (.ok nullServicesRemoteAlert) (.error (.other "unused")))
      sampleAlertData []).status = .fault ∧
    (resourceLibratoAlertRead
      (sampleClient (.ok malformedServicesRemoteAlert) (.error (.other "unused")))
      sampleAlertData []).status = .fault ∧
    (resourceLibratoAlertRead
      (sampleClient (.ok nullTagValueRemoteAlert) (.error (.other "unused")))
      sampleAlertData []).status = .fault := by
  decide

theorem append_replicate_succ (history : List Call) (c : Call) (i : Nat) :
    history ++ List.replicate (i + 1) c = (history ++ [c]) ++ List.replicate i c := by
  simp [List.replicate_succ]

theorem Retry_ok_after_retryable (f : List Call → Option RetryError × List Call) (c : Call) :
    ∀ (k polls : Nat) (history : List Call), k ≤ polls →
      (∀ i, i < k → ∃ e, f (history ++ List.replicate i c) = (some (.RetryableError e), [c])) →
      f (history ++ List.replicate k c) = (none, [c]) →
      Retry f polls history = (none, List.replicate (k + 1) c) := by
  intro k
  induction k with
  | zero =>
    intro polls history _ _ hk
    simp only [List.replicate_zero, List.append_nil] at hk
    unfold Retry
    simp [hk]
  | succ k ih =>
    intro polls history hle hretry hk
    obtain ⟨e, he⟩ := hretry 0 (Nat.succ_pos k)
    simp only [List.replicate_zero, List.append_nil] at he
    cases polls with
    | zero => omega
    | succ polls =>
      have hrec := ih polls (history ++ [c]) (by omega)
        (fun i hi => by
          obtain ⟨e1, h1⟩ := hretry (i + 1) (by omega)
          exact ⟨e1, by rw [← append_replicate_succ]; exact h1⟩)
        (by rw [← append_replicate_succ]; exact hk)
      unfold Retry
      simp only [he, hrec]
      simp [List.replicate_succ]

theorem Retry_abort_after_retryable (f : List Call → Option RetryError × List Call) (c : Call)
    (err : String) :
    ∀ (k polls : Nat) (history : List Call), k ≤ polls →
      (∀ i, i < k → ∃ e, f (history ++ List.replicate i c) = (some (.RetryableError e), [c])) →
      f (history ++ List.replicate k c) = (some (.NonRetryableError err), [c]) →
      Retry f polls history = (some err, List.replicate (k + 1) c) := by
  intro k
  induction k with
  | zero =>
    intro polls history _ _ hk
    simp only [List.replicate_zero, List.append_nil] at hk
    unfold Retry
    simp [hk]
  | succ k ih =>
    intro polls history hle hretry hk
    obtain ⟨e, he⟩ := hretry 0 (Nat.succ_pos k)
    simp only [List.replicate_zero, List.append_nil] at he
    cases polls with
    | zero => omega
    | succ polls =>
      have hrec := ih polls (history ++ [c]) (by omega)
        (fun i hi => by
          obtain ⟨e1, h1⟩ := hretry (i + 1) (by omega)
          exact ⟨e1, by rw [← append_replicate_succ]; exact h1⟩)
        (by rw [← append_replicate_succ]; exact hk)
      unfold Retry
      simp only [he, hrec]
      simp [List.replicate_succ]


theorem waitLoop_success (conf : StateChangeConf) (c : Call) (htarget : "true" ∈ conf.Target) :
    ∀ (n polls occ : Nat) (history : List Call),
      occ + n + 1 = max conf.ContinuousTargetOccurence 1 → n ≤ polls →
      (∀ i, i ≤ n → conf.Refresh (history ++ List.replicate i c) =
        ({ state := "true", err := none }, [c])) →
      conf.waitLoop polls occ history = (none, List.replicate (n + 1) c) := by
  intro n
  induction n with
  | zero =>
    intro polls occ history hocc _ h
    have h0 := h 0 (Nat.le_refl 0)
    simp only [List.replicate_zero, List.append_nil] at h0
    unfold StateChangeConf.waitLoop
    simp [h0, htarget, hocc]
  | succ n ih =>
    intro polls occ history hocc hle h
    have h0 := h 0 (Nat.zero_le _)
    simp only [List.replicate_zero, List.append_nil] at h0
    cases polls with
    | zero => omega
    | succ polls =>
      have hrec := ih polls (occ + 1) (history ++ [c]) (by omega) (by omega)
        (fun i hi => by rw [← append_replicate_succ]; exact h (i + 1) (by omega))
      have hne : ¬ occ + 1 = max conf.ContinuousTargetOccurence 1 := by omega
      unfold StateChangeConf.waitLoop
      simp only [h0, htarget, hne, and_false, if_false, true_or, if_true, hrec]
      simp [List.replicate_succ]

theorem waitLoop_abort (conf : StateChangeConf) (c : Call) (htarget : "true" ∈ conf.Target)
    (state err : String) :
    ∀ (j polls occ : Nat) (history : List Call),
      occ + j < max conf.ContinuousTargetOccurence 1 → j ≤ polls →
      (∀ i, i < j → conf.Refresh (history ++ List.replicate i c) =
        ({ state := "true", err := none }, [c])) →
      conf.Refresh (history ++ List.replicate j c) = ({ state := state, err := some err }, [c]) →
      conf.waitLoop polls occ history = (some err, List.replicate (j + 1) c) := by
  intro j
  induction j with
  | zero =>
    intro polls occ history _ _ _ h
    simp only [List.replicate_zero, List.append_nil] at h
    unfold StateChangeConf.waitLoop
    simp [h]
  | succ j ih =>
    intro polls occ history hocc hle hok h
    have h0 := hok 0 (Nat.succ_pos j)
    simp only [List.replicate_zero, List.append_nil] at h0
    cases polls with
    | zero => omega
    | succ polls =>
      have hrec := ih polls (occ + 1) (history ++ [c]) (by omega) (by omega)
        (fun i hi => by rw [← append_replicate_succ]; exact hok (i + 1) (by omega))
        (by rw [← append_replicate_succ]; exact h)
      have hne : ¬ occ + 1 = max conf.ContinuousTargetOccurence 1 := by omega
      unfold StateChangeConf.waitLoop
      simp only [h0, htarget, hne, and_false, if_false, true_or, if_true, hrec]
      simp [List.replicate_succ]

/-- A wait whose probe either observes the target state `true` or fails ends
with success only after the full count of consecutive target observations, and
otherwise with an error after at most that many polls. -/
theorem waitLoop_cases (conf : StateChangeConf) (c : Call) (htarget : "true" ∈ conf.Target)
    (hshape : ∀ history, conf.Refresh history = ({ state := "true", err := none }, [c]) ∨
      ∃ state err, conf.Refresh history = ({ state := state, err := some err }, [c])) :
    ∀ (polls occ : Nat) (history : List Call), occ < max conf.ContinuousTargetOccurence 1 →
      (conf.waitLoop polls occ history =
          (none, List.replicate (max conf.ContinuousTargetOccurence 1 - occ) c) ∧
        ∀ i, i < max conf.ContinuousTargetOccurence 1 - occ →
          conf.Refresh (history ++ List.replicate i c) =
            ({ state := "true", err := none }, [c])) ∨
      ∃ err k, 1 ≤ k ∧ k ≤ max conf.ContinuousTargetOccurence 1 - occ ∧
        conf.waitLoop polls occ history = (some err, List.replicate k c) := by
  intro polls
  induction polls with
  | zero =>
    intro occ history hocc
    rcases hshape history with h0 | ⟨state, err, h0⟩
    · by_cases hlast : occ + 1 = max conf.ContinuousTargetOccurence 1
      · left
        have hone : max conf.ContinuousTargetOccurence 1 - occ = 1 := by omega
        rw [hone]
        refine ⟨?_, ?_⟩
        · unfold StateChangeConf.waitLoop
          simp [h0, htarget, hlast]
        · intro i hi
          have : i = 0 := by omega
          subst this
          simpa using h0
      · right
        refine ⟨conf.timeoutError, 1, Nat.le_refl 1, by omega, ?_⟩
        unfold StateChangeConf.waitLoop
        simp [h0, htarget, hlast]
    · right
      refine ⟨err, 1, Nat.le_refl 1, by omega, ?_⟩
      unfold StateChangeConf.waitLoop
      simp [h0]
  | succ polls ih =>
    intro occ history hocc
    rcases hshape history with h0 | ⟨state, err, h0⟩
    · by_cases hlast : occ + 1 = max conf.ContinuousTargetOccurence 1
      · left
        have hone : max conf.ContinuousTargetOccurence 1 - occ = 1 := by omega
        rw [hone]
        refine ⟨?_, ?_⟩
        · unfold StateChangeConf.waitLoop
          simp [h0, htarget, hlast]
        · intro i hi
          have : i = 0 := by omega
          subst this
          simpa using h0
      · have hstep : conf.waitLoop (polls + 1) occ history =
            ((conf.waitLoop polls (occ + 1) (history ++ [c])).1,
              c :: (conf.waitLoop polls (occ + 1) (history ++ [c])).2) := by
          conv_lhs => unfold StateChangeConf.waitLoop
          simp [h0, htarget, hlast]
        have hsub : max conf.ContinuousTargetOccurence 1 - occ =
            (max conf.ContinuousTargetOccurence 1 - (occ + 1)) + 1 := by omega
        rcases ih (occ + 1) (history ++ [c]) (by omega) with ⟨hres, hall⟩ | ⟨err, k, hk1, hk2, hres⟩
        · left
          refine ⟨?_, ?_⟩
          · rw [hstep, hres, hsub]
            simp [List.replicate_succ]
          · intro i hi
            cases i with
            | zero => simpa using h0
            | succ i =>
              rw [append_replicate_succ]
              exact hall i (by omega)
        · right
          refine ⟨err, k + 1, by omega, by omega, ?_⟩
          rw [hstep, hres]
          simp [List.replicate_succ]
    · right
      refine ⟨err, 1, Nat.le_refl 1, by omega, ?_⟩
      unfold StateChangeConf.waitLoop
      simp [h0]


/-! ## Delete, the waits and the identifier (C15-C19) -/

/-- Counterexample of C15: when `Client.Delete` reports 404, Alert Delete and
Metric Delete return an error. -/
theorem delete_not_found_counterexample :
    (resourceLibratoAlertDelete (deleteFailsClient (.response 404 "not found")) 10
      sampleAlertData []).status = .error "Error deleting Alert: not found" ∧
    (resourceLibratoMetricDelete (deleteFailsClient (.response 404 "not found")) 10
      sampleMetricData []).status = .error "Error deleting Metric: not found" := by
  decide

/-- C15, amended: an error of `Client.Delete`, not-found (HTTP 404) included,
makes Alert Delete and Metric Delete return an error that carries it, with no
further call; Delete returns success when `Client.Delete` succeeds and the
polling `Get` that follows reports not-found. -/
theorem delete_results :
    (∀ (client : Client) (polls : Nat) (d : AlertData) (past : List Call) (id : Nat)
        (err : ClientError),
      ParseUint d.Id = some id → client.AlertsDelete past id = some err →
        (resourceLibratoAlertDelete client polls d past).status =
          .error ("Error deleting Alert: " ++ err.Error) ∧
        (resourceLibratoAlertDelete client polls d past).calls = [.alertsDelete id] ∧
        (resourceLibratoAlertDelete client polls d past).data = d) ∧
    (∀ (client : Client) (polls : Nat) (d : MetricData) (past : List Call) (err : ClientError),
      client.MetricsDelete past d.Id = some err →
        (resourceLibratoMetricDelete client polls d past).status =
          .error ("Error deleting Metric: " ++ err.Error) ∧
        (resourceLibratoMetricDelete client polls d past).calls = [.metricsDelete d.Id] ∧
        (resourceLibratoMetricDelete client polls d past).data = d) ∧
    (∀ (client : Client) (polls : Nat) (d : AlertData) (past : List Call) (id : Nat)
        (message : String),
      ParseUint d.Id = some id → client.AlertsDelete past id = none →
      client.AlertsGet (past ++ [.alertsDelete id]) id = .error (.response 404 message) →
        (resourceLibratoAlertDelete client polls d past).status = .ok ∧
        (resourceLibratoAlertDelete client polls d past).calls =
          [.alertsDelete id, .alertsGet id]) ∧
    (∀ (client : Client) (polls : Nat) (d : MetricData) (past : List Call) (message : String),
      client.MetricsDelete past d.Id = none →
      client.MetricsGet (past ++ [.metricsDelete d.Id]) d.Id = .error (.response 404 message) →
        (resourceLibratoMetricDelete client polls d past).status = .ok ∧
        (resourceLibratoMetricDelete client polls d past).calls =
          [.metricsDelete d.Id, .metricsGet d.Id]) := by
  refine ⟨?_, ?_, ?_, ?_⟩
  · intro client polls d past id err hid hdel
    simp [resourceLibratoAlertDelete, hid, hdel]
  · intro client polls d past err hdel
    simp [resourceLibratoMetricDelete, hdel]
  · intro client polls d past id message hid hdel hget
    have hretry : Retry (alertDeletedProbe client id) polls (past ++ [.alertsDelete id]) =
        (none, [.alertsGet id]) := by
      unfold Retry
      simp [alertDeletedProbe, hget, ClientError.isNotFound]
    simp [resourceLibratoAlertDelete, hid, hdel, hretry]
  · intro client polls d past message hdel hget
    have hretry : Retry (metricDeletedProbe client d.Id) polls (past ++ [.metricsDelete d.Id]) =
        (none, [.metricsGet d.Id]) := by
      unfold Retry
      simp [metricDeletedProbe, hget, ClientError.isNotFound]
    simp [resourceLibratoMetricDelete, hdel, hretry]

/-- Witness of C15, amended: `Delete` failing with 404, and `Delete` succeeding
with a first polling `Get` answered with 404. -/
theorem delete_results_witness :
    ((resourceLibratoAlertDelete (deleteFailsClient (.response 404 "not found")) 10
        sampleAlertData []).status = .error ("Error deleting Alert: " ++ "not found") ∧
      (resourceLibratoAlertDelete (deleteFailsClient (.response 404 "not found")) 10
        sampleAlertData []).calls = [.alertsDelete 42] ∧
      (resourceLibratoAlertDelete (deleteFailsClient (.response 404 "not found")) 10
        sampleAlertData []).data = sampleAlertData) ∧
    ((resourceLibratoMetricDelete (deleteFailsClient (.response 404 "not found")) 10
        sampleMetricData []).status = .error ("Error deleting Metric: " ++ "not found") ∧
      (resourceLibratoMetricDelete (deleteFailsClient (.response 404 "not found")) 10
        sampleMetricData []).calls = [.metricsDelete "cpu"] ∧
      (resourceLibratoMetricDelete (deleteFailsClient (.response 404 "not found")) 10
        sampleMetricData []).data = sampleMetricData) ∧
    ((resourceLibratoAlertDelete (scriptedClient notFoundThenAlert notFoundThenMetric) 10
        sampleAlertData []).status = .ok ∧
      (resourceLibratoAlertDelete (scriptedClient notFoundThenAlert notFoundThenMetric) 10
        sampleAlertData []).calls = [.alertsDelete 42, .alertsGet 42]) ∧
    ((resourceLibratoMetricDelete (scriptedClient notFoundThenAlert notFoundThenMetric) 10
        sampleMetricData []).status = .ok ∧
      (resourceLibratoMetricDelete (scriptedClient notFoundThenAlert notFoundThenMetric) 10
        sampleMetricData []).calls = [.metricsDelete "cpu", .metricsGet "cpu"]) :=
  ⟨delete_results.1 (deleteFailsClient (.response 404 "not found")) 10 sampleAlertData [] 42
      (.response 404 "not found") (by decide) rfl,
    delete_results.2.1 (deleteFailsClient (.response 404 "not found")) 10 sampleMetricData []
      (.response 404 "not found") rfl,
    delete_results.2.2.1 (scriptedClient notFoundThenAlert notFoundThenMetric) 10 sampleAlertData
      [] 42 "not found" (by decide) rfl rfl,
    delete_results.2.2.2 (scriptedClient notFoundThenAlert notFoundThenMetric) 10
      sampleMetricData [] "not found" rfl rfl⟩

/-- C17, the code at the failing input: a polling `Get` of Alert Create or of
Alert Delete that fails with the HTTP status 500 and the message `boom` stops
the wait at once, but the error returned is built from a nil error and does
not carry `boom`; the Metric siblings return the error of the wait. -/
theorem alert_wait_error_is_lost :
    (resourceLibratoAlertCreate (scriptedClient alwaysBoom alwaysBoom) 10 minimalAlertData
      []).status = .error "Error creating librato alert: %!s(<nil>)" ∧
    (resourceLibratoAlertCreate (scriptedClient alwaysBoom alwaysBoom) 10 minimalAlertData
      []).calls = [.alertsCreate (alertCreatePayload minimalAlertData), .alertsGet 42] ∧
    (resourceLibratoAlertDelete (scriptedClient alwaysBoom alwaysBoom) 10 sampleAlertData
      []).status = .error "Error deleting librato alert: %!s(<nil>)" ∧
    (resourceLibratoAlertDelete (scriptedClient alwaysBoom alwaysBoom) 10 sampleAlertData
      []).calls = [.alertsDelete 42, .alertsGet 42] ∧
    (resourceLibratoMetricCreate (fun _ => "") (scriptedClient alwaysBoom alwaysBoom) 10
      newMetricData []).status = .error "Error creating Librato metric: boom" ∧
    (resourceLibratoMetricDelete (scriptedClient alwaysBoom alwaysBoom) 10 sampleMetricData
      []).status = .error "Error deleting librato metric: boom" := by
  decide


theorem foldlM_digit_none (cs : List Char) (h : ∃ c ∈ cs, c.isDigit = false) :
    ∀ n : Nat, cs.foldlM
      (fun n c => if c.isDigit then some (n * 10 + (c.toNat - 48)) else none) n = none := by
  induction cs with
  | nil => simp at h
  | cons a cs ih =>
    intro n
    by_cases ha : a.isDigit = true
    · have hrest : ∃ c ∈ cs, c.isDigit = false := by
        obtain ⟨c, hc, hd⟩ := h
        rcases List.mem_cons.mp hc with rfl | hc
        · rw [ha] at hd
          exact absurd hd (by decide)
        · exact ⟨c, hc, hd⟩
      simp [List.foldlM, ha, ih hrest]
    · simp [List.foldlM, ha]

theorem foldlM_digit_some (cs : List Char) (h : ∀ c ∈ cs, c.isDigit = true) :
    ∀ n : Nat, cs.foldlM
      (fun n c => if c.isDigit then some (n * 10 + (c.toNat - 48)) else none) n =
      some (cs.foldl (fun n c => n * 10 + (c.toNat - 48)) n) := by
  induction cs with
  | nil => intro n; rfl
  | cons a cs ih =>
    intro n
    have ha : a.isDigit = true := h a (List.mem_cons_self a cs)
    have hrest : ∀ c ∈ cs, c.isDigit = true := fun c hc => h c (List.mem_cons_of_mem a hc)
    simp [List.foldlM, ha, ih hrest]

/-- `strconv.ParseUint` fails on the empty string, on a string that holds a
character other than a decimal digit, and on a number that does not fit `uint`. -/
theorem ParseUint_eq_none (s : String)
    (h : s.toList = [] ∨ (∃ c ∈ s.toList, c.isDigit = false) ∨
      2 ^ 64 ≤ s.toList.foldl (fun n c => n * 10 + (c.toNat - 48)) 0) :
    ParseUint s = none := by
  unfold ParseUint parseDigits
  cases hl : s.toList with
  | nil => simp
  | cons a cs =>
    rw [hl] at h
    simp only
    by_cases hall : ∀ c ∈ a :: cs, c.isDigit = true
    · rw [foldlM_digit_some (a :: cs) hall 0]
      rcases h with h | ⟨c, hc, hd⟩ | h
      · simp at h
      · rw [hall c hc] at hd
        exact absurd hd (by decide)
      · have : ¬ (List.foldl (fun n c => n * 10 + (c.toNat - 48)) 0 (a :: cs) < 2 ^ intSize) := by
          simp only [intSize]
          omega
        simp only [this, if_false]
    · have hex : ∃ c ∈ a :: cs, c.isDigit = false := by
        by_contra hno
        apply hall
        intro c hc
        by_contra hd
        exact hno ⟨c, hc, by simpa using hd⟩
      rw [foldlM_digit_none (a :: cs) hex 0]

/-- C19: when the stored identifier is empty, holds a character other than a
decimal digit, or denotes a number that does not fit `uint`, Alert Read, Alert
Update and Alert Delete return an error without any call to the client and
leave the bag, identifier included, as it was. -/
theorem unparsable_id_returns_error (client : Client) (polls : Nat) (d : AlertData)
    (past : List Call)
    (hbad : d.Id.toList = [] ∨ (∃ c ∈ d.Id.toList, c.isDigit = false) ∨
      2 ^ 64 ≤ d.Id.toList.foldl (fun n c => n * 10 + (c.toNat - 48)) 0) :
    ((∃ e, (resourceLibratoAlertRead client d past).status = .error e) ∧
      (resourceLibratoAlertRead client d past).calls = [] ∧
      (resourceLibratoAlertRead client d past).data = d) ∧
    ((∃ e, (resourceLibratoAlertUpdate client polls d past).status = .error e) ∧
      (resourceLibratoAlertUpdate client polls d past).calls = [] ∧
      (resourceLibratoAlertUpdate client polls d past).data = d) ∧
    ((∃ e, (resourceLibratoAlertDelete client polls d past).status = .error e) ∧
      (resourceLibratoAlertDelete client polls d past).calls = [] ∧
      (resourceLibratoAlertDelete client polls d past).data = d) := by
  have hid := ParseUint_eq_none d.Id hbad
  refine ⟨?_, ?_, ?_⟩
  · simp [resourceLibratoAlertRead, hid]
  · simp [resourceLibratoAlertUpdate, hid]
  · simp [resourceLibratoAlertDelete, hid]

/-- Witness of C19: the stored identifier `abc`. -/
theorem unparsable_id_returns_error_witness :
    ((∃ e, (resourceLibratoAlertRead (sampleClient (.ok minimalRemoteAlert)
        (.error (.other "unused"))) unparsableIdData []).status = .error e) ∧
      (resourceLibratoAlertRead (sampleClient (.ok minimalRemoteAlert)
        (.error (.other "unused"))) unparsableIdData []).calls = [] ∧
      (resourceLibratoAlertRead (sampleClient (.ok minimalRemoteAlert)
        (.error (.other "unused"))) unparsableIdData []).data = unparsableIdData) ∧
    ((∃ e, (resourceLibratoAlertUpdate (sampleClient (.ok minimalRemoteAlert)
        (.error (.other "unused"))) 10 unparsableIdData []).status = .error e) ∧
      (resourceLibratoAlertUpdate (sampleClient (.ok minimalRemoteAlert)
        (.error (.other "unused"))) 10 unparsableIdData []).calls = [] ∧
      (resourceLibratoAlertUpdate (sampleClient (.ok minimalRemoteAlert)
        (.error (.other "unused"))) 10 unparsableIdData []).data = unparsableIdData) ∧
    ((∃ e, (resourceLibratoAlertDelete (sampleClient (.ok minimalRemoteAlert)
        (.error (.other "unused"))) 10 unparsableIdData []).status = .error e) ∧
      (resourceLibratoAlertDelete (sampleClient (.ok minimalRemoteAlert)
        (.error (.other "unused"))) 10 unparsableIdData []).calls = [] ∧
      (resourceLibratoAlertDelete (sampleClient (.ok minimalRemoteAlert)
        (.error (.other "unused"))) 10 unparsableIdData []).data = unparsableIdData) :=
  unparsable_id_returns_error (sampleClient (.ok minimalRemoteAlert) (.error (.other "unused")))
    10 unparsableIdData [] (Or.inr (Or.inl ⟨'a', by decide, by decide⟩))

/-! ## The provider (C20) -/

/-- C20: `providerConfigure` builds the client from the values of the bag. For a
non-empty `url` that parses it returns `librato.NewClientWithBaseURL` of the
parsed URL, the configured email and the configured token; for an empty `url` it
returns `librato.NewClient` of the configured email and token; for a `url` that
does not parse it returns an error and no client. With constructors that
behave as `provider_test.go` asserts (the first keeps its three arguments, the
second keeps its two and is on the default base URL), the client has the
configured url, respectively the default base URL, as base URL and the
configured email and token. -/
theorem providerConfigure_client {URL C : Type} (Parse : String → Except String URL)
    (NewClientWithBaseURL : URL → String → String → C) (NewClient : String → String → C)
    (d : ProviderData) :
    (∀ u, d.url ≠ "" → Parse d.url = .ok u →
      providerConfigure Parse NewClientWithBaseURL NewClient d =
        .ok (NewClientWithBaseURL u d.email d.token)) ∧
    (d.url = "" →
      providerConfigure Parse NewClientWithBaseURL NewClient d =
        .ok (NewClient d.email d.token)) ∧
    (∀ err, d.url ≠ "" → Parse d.url = .error err →
      providerConfigure Parse NewClientWithBaseURL NewClient d =
        .error ("Unable to parse librato URL: " ++ err)) ∧
    (∀ (BaseURL : C → URL) (Email Token : C → String) (defaultBaseURL : URL),
      (∀ u email token, BaseURL (NewClientWithBaseURL u email token) = u ∧
        Email (NewClientWithBaseURL u email token) = email ∧
        Token (NewClientWithBaseURL u email token) = token) →
      (∀ email token, BaseURL (NewClient email token) = defaultBaseURL ∧
        Email (NewClient email token) = email ∧ Token (NewClient email token) = token) →
      (∀ u, d.url ≠ "" → Parse d.url = .ok u →
        ∃ c, providerConfigure Parse NewClientWithBaseURL NewClient d = .ok c ∧
          BaseURL c = u ∧ Email c = d.email ∧ Token c = d.token) ∧
      (d.url = "" →
        ∃ c, providerConfigure Parse NewClientWithBaseURL NewClient d = .ok c ∧
          BaseURL c = defaultBaseURL ∧ Email c = d.email ∧ Token c = d.token)) := by
  have h1 : ∀ u, d.url ≠ "" → Parse d.url = .ok u →
      providerConfigure Parse NewClientWithBaseURL NewClient d =
        .ok (NewClientWithBaseURL u d.email d.token) := by
    intro u hne hparse
    simp [providerConfigure, hne, hparse]
  have h2 : d.url = "" →
      providerConfigure Parse NewClientWithBaseURL NewClient d =
        .ok (NewClient d.email d.token) := by
    intro he
    simp [providerConfigure, he]
  refine ⟨h1, h2, ?_, ?_⟩
  · intro err hne hparse
    simp [providerConfigure, hne, hparse]
  · intro BaseURL Email Token defaultBaseURL hwith hnew
    constructor
    · intro u hne hparse
      exact ⟨_, h1 u hne hparse, hwith u d.email d.token⟩
    · intro he
      exact ⟨_, h2 he, hnew d.email d.token⟩

/-- Witness of C20, with a parser that rejects `::` and returns every other
string as its own URL, and constructors that keep their arguments. -/
theorem providerConfigure_client_witness :
    providerConfigure sampleParse sampleNewClientWithBaseURL sampleNewClient
        { url := "https://some-url.com/v1/", email := "foo@example.com", token := "the-token" } =
      .ok (sampleNewClientWithBaseURL "https://some-url.com/v1/" "foo@example.com"
        "the-token") ∧
    providerConfigure sampleParse sampleNewClientWithBaseURL sampleNewClient
        { url := "", email := "foo@example.com", token := "the-token" } =
      .ok (sampleNewClient "foo@example.com" "the-token") ∧
    providerConfigure sampleParse sampleNewClientWithBaseURL sampleNewClient
        { url := "::", email := "foo@example.com", token := "the-token" } =
      .error ("Unable to parse librato URL: " ++ "missing protocol scheme") ∧
    (∃ c, providerConfigure sampleParse sampleNewClientWithBaseURL sampleNewClient
        { url := "https://some-url.com/v1/", email := "foo@example.com",
          token := "the-token" } = .ok c ∧
      c.BaseURL = "https://some-url.com/v1/" ∧ c.Email = "foo@example.com" ∧
      c.Token = "the-token") ∧
    (∃ c, providerConfigure sampleParse sampleNewClientWithBaseURL sampleNewClient
        { url := "", email := "foo@example.com", token := "the-token" } = .ok c ∧
      c.BaseURL = "https://metrics-api.librato.com/v1/" ∧ c.Email = "foo@example.com" ∧
      c.Token = "the-token") :=
  ⟨(providerConfigure_client sampleParse sampleNewClientWithBaseURL sampleNewClient _).1
      "https://some-url.com/v1/" (by decide) (by simp [sampleParse]),
    (providerConfigure_client sampleParse sampleNewClientWithBaseURL sampleNewClient _).2.1 rfl,
    (providerConfigure_client sampleParse sampleNewClientWithBaseURL sampleNewClient _).2.2.1
      "missing protocol scheme" (by decide) (by simp [sampleParse]),
    ((providerConfigure_client sampleParse sampleNewClientWithBaseURL sampleNewClient _).2.2.2
      ClientConfig.BaseURL ClientConfig.Email ClientConfig.Token
      "https://metrics-api.librato.com/v1/" (fun _ _ _ => ⟨rfl, rfl, rfl⟩)
      (fun _ _ => ⟨rfl, rfl, rfl⟩)).1 "https://some-url.com/v1/" (by decide)
      (by simp [sampleParse]),
    ((providerConfigure_client sampleParse sampleNewClientWithBaseURL sampleNewClient _).2.2.2
      ClientConfig.BaseURL ClientConfig.Email ClientConfig.Token
      "https://metrics-api.librato.com/v1/" (fun _ _ _ => ⟨rfl, rfl, rfl⟩)
      (fun _ _ => ⟨rfl, rfl, rfl⟩)).2 rfl⟩

/-! ## The waits after Create and after Update (C16, C18) -/

theorem alertUpdateRefresh_shape (client : Client) (id : Nat) (history : List Call) :
    (alertUpdateWait client id).Refresh history =
        ({ state := "true", err := none }, [.alertsGet id]) ∨
      ∃ state err, (alertUpdateWait client id).Refresh history =
        ({ state := state, err := some err }, [.alertsGet id]) := by
  simp only [alertUpdateWait, alertUpdateRefresh]
  cases client.AlertsGet history id with
  | error e => exact Or.inr ⟨"", e.Error, rfl⟩
  | ok a => exact Or.inl rfl

theorem alertUpdateRefresh_ok_iff (client : Client) (id : Nat) (history : List Call) :
    (alertUpdateWait client id).Refresh history =
        ({ state := "true", err := none }, [.alertsGet id]) ↔
      ∃ a, client.AlertsGet history id = .ok a := by
  simp only [alertUpdateWait, alertUpdateRefresh]
  cases client.AlertsGet history id with
  | error e => simp
  | ok a => simp

theorem metricUpdateRefresh_shape (client : Client) (id : String) (history : List Call) :
    (metricUpdateWait client id).Refresh history =
        ({ state := "true", err := none }, [.metricsGet id]) ∨
      ∃ state err, (metricUpdateWait client id).Refresh history =
        ({ state := state, err := some err }, [.metricsGet id]) := by
  simp only [metricUpdateWait, metricUpdateRefresh]
  cases client.MetricsGet history id with
  | error e => exact Or.inr ⟨"", e.Error, rfl⟩
  | ok a => exact Or.inl rfl

theorem metricUpdateRefresh_ok_iff (client : Client) (id : String) (history : List Call) :
    (metricUpdateWait client id).Refresh history =
        ({ state := "true", err := none }, [.metricsGet id]) ↔
      ∃ a, client.MetricsGet history id = .ok a := by
  simp only [metricUpdateWait, metricUpdateRefresh]
  cases client.MetricsGet history id with
  | error e => simp
  | ok a => simp

/-- Counterexample of C16: in the wait after Update a first polling `Get`
answered with 404 makes Update return an error that carries it, although every
later `Get` would have succeeded. -/
theorem update_wait_not_found_counterexample :
    notFoundThenAlert 0 = .error (.response 404 "not found") ∧
    (∀ n, notFoundThenAlert (n + 1) = .ok minimalRemoteAlert) ∧
    (resourceLibratoAlertUpdate (scriptedClient notFoundThenAlert notFoundThenMetric) 10
      servicesChangedData []).status =
        .error "Failed updating Librato Alert 42: not found" ∧
    (resourceLibratoMetricUpdate (fun _ => "")
      (scriptedClient notFoundThenAlert notFoundThenMetric) 10 descriptionChangedMetric
      []).status = .error "Failed updating Librato Metric cpu: not found" := by
  refine ⟨rfl, fun n => rfl, ?_, ?_⟩
  · decide
  · decide

/-- C16, amended: in the wait after Alert Create and after Metric Create, polling
`Get`s that fail with 404 are retried: when a later poll within the bound
succeeds, Create goes on to Read and returns what Read returns. In the wait
after Alert Update and after Metric Update, a polling `Get` that fails, with 404
or with any other error, ends the wait at once and Update returns an error that
carries it, without running Read. -/
theorem wait_not_found :
    (∀ (client : Client) (polls : Nat) (d : AlertData) (past : List Call) (alertRes : Alert)
        (id k : Nat),
      client.AlertsCreate past (alertCreatePayload d) = .ok alertRes → alertRes.ID = some id →
      k ≤ polls →
      (∀ i, i < k → ∃ message, client.AlertsGet
        ((past ++ [.alertsCreate (alertCreatePayload d)]) ++ List.replicate i (.alertsGet id)) id =
          .error (.response 404 message)) →
      (∃ a, client.AlertsGet
        ((past ++ [.alertsCreate (alertCreatePayload d)]) ++ List.replicate k (.alertsGet id)) id =
          .ok a) →
      resourceLibratoAlertCreate client polls d past =
        (resourceLibratoAlertRead client (d.SetId (FormatUint id))
          (past ++ .alertsCreate (alertCreatePayload d) ::
            List.replicate (k + 1) (.alertsGet id))).after
          (.alertsCreate (alertCreatePayload d) :: List.replicate (k + 1) (.alertsGet id))) ∧
    (∀ (sprintV : DisplayValue → String) (client : Client) (polls : Nat) (d : MetricData)
        (past : List Call) (metric : Metric) (name : String) (k : Nat),
      metricCreatePayload d = some metric → metric.Name = some name →
      client.MetricsUpdate past metric = none → k ≤ polls →
      (∀ i, i < k → ∃ message, client.MetricsGet
        ((past ++ [.metricsUpdate metric]) ++ List.replicate i (.metricsGet name)) name =
          .error (.response 404 message)) →
      (∃ a, client.MetricsGet
        ((past ++ [.metricsUpdate metric]) ++ List.replicate k (.metricsGet name)) name =
          .ok a) →
      resourceLibratoMetricCreate sprintV client polls d past =
        (resourceLibratoMetricRead sprintV client (d.SetId name)
          (past ++ .metricsUpdate metric :: List.replicate (k + 1) (.metricsGet name))).after
          (.metricsUpdate metric :: List.replicate (k + 1) (.metricsGet name))) ∧
    (∀ (client : Client) (polls : Nat) (d : AlertData) (past : List Call) (id : Nat)
        (alert : Alert) (j : Nat) (err : ClientError),
      ParseUint d.Id = some id → alertUpdatePayload d = .ok alert →
      client.AlertsUpdate past id alert = none → j < 5 → j ≤ polls →
      (∀ i, i < j → ∃ a, client.AlertsGet
        ((past ++ [.alertsUpdate id alert]) ++ List.replicate i (.alertsGet id)) id = .ok a) →
      client.AlertsGet
        ((past ++ [.alertsUpdate id alert]) ++ List.replicate j (.alertsGet id)) id =
          .error err →
      (resourceLibratoAlertUpdate client polls d past).status =
          .error ("Failed updating Librato Alert " ++ toString id ++ ": " ++ err.Error) ∧
        (resourceLibratoAlertUpdate client polls d past).data = d ∧
        (resourceLibratoAlertUpdate client polls d past).calls =
          .alertsUpdate id alert :: List.replicate (j + 1) (.alertsGet id)) ∧
    (∀ (sprintV : DisplayValue → String) (client : Client) (polls : Nat) (d : MetricData)
        (past : List Call) (metric : Metric) (j : Nat) (err : ClientError),
      metricUpdatePayload d = some metric →
      client.MetricsUpdate past metric = none → j < 5 → j ≤ polls →
      (∀ i, i < j → ∃ a, client.MetricsGet
        ((past ++ [.metricsUpdate metric]) ++ List.replicate i (.metricsGet d.Id)) d.Id =
          .ok a) →
      client.MetricsGet
        ((past ++ [.metricsUpdate metric]) ++ List.replicate j (.metricsGet d.Id)) d.Id =
          .error err →
      (resourceLibratoMetricUpdate sprintV client polls d past).status =
          .error ("Failed updating Librato Metric " ++ d.Id ++ ": " ++ err.Error) ∧
        (resourceLibratoMetricUpdate sprintV client polls d past).data = d ∧
        (resourceLibratoMetricUpdate sprintV client polls d past).calls =
          .metricsUpdate metric :: List.replicate (j + 1) (.metricsGet d.Id)) := by
  refine ⟨?_, ?_, ?_, ?_⟩
  · intro client polls d past alertRes id k hcreate hres hk h404 hok
    have hretry := Retry_ok_after_retryable (alertCreatedProbe client id) (.alertsGet id) k polls
      (past ++ [.alertsCreate (alertCreatePayload d)]) hk
      (fun i hi => by
        obtain ⟨message, hm⟩ := h404 i hi
        exact ⟨message, by unfold alertCreatedProbe; rw [hm]; rfl⟩)
      (by
        obtain ⟨a, ha⟩ := hok
        unfold alertCreatedProbe
        rw [ha])
    simp only [resourceLibratoAlertCreate, hcreate, hres, hretry]
  · intro sprintV client polls d past metric name k hpayload hname hupdate hk h404 hok
    have hretry := Retry_ok_after_retryable (metricCreatedProbe client name) (.metricsGet name) k
      polls (past ++ [.metricsUpdate metric]) hk
      (fun i hi => by
        obtain ⟨message, hm⟩ := h404 i hi
        exact ⟨message, by unfold metricCreatedProbe; rw [hm]; rfl⟩)
      (by
        obtain ⟨a, ha⟩ := hok
        unfold metricCreatedProbe
        rw [ha])
    simp only [resourceLibratoMetricCreate, hpayload, hname, hupdate, hretry]
  · intro client polls d past id alert j err hid hpayload hupdate hj hpolls hok herr
    have hwait := waitLoop_abort (alertUpdateWait client id) (.alertsGet id)
      (by simp [alertUpdateWait]) "" err.Error j polls 0
      (past ++ [.alertsUpdate id alert]) (by simp [alertUpdateWait]; omega) hpolls
      (fun i hi => (alertUpdateRefresh_ok_iff client id _).mpr (hok i hi))
      (by simp only [alertUpdateWait, alertUpdateRefresh]; rw [herr])
    simp [resourceLibratoAlertUpdate, hid, hpayload, hupdate, StateChangeConf.WaitForState,
      hwait]
  · intro sprintV client polls d past metric j err hpayload hupdate hj hpolls hok herr
    have hwait := waitLoop_abort (metricUpdateWait client d.Id) (.metricsGet d.Id)
      (by simp [metricUpdateWait]) "" err.Error j polls 0
      (past ++ [.metricsUpdate metric]) (by simp [metricUpdateWait]; omega) hpolls
      (fun i hi => (metricUpdateRefresh_ok_iff client d.Id _).mpr (hok i hi))
      (by simp only [metricUpdateWait, metricUpdateRefresh]; rw [herr])
    simp [resourceLibratoMetricUpdate, hpayload, hupdate, StateChangeConf.WaitForState, hwait]


/-- Witness of C16, amended: a first polling `Get` answered with 404 and the
next ones with success, after Create and after Update, of an alert and of a
metric. -/
theorem wait_not_found_witness :
    resourceLibratoAlertCreate (scriptedClient notFoundThenAlert notFoundThenMetric) 10
        minimalAlertData [] =
      (resourceLibratoAlertRead (scriptedClient notFoundThenAlert notFoundThenMetric)
        (minimalAlertData.SetId (FormatUint 42))
        ([] ++ .alertsCreate (alertCreatePayload minimalAlertData) ::
          List.replicate (1 + 1) (.alertsGet 42))).after
        (.alertsCreate (alertCreatePayload minimalAlertData) ::
          List.replicate (1 + 1) (.alertsGet 42)) ∧
    resourceLibratoMetricCreate (fun _ => "") (scriptedClient notFoundThenAlert notFoundThenMetric)
        10 newMetricData [] =
      (resourceLibratoMetricRead (fun _ => "")
        (scriptedClient notFoundThenAlert notFoundThenMetric) (newMetricData.SetId "cpu")
        ([] ++ .metricsUpdate { Name := some "cpu", Type_ := some "gauge" } ::
          List.replicate (1 + 1) (.metricsGet "cpu"))).after
        (.metricsUpdate { Name := some "cpu", Type_ := some "gauge" } ::
          List.replicate (1 + 1) (.metricsGet "cpu")) ∧
    ((resourceLibratoAlertUpdate (scriptedClient notFoundThenAlert notFoundThenMetric) 10
        servicesChangedData []).status =
        .error ("Failed updating Librato Alert " ++ toString 42 ++ ": " ++
          (ClientError.response 404 "not found").Error) ∧
      (resourceLibratoAlertUpdate (scriptedClient notFoundThenAlert notFoundThenMetric) 10
        servicesChangedData []).data = servicesChangedData ∧
      (resourceLibratoAlertUpdate (scriptedClient notFoundThenAlert notFoundThenMetric) 10
        servicesChangedData []).calls =
        .alertsUpdate 42 { Name := some "cpu-high", Active := some true, Md := some true,
                           Services := .intPtrs [some 7] } ::
          List.replicate (0 + 1) (.alertsGet 42)) ∧
    ((resourceLibratoMetricUpdate (fun _ => "")
        (scriptedClient notFoundThenAlert notFoundThenMetric) 10 descriptionChangedMetric
        []).status =
        .error ("Failed updating Librato Metric " ++ descriptionChangedMetric.Id ++ ": " ++
          (ClientError.response 404 "not found").Error) ∧
      (resourceLibratoMetricUpdate (fun _ => "")
        (scriptedClient notFoundThenAlert notFoundThenMetric) 10 descriptionChangedMetric
        []).data = descriptionChangedMetric ∧
      (resourceLibratoMetricUpdate (fun _ => "")
        (scriptedClient notFoundThenAlert notFoundThenMetric) 10 descriptionChangedMetric
        []).calls =
        .metricsUpdate { Name := some "cpu", Description := some "new" } ::
          List.replicate (0 + 1) (.metricsGet descriptionChangedMetric.Id)) :=
  ⟨wait_not_found.1 (scriptedClient notFoundThenAlert notFoundThenMetric) 10 minimalAlertData []
      { alertCreatePayload minimalAlertData with ID := some 42 } 42 1 rfl rfl (by decide)
      (fun i hi => ⟨"not found", by
        have h0 : i = 0 := by omega
        subst h0
        rfl⟩)
      ⟨minimalRemoteAlert, rfl⟩,
    wait_not_found.2.1 (fun _ => "") (scriptedClient notFoundThenAlert notFoundThenMetric) 10
      newMetricData [] { Name := some "cpu", Type_ := some "gauge" } "cpu" 1 (by decide) rfl rfl
      (by decide)
      (fun i hi => ⟨"not found", by
        have h0 : i = 0 := by omega
        subst h0
        rfl⟩)
      ⟨{ Name := some "cpu", Type_ := some "gauge" }, rfl⟩,
    wait_not_found.2.2.1 (scriptedClient notFoundThenAlert notFoundThenMetric) 10
      servicesChangedData [] 42 _ 0 (.response 404 "not found") (by decide)
      alertUpdatePayload_servicesChangedData rfl (by decide) (by decide)
      (fun i hi => absurd hi (Nat.not_lt_zero i)) rfl,
    wait_not_found.2.2.2 (fun _ => "") (scriptedClient notFoundThenAlert notFoundThenMetric) 10
      descriptionChangedMetric [] { Name := some "cpu", Description := some "new" } 0
      (.response 404 "not found") (by decide) rfl (by decide) (by decide)
      (fun i hi => absurd hi (Nat.not_lt_zero i)) rfl⟩

theorem alertUpdate_of_wait (client : Client) (polls : Nat) (d : AlertData) (past : List Call)
    (id : Nat) (alert : Alert) (hid : ParseUint d.Id = some id)
    (hpayload : alertUpdatePayload d = .ok alert)
    (hupdate : client.AlertsUpdate past id alert = none) :
    resourceLibratoAlertUpdate client polls d past =
      match (alertUpdateWait client id).waitLoop polls 0 (past ++ [.alertsUpdate id alert]) with
      | (some err, calls) =>
        { status := .error ("Failed updating Librato Alert " ++ toString id ++ ": " ++ err),
          data := d, calls := .alertsUpdate id alert :: calls }
      | (none, calls) =>
        (resourceLibratoAlertRead client d (past ++ .alertsUpdate id alert :: calls)).after
          (.alertsUpdate id alert :: calls) := by
  simp only [resourceLibratoAlertUpdate, hid, hpayload, hupdate,
    StateChangeConf.WaitForState]

theorem metricUpdate_of_wait (sprintV : DisplayValue → String) (client : Client) (polls : Nat)
    (d : MetricData) (past : List Call) (metric : Metric)
    (hpayload : metricUpdatePayload d = some metric)
    (hupdate : client.MetricsUpdate past metric = none) :
    resourceLibratoMetricUpdate sprintV client polls d past =
      match (metricUpdateWait client d.Id).waitLoop polls 0 (past ++ [.metricsUpdate metric]) with
      | (some err, calls) =>
        { status := .error ("Failed updating Librato Metric " ++ d.Id ++ ": " ++ err),
          data := d, calls := .metricsUpdate metric :: calls }
      | (none, calls) =>
        (resourceLibratoMetricRead sprintV client d (past ++ .metricsUpdate metric :: calls)).after
          (.metricsUpdate metric :: calls) := by
  simp only [resourceLibratoMetricUpdate, hpayload, hupdate,
    StateChangeConf.WaitForState]

/-- C18: the waiter of Alert Update and of Metric Update is configured with a
required count of 5, a minimum interval of 2 seconds and a bound of 5 minutes.
Once the remote Update call has returned successfully, Update runs Read only
after five consecutive polling `Get`s have succeeded: when the first five polls
succeed and fit in the bound, Update returns what Read returns after exactly
those five `Get`s; in every other run it returns an error after at most five
polls, the bag untouched, without running Read. -/
theorem update_reads_after_five_gets :
    (∀ (client : Client) (id : Nat),
      (alertUpdateWait client id).ContinuousTargetOccurence = 5 ∧
      (alertUpdateWait client id).MinTimeout = 2 * Second ∧
      (alertUpdateWait client id).Timeout = 5 * Minute) ∧
    (∀ (client : Client) (id : String),
      (metricUpdateWait client id).ContinuousTargetOccurence = 5 ∧
      (metricUpdateWait client id).MinTimeout = 2 * Second ∧
      (metricUpdateWait client id).Timeout = 5 * Minute) ∧
    (∀ (client : Client) (polls : Nat) (d : AlertData) (past : List Call) (id : Nat)
        (alert : Alert),
      ParseUint d.Id = some id → alertUpdatePayload d = .ok alert →
      client.AlertsUpdate past id alert = none →
      ((∀ i, i < 5 → ∃ a, client.AlertsGet
          ((past ++ [.alertsUpdate id alert]) ++ List.replicate i (.alertsGet id)) id = .ok a) →
        4 ≤ polls →
        resourceLibratoAlertUpdate client polls d past =
          (resourceLibratoAlertRead client d
            (past ++ .alertsUpdate id alert :: List.replicate 5 (.alertsGet id))).after
            (.alertsUpdate id alert :: List.replicate 5 (.alertsGet id))) ∧
      ((resourceLibratoAlertUpdate client polls d past =
          (resourceLibratoAlertRead client d
            (past ++ .alertsUpdate id alert :: List.replicate 5 (.alertsGet id))).after
            (.alertsUpdate id alert :: List.replicate 5 (.alertsGet id)) ∧
        ∀ i, i < 5 → ∃ a, client.AlertsGet
          ((past ++ [.alertsUpdate id alert]) ++ List.replicate i (.alertsGet id)) id = .ok a) ∨
        ∃ e k, 1 ≤ k ∧ k ≤ 5 ∧
          (resourceLibratoAlertUpdate client polls d past).status = .error e ∧
          (resourceLibratoAlertUpdate client polls d past).data = d ∧
          (resourceLibratoAlertUpdate client polls d past).calls =
            .alertsUpdate id alert :: List.replicate k (.alertsGet id))) ∧
    (∀ (sprintV : DisplayValue → String) (client : Client) (polls : Nat) (d : MetricData)
        (past : List Call) (metric : Metric),
      metricUpdatePayload d = some metric → client.MetricsUpdate past metric = none →
      ((∀ i, i < 5 → ∃ a, client.MetricsGet
          ((past ++ [.metricsUpdate metric]) ++ List.replicate i (.metricsGet d.Id)) d.Id =
            .ok a) →
        4 ≤ polls →
        resourceLibratoMetricUpdate sprintV client polls d past =
          (resourceLibratoMetricRead sprintV client d
            (past ++ .metricsUpdate metric :: List.replicate 5 (.metricsGet d.Id))).after
            (.metricsUpdate metric :: List.replicate 5 (.metricsGet d.Id))) ∧
      ((resourceLibratoMetricUpdate sprintV client polls d past =
          (resourceLibratoMetricRead sprintV client d
            (past ++ .metricsUpdate metric :: List.replicate 5 (.metricsGet d.Id))).after
            (.metricsUpdate metric :: List.replicate 5 (.metricsGet d.Id)) ∧
        ∀ i, i < 5 → ∃ a, client.MetricsGet
          ((past ++ [.metricsUpdate metric]) ++ List.replicate i (.metricsGet d.Id)) d.Id =
            .ok a) ∨
        ∃ e k, 1 ≤ k ∧ k ≤ 5 ∧
          (resourceLibratoMetricUpdate sprintV client polls d past).status = .error e ∧
          (resourceLibratoMetricUpdate sprintV client polls d past).data = d ∧
          (resourceLibratoMetricUpdate sprintV client polls d past).calls =
            .metricsUpdate metric :: List.replicate k (.metricsGet d.Id))) := by
  refine ⟨fun client id => ⟨rfl, rfl, rfl⟩, fun client id => ⟨rfl, rfl, rfl⟩, ?_, ?_⟩
  · intro client polls d past id alert hid hpayload hupdate
    have hmax : max (alertUpdateWait client id).ContinuousTargetOccurence 1 = 5 := rfl
    have htarget : "true" ∈ (alertUpdateWait client id).Target := by simp [alertUpdateWait]
    rw [alertUpdate_of_wait client polls d past id alert hid hpayload hupdate]
    constructor
    · intro hok hpolls
      have hwait := waitLoop_success (alertUpdateWait client id) (.alertsGet id) htarget 4 polls 0
        (past ++ [.alertsUpdate id alert]) (by rw [hmax]) hpolls
        (fun i hi => (alertUpdateRefresh_ok_iff client id _).mpr (hok i (by omega)))
      rw [hwait]
    · rcases waitLoop_cases (alertUpdateWait client id) (.alertsGet id) htarget
          (alertUpdateRefresh_shape client id) polls 0 (past ++ [.alertsUpdate id alert])
          (by rw [hmax]; decide) with ⟨hwait, hall⟩ | ⟨err, k, hk1, hk2, hwait⟩
      · left
        rw [hmax] at hwait hall
        rw [hwait]
        exact ⟨rfl, fun i hi => (alertUpdateRefresh_ok_iff client id _).mp (hall i hi)⟩
      · right
        rw [hmax] at hk2
        rw [hwait]
        exact ⟨_, k, hk1, hk2, rfl, rfl, rfl⟩
  · intro sprintV client polls d past metric hpayload hupdate
    have hmax : max (metricUpdateWait client d.Id).ContinuousTargetOccurence 1 = 5 := rfl
    have htarget : "true" ∈ (metricUpdateWait client d.Id).Target := by
      simp [metricUpdateWait]
    rw [metricUpdate_of_wait sprintV client polls d past metric hpayload hupdate]
    constructor
    · intro hok hpolls
      have hwait := waitLoop_success (metricUpdateWait client d.Id) (.metricsGet d.Id) htarget 4
        polls 0 (past ++ [.metricsUpdate metric]) (by rw [hmax]) hpolls
        (fun i hi => (metricUpdateRefresh_ok_iff client d.Id _).mpr (hok i (by omega)))
      rw [hwait]
    · rcases waitLoop_cases (metricUpdateWait client d.Id) (.metricsGet d.Id) htarget
          (metricUpdateRefresh_shape client d.Id) polls 0 (past ++ [.metricsUpdate metric])
          (by rw [hmax]; decide) with ⟨hwait, hall⟩ | ⟨err, k, hk1, hk2, hwait⟩
      · left
        rw [hmax] at hwait hall
        rw [hwait]
        exact ⟨rfl, fun i hi => (metricUpdateRefresh_ok_iff client d.Id _).mp (hall i hi)⟩
      · right
        rw [hmax] at hk2
        rw [hwait]
        exact ⟨_, k, hk1, hk2, rfl, rfl, rfl⟩

/-- Witness of C18: an Update of alert 42 and one of the metric `cpu` whose
polling `Get`s all succeed. -/
theorem update_reads_after_five_gets_witness :
    resourceLibratoAlertUpdate (scriptedClient alwaysAlert alwaysMetric) 10 servicesChangedData
        [] =
      (resourceLibratoAlertRead (scriptedClient alwaysAlert alwaysMetric) servicesChangedData
        ([] ++ .alertsUpdate 42 { Name := some "cpu-high", Active := some true, Md := some true,
                                  Services := .intPtrs [some 7] } ::
          List.replicate 5 (.alertsGet 42))).after
        (.alertsUpdate 42 { Name := some "cpu-high", Active := some true, Md := some true,
                            Services := .intPtrs [some 7] } ::
          List.replicate 5 (.alertsGet 42)) ∧
    resourceLibratoMetricUpdate (fun _ => "") (scriptedClient alwaysAlert alwaysMetric) 10
        descriptionChangedMetric [] =
      (resourceLibratoMetricRead (fun _ => "") (scriptedClient alwaysAlert alwaysMetric)
        descriptionChangedMetric
        ([] ++ .metricsUpdate { Name := some "cpu", Description := some "new" } ::
          List.replicate 5 (.metricsGet descriptionChangedMetric.Id))).after
        (.metricsUpdate { Name := some "cpu", Description := some "new" } ::
          List.replicate 5 (.metricsGet descriptionChangedMetric.Id)) :=
  ⟨(update_reads_after_five_gets.2.2.1 (scriptedClient alwaysAlert alwaysMetric) 10
      servicesChangedData [] 42 _ (by decide) alertUpdatePayload_servicesChangedData rfl).1
      (fun _ _ => ⟨minimalRemoteAlert, rfl⟩) (by decide),
    (update_reads_after_five_gets.2.2.2 (fun _ => "") (scriptedClient alwaysAlert alwaysMetric) 10
      descriptionChangedMetric [] { Name := some "cpu", Description := some "new" } (by decide)
      rfl).1 (fun _ _ => ⟨{ Name := some "cpu", Type_ := some "gauge" }, rfl⟩) (by decide)⟩

/-! ## What Read leaves alone (C22) -/

/-- The keys under which the flatten step of Alert Read writes. -/
theorem flattenAlert_keys (alert : Alert) :
    ∀ w ∈ (flattenAlert {} alert).2.written,
      w.1 = "name" ∨ w.1 = "description" ∨ w.1 = "rearm_seconds" ∨ w.1 = "services" ∨
        w.1 = "condition" ∨ w.1 = "attributes" := by
  unfold flattenAlert
  repeat' split
  all_goals simp_all [AlertData.Set]

theorem flattenAlert_config_state (d : AlertData) (alert : Alert) :
    (flattenAlert d alert).2.config = d.config ∧ (flattenAlert d alert).2.state = d.state := by
  unfold flattenAlert
  repeat' split
  all_goals simp_all [AlertData.Set]

theorem lookup_append_of_not_mem {β : Type} (ws rest : List (String × β)) (k : String)
    (h : ∀ w ∈ ws, w.1 ≠ k) : (ws ++ rest).lookup k = rest.lookup k := by
  induction ws with
  | nil => rfl
  | cons p ws ih =>
    obtain ⟨k1, v1⟩ := p
    have h1 : (k == k1) = false := by
      have := h (k1, v1) (List.mem_cons_self _ _)
      simpa using fun e => this e.symm
    simp only [List.cons_append, List.lookup, h1]
    exact ih fun w hw => h w (List.mem_cons_of_mem _ hw)

/-- C22: Alert Read never writes `active` or `md`. In every run of Read, whatever
`Get` answers, no write of the run is under the key `active` or `md`, the value
last written under each of the two keys is the one from before Read, and the
planned and prior values of both are untouched; an alert returned by `Get` is
flattened in the same way whatever its `Active` and `Md` are. -/
theorem read_never_writes_active_or_md (client : Client) (d : AlertData) (past : List Call) :
    (∀ w ∈ (resourceLibratoAlertRead client d past).data.writesSince d,
      w.1 ≠ "active" ∧ w.1 ≠ "md") ∧
    (resourceLibratoAlertRead client d past).data.written.lookup "active" =
      d.written.lookup "active" ∧
    (resourceLibratoAlertRead client d past).data.written.lookup "md" = d.written.lookup "md" ∧
    (resourceLibratoAlertRead client d past).data.Get_active = d.Get_active ∧
    (resourceLibratoAlertRead client d past).data.Get_md = d.Get_md ∧
    (resourceLibratoAlertRead client d past).data.state.active = d.state.active ∧
    (resourceLibratoAlertRead client d past).data.state.md = d.state.md ∧
    (∀ (id : Nat) (alert : Alert) (a m : Option Bool), ParseUint d.Id = some id →
      client.AlertsGet past id = .ok alert →
      (resourceLibratoAlertRead client d past).status =
        (flattenAlert d { alert with Active := a, Md := m }).1 ∧
      (resourceLibratoAlertRead client d past).data =
        (flattenAlert d { alert with Active := a, Md := m }).2) := by
  have hflat : ∀ (alert : Alert) (a m : Option Bool),
      flattenAlert d { alert with Active := a, Md := m } = flattenAlert d alert :=
    fun alert a m => rfl
  have hframe : ∀ d1 : AlertData, d1.written = d.written → d1.config = d.config →
      d1.state = d.state →
      (∀ w ∈ d1.writesSince d, w.1 ≠ "active" ∧ w.1 ≠ "md") ∧
      d1.written.lookup "active" = d.written.lookup "active" ∧
      d1.written.lookup "md" = d.written.lookup "md" ∧
      d1.Get_active = d.Get_active ∧ d1.Get_md = d.Get_md ∧
      d1.state.active = d.state.active ∧ d1.state.md = d.state.md := by
    intro d1 hw hc hs
    simp [AlertData.writesSince, AlertData.Get_active, AlertData.Get_md, hw, hc, hs]
  have hkeys : ∀ alert : Alert, ∀ w ∈ (flattenAlert {} alert).2.written,
      w.1 ≠ "active" ∧ w.1 ≠ "md" := by
    intro alert w hw
    rcases flattenAlert_keys alert w hw with h | h | h | h | h | h <;> rw [h] <;> decide
  cases hid : ParseUint d.Id with
  | none =>
    have hread : (resourceLibratoAlertRead client d past).data = d := by
      simp [resourceLibratoAlertRead, hid]
    rw [hread]
    obtain ⟨h1, h2, h3, h4, h5, h6, h7⟩ := hframe d rfl rfl rfl
    exact ⟨h1, h2, h3, h4, h5, h6, h7, fun id alert a m h => by simp at h⟩
  | some id =>
    cases hget : client.AlertsGet past id with
    | error err =>
      have hread : (resourceLibratoAlertRead client d past).data =
          if err.isNotFound then d.SetId "" else d := by
        simp only [resourceLibratoAlertRead, hid, hget]
        split <;> rfl
      rw [hread]
      have hd : ∀ d1 : AlertData, d1 = (if err.isNotFound then d.SetId "" else d) →
          d1.written = d.written ∧ d1.config = d.config ∧ d1.state = d.state := by
        intro d1 h1
        subst h1
        split <;> simp [AlertData.SetId]
      obtain ⟨hw, hc, hs⟩ := hd _ rfl
      obtain ⟨h1, h2, h3, h4, h5, h6, h7⟩ := hframe _ hw hc hs
      exact ⟨h1, h2, h3, h4, h5, h6, h7, fun id1 alert a m h1 h2 => by
        simp only [Option.some.injEq] at h1
        subst h1
        rw [hget] at h2
        simp at h2⟩
    | ok alert =>
      rw [resourceLibratoAlertRead_ok client d past id alert hid hget]
      simp only
      obtain ⟨hc, hs⟩ := flattenAlert_config_state d alert
      refine ⟨?_, ?_, ?_, ?_, ?_, ?_, ?_, ?_⟩
      · rw [flattenAlert_writesSince]
        exact hkeys alert
      · rw [flattenAlert_written]
        exact lookup_append_of_not_mem _ _ _ fun w hw => (hkeys alert w hw).1
      · rw [flattenAlert_written]
        exact lookup_append_of_not_mem _ _ _ fun w hw => (hkeys alert w hw).2
      · simp [AlertData.Get_active, hc]
      · simp [AlertData.Get_md, hc]
      · rw [hs]
      · rw [hs]
      · intro id1 alert1 a m h1 h2
        simp only [Option.some.injEq] at h1
        subst h1
        rw [hget] at h2
        simp only [Except.ok.injEq] at h2
        subst h2
        rw [hflat]
        exact ⟨rfl, rfl⟩

/-- Witness of C22: a Read of alert 42 that gets a remote alert whose `Active`
and `Md` are false leaves the earlier writes under `active` and `md` the latest
ones and the planned values true. -/
theorem read_never_writes_active_or_md_witness :
    (resourceLibratoAlertRead (sampleClient (.ok inactiveRemoteAlert) (.error (.other "unused")))
        activeAlertData []).data.written.lookup "active" = some (.string "kept") ∧
    (resourceLibratoAlertRead (sampleClient (.ok inactiveRemoteAlert) (.error (.other "unused")))
        activeAlertData []).data.written.lookup "md" = some (.string "kept") ∧
    (resourceLibratoAlertRead (sampleClient (.ok inactiveRemoteAlert) (.error (.other "unused")))
        activeAlertData []).data.Get_active = true ∧
    (resourceLibratoAlertRead (sampleClient (.ok inactiveRemoteAlert) (.error (.other "unused")))
        activeAlertData []).data.Get_md = true ∧
    (resourceLibratoAlertRead (sampleClient (.ok inactiveRemoteAlert) (.error (.other "unused")))
        activeAlertData []).status =
      (flattenAlert activeAlertData
        { inactiveRemoteAlert with Active := some true, Md := some true }).1 ∧
    (resourceLibratoAlertRead (sampleClient (.ok inactiveRemoteAlert) (.error (.other "unused")))
        activeAlertData []).data =
      (flattenAlert activeAlertData
        { inactiveRemoteAlert with Active := some true, Md := some true }).2 :=
  have h := read_never_writes_active_or_md
    (sampleClient (.ok inactiveRemoteAlert) (.error (.other "unused"))) activeAlertData []
  ⟨h.2.1, h.2.2.1, h.2.2.2.1, h.2.2.2.2.1,
    (h.2.2.2.2.2.2.2 42 inactiveRemoteAlert (some true) (some true) (by decide) rfl).1,
    (h.2.2.2.2.2.2.2 42 inactiveRemoteAlert (some true) (some true) (by decide) rfl).2⟩

/-! ## The identity of a metric under Update (C21) -/

theorem metricUpdatePayload_name (d : MetricData) (metric : Metric)
    (h : metricUpdatePayload d = some metric) : metric.Name = some d.Id := by
  unfold metricUpdatePayload at h
  simp only at h
  split at h
  · split at h
    · simp at h
    · simp only [Option.some.injEq] at h
      subst h
      repeat' split
      all_goals rfl
    · simp only [Option.some.injEq] at h
      subst h
      repeat' split
      all_goals rfl
  · simp only [Option.some.injEq] at h
    subst h
    repeat' split
    all_goals rfl

theorem flattenMetric_id (sprintV : DisplayValue → String) (d : MetricData) (metric : Metric) :
    (flattenMetric sprintV d metric).Id = d.Id := by
  unfold flattenMetric
  repeat' split
  all_goals rfl

/-- What Metric Read does to the stored identifier, and the one call it issues. -/
theorem resourceLibratoMetricRead_id (sprintV : DisplayValue → String) (client : Client)
    (d : MetricData) (past : List Call) :
    (resourceLibratoMetricRead sprintV client d past).calls = [.metricsGet d.Id] ∧
    ((resourceLibratoMetricRead sprintV client d past).data.Id = d.Id ∨
      (resourceLibratoMetricRead sprintV client d past).data.Id = "" ∧
        (resourceLibratoMetricRead sprintV client d past).status = .ok ∧
        ∃ err, client.MetricsGet past d.Id = .error err ∧ err.isNotFound = true) := by
  unfold resourceLibratoMetricRead
  simp only
  cases hget : client.MetricsGet past d.Id with
  | error err =>
    by_cases hnf : err.isNotFound = true
    · simp [hnf, MetricData.SetId, MetricData.Id]
    · simp [hnf]
  | ok metric => exact ⟨rfl, Or.inl (flattenMetric_id sprintV d metric)⟩

/-- The shape of every run of Metric Update that reaches the remote Update call
with success: Read after five polling `Get`s, or an error after at most five
polls with the bag untouched. -/
theorem metricUpdate_shape (sprintV : DisplayValue → String) (client : Client) (polls : Nat)
    (d : MetricData) (past : List Call) (metric : Metric)
    (hpayload : metricUpdatePayload d = some metric)
    (hupdate : client.MetricsUpdate past metric = none) :
    resourceLibratoMetricUpdate sprintV client polls d past =
        (resourceLibratoMetricRead sprintV client d
          (past ++ .metricsUpdate metric :: List.replicate 5 (.metricsGet d.Id))).after
          (.metricsUpdate metric :: List.replicate 5 (.metricsGet d.Id)) ∨
      ∃ e k, k ≤ 5 ∧
        resourceLibratoMetricUpdate sprintV client polls d past =
          { status := .error e, data := d,
            calls := .metricsUpdate metric :: List.replicate k (.metricsGet d.Id) } := by
  have hmax : max (metricUpdateWait client d.Id).ContinuousTargetOccurence 1 = 5 := rfl
  have htarget : "true" ∈ (metricUpdateWait client d.Id).Target := by
    simp [metricUpdateWait]
  rw [metricUpdate_of_wait sprintV client polls d past metric hpayload hupdate]
  rcases waitLoop_cases (metricUpdateWait client d.Id) (.metricsGet d.Id) htarget
      (metricUpdateRefresh_shape client d.Id) polls 0 (past ++ [.metricsUpdate metric])
      (by rw [hmax]; decide) with ⟨hwait, _⟩ | ⟨err, k, _, hk2, hwait⟩
  · left
    rw [hmax] at hwait
    rw [hwait]
  · right
    rw [hmax] at hk2
    rw [hwait]
    exact ⟨_, k, hk2, rfl⟩

/-- Counterexample of C21: an Update of the metric `cpu` whose five polling `Get`s
succeed and whose concluding Read gets 404 returns success with the stored
identifier cleared. -/
theorem metric_update_clears_id_counterexample :
    renamedMetricData.Id = "cpu" ∧
    (resourceLibratoMetricUpdate (fun _ => "") (scriptedClient alwaysAlert goneAfterFive) 10
      renamedMetricData []).status = .ok ∧
    (resourceLibratoMetricUpdate (fun _ => "") (scriptedClient alwaysAlert goneAfterFive) 10
      renamedMetricData []).data.Id = "" ∧
    (resourceLibratoMetricUpdate (fun _ => "") (scriptedClient alwaysAlert goneAfterFive) 10
      renamedMetricData []).calls =
        .metricsUpdate { Name := some "cpu", Description := some "new" } ::
          List.replicate 6 (.metricsGet "cpu") := by
  refine ⟨rfl, ?_, ?_, ?_⟩ <;> decide

/-- C21, amended: in every Metric Update the `Name` of the outgoing payload and
the name of every `Get`, the polling ones and that of the concluding Read, are
the stored identifier, whatever the bag's `name` is. The stored identifier after
Update is the one before it, except when the five polling `Get`s succeed and the
`Get` of the concluding Read reports 404: Read then clears the stored identifier
and Update returns success. -/
theorem metric_update_identity (sprintV : DisplayValue → String) (client : Client)
    (polls : Nat) (d : MetricData) (past : List Call) :
    (∀ metric, metricUpdatePayload d = some metric →
      metric.Name = some d.Id ∧
      (resourceLibratoMetricUpdate sprintV client polls d past).calls.head? =
        some (.metricsUpdate metric)) ∧
    (∀ c ∈ (resourceLibratoMetricUpdate sprintV client polls d past).calls,
      c = .metricsGet d.Id ∨ ∃ metric, c = .metricsUpdate metric ∧ metric.Name = some d.Id) ∧
    ((resourceLibratoMetricUpdate sprintV client polls d past).data.Id = d.Id ∨
      (resourceLibratoMetricUpdate sprintV client polls d past).data.Id = "" ∧
      (resourceLibratoMetricUpdate sprintV client polls d past).status = .ok ∧
      ∃ metric err, metricUpdatePayload d = some metric ∧
        (resourceLibratoMetricUpdate sprintV client polls d past).calls =
          .metricsUpdate metric :: List.replicate 6 (.metricsGet d.Id) ∧
        client.MetricsGet
          (past ++ .metricsUpdate metric :: List.replicate 5 (.metricsGet d.Id)) d.Id =
            .error err ∧
        err.isNotFound = true) ∧
    (∀ metric err, metricUpdatePayload d = some metric →
      client.MetricsUpdate past metric = none → 4 ≤ polls →
      (∀ i, i < 5 → ∃ a, client.MetricsGet
        ((past ++ [.metricsUpdate metric]) ++ List.replicate i (.metricsGet d.Id)) d.Id =
          .ok a) →
      client.MetricsGet
        (past ++ .metricsUpdate metric :: List.replicate 5 (.metricsGet d.Id)) d.Id =
          .error err →
      err.isNotFound = true →
      (resourceLibratoMetricUpdate sprintV client polls d past).status = .ok ∧
      (resourceLibratoMetricUpdate sprintV client polls d past).data.Id = "") := by
  refine ⟨?_, ?_, ?_, ?_⟩
  · intro metric hpayload
    refine ⟨metricUpdatePayload_name d metric hpayload, ?_⟩
    cases hupdate : client.MetricsUpdate past metric with
    | some err => simp [resourceLibratoMetricUpdate, hpayload, hupdate]
    | none =>
      rcases metricUpdate_shape sprintV client polls d past metric hpayload hupdate with
        h | ⟨e, k, _, h⟩
      · rw [h]
        rfl
      · rw [h]
        rfl
  · intro c hc
    cases hpayload : metricUpdatePayload d with
    | none => simp [resourceLibratoMetricUpdate, hpayload] at hc
    | some metric =>
      have hname := metricUpdatePayload_name d metric hpayload
      cases hupdate : client.MetricsUpdate past metric with
      | some err =>
        simp only [resourceLibratoMetricUpdate, hpayload, hupdate, List.mem_singleton] at hc
        exact Or.inr ⟨metric, hc, hname⟩
      | none =>
        rcases metricUpdate_shape sprintV client polls d past metric hpayload hupdate with
          h | ⟨e, k, _, h⟩
        · rw [h] at hc
          simp only [Outcome.after, (resourceLibratoMetricRead_id sprintV client d _).1,
            List.cons_append, List.mem_cons, List.mem_append, List.mem_replicate,
            List.mem_singleton, List.not_mem_nil, or_false] at hc
          rcases hc with hc | hc | hc
          · exact Or.inr ⟨metric, hc, hname⟩
          · exact Or.inl hc.2
          · exact Or.inl hc
        · rw [h] at hc
          simp only [List.mem_cons, List.mem_replicate] at hc
          rcases hc with hc | hc
          · exact Or.inr ⟨metric, hc, hname⟩
          · exact Or.inl hc.2
  · cases hpayload : metricUpdatePayload d with
    | none =>
      left
      simp [resourceLibratoMetricUpdate, hpayload]
    | some metric =>
      cases hupdate : client.MetricsUpdate past metric with
      | some err =>
        left
        simp [resourceLibratoMetricUpdate, hpayload, hupdate]
      | none =>
        rcases metricUpdate_shape sprintV client polls d past metric hpayload hupdate with
          h | ⟨e, k, _, h⟩
        · rw [h]
          obtain ⟨hcalls, hid⟩ := resourceLibratoMetricRead_id sprintV client d
            (past ++ .metricsUpdate metric :: List.replicate 5 (.metricsGet d.Id))
          rcases hid with hid | ⟨hid, hstatus, err, hget, hnf⟩
          · exact Or.inl hid
          · refine Or.inr ⟨hid, hstatus, metric, err, rfl, ?_, hget, hnf⟩
            simp only [Outcome.after, hcalls]
            rfl
        · left
          rw [h]
  · intro metric err hpayload hupdate hpolls hok hget hnf
    have hmax : max (metricUpdateWait client d.Id).ContinuousTargetOccurence 1 = 5 := rfl
    have hwait := waitLoop_success (metricUpdateWait client d.Id) (.metricsGet d.Id)
      (by simp [metricUpdateWait]) 4 polls 0 (past ++ [.metricsUpdate metric]) (by rw [hmax])
      hpolls (fun i hi => (metricUpdateRefresh_ok_iff client d.Id _).mpr (hok i (by omega)))
    rw [show (4 : Nat) + 1 = 5 from rfl] at hwait
    rw [metricUpdate_of_wait sprintV client polls d past metric hpayload hupdate, hwait]
    simp only [Outcome.after, resourceLibratoMetricRead]
    rw [hget]
    simp [hnf, MetricData.SetId, MetricData.Id]

/-- Witness of C21, amended: the Update of the metric `cpu` with the planned name
`cpu2` sends the payload under the name `cpu`; its five polling `Get`s succeed
and the `Get` of its concluding Read reports 404, which clears the identifier. -/
theorem metric_update_identity_witness :
    (({ Name := some "cpu", Description := some "new" } : Metric).Name =
        some renamedMetricData.Id ∧
      (resourceLibratoMetricUpdate (fun _ => "") (scriptedClient alwaysAlert goneAfterFive) 10
        renamedMetricData []).calls.head? =
          some (.metricsUpdate { Name := some "cpu", Description := some "new" })) ∧
    renamedMetricData.Get_name = "cpu2" ∧
    (resourceLibratoMetricUpdate (fun _ => "") (scriptedClient alwaysAlert goneAfterFive) 10
      renamedMetricData []).status = .ok ∧
    (resourceLibratoMetricUpdate (fun _ => "") (scriptedClient alwaysAlert goneAfterFive) 10
      renamedMetricData []).data.Id = "" :=
  have h := metric_update_identity (fun _ => "") (scriptedClient alwaysAlert goneAfterFive) 10
    renamedMetricData []
  ⟨h.1 { Name := some "cpu", Description := some "new" } (by decide), by decide,
    h.2.2.2 { Name := some "cpu", Description := some "new" } (.response 404 "not found")
      (by decide) rfl (by decide)
      (fun i hi => ⟨{ Name := some "cpu", Type_ := some "gauge" }, by
        have hs : getCount (([] ++ [Call.metricsUpdate
            { Name := some "cpu", Description := some "new" }]) ++
            List.replicate i (.metricsGet renamedMetricData.Id)) = i := by
          simp [getCount, List.countP_append, List.countP_replicate]
        show goneAfterFive _ = _
        rw [hs]
        simp [goneAfterFive, hi]⟩)
      rfl rfl⟩

/-! ## The services sent by Create and by Update (C23) -/

theorem alertCreatePayload_services (d : AlertData) :
    (alertCreatePayload d).Services =
      if d.Get_services ≠ ∅ then
        .list (d.Get_services.List.map fun serviceData => .int (Atoi serviceData).1)
      else .nil := by
  unfold alertCreatePayload AlertData.GetOk_description AlertData.GetOk_rearm_seconds
    AlertData.GetOk_services AlertData.GetOk_condition AlertData.GetOk_attributes
  by_cases h1 : d.Get_description ≠ "" <;>
  by_cases h2 : d.Get_rearm_seconds ≠ 0 <;>
  by_cases h3 : d.Get_services ≠ ∅ <;>
  by_cases h4 : d.Get_condition ≠ [] <;>
  by_cases h5 : d.Get_attributes ≠ [] <;>
  simp [h1, h2, h3, h4, h5]

theorem alertUpdatePayload_services (d : AlertData) (alert : Alert)
    (h : alertUpdatePayload d = .ok alert) (hc : d.HasChange_services = true) :
    alert.Services =
      .intPtrs (d.Get_services.List.map fun s =>
        if (Atoi s).2 = true then some (Atoi s).1 else none) := by
  have hfun : alert.Services = .intPtrs (d.Get_services.List.map fun s =>
      match Atoi s with
      | (serviceID, true) => some serviceID
      | (_, false) => none) := by
    unfold alertUpdatePayload at h
    by_cases h5 : d.HasChange_attributes = true
    · simp only [h5, if_true] at h
      cases h6 : alertUpdateAttributes d with
      | error e => simp [h6] at h
      | ok attributes =>
        simp only [h6, Except.ok.injEq] at h
        subst h
        by_cases h1 : d.HasChange_description = true <;>
        by_cases h2 : d.HasChange_rearm_seconds = true <;>
        by_cases h4 : d.HasChange_condition = true <;>
        simp only [h1, h2, hc, h4, if_true, if_false] <;> rfl
    · simp only [h5, Bool.false_eq_true, if_false, reduceIte, Except.ok.injEq] at h
      subst h
      by_cases h1 : d.HasChange_description = true <;>
      by_cases h2 : d.HasChange_rearm_seconds = true <;>
      by_cases h4 : d.HasChange_condition = true <;>
      simp only [h1, h2, hc, h4, if_true, if_false] <;> rfl
  rw [hfun]
  congr 1
  apply List.map_congr_left
  intro s _
  generalize Atoi s = p
  obtain ⟨v, b⟩ := p
  cases b <;> rfl

/-- The services lists of Create and of Update, entry by entry: both hold the
parsed id of an entry that `Atoi` accepts; for an entry that it rejects Create
holds the value `Atoi` returns with its error and Update a nil pointer. -/
theorem services_expansion_pointwise (d : AlertData) (alert : Alert)
    (h : alertUpdatePayload d = .ok alert) (hc : d.HasChange_services = true)
    (hne : d.Get_services ≠ ∅) :
    ∃ created sent, (alertCreatePayload d).Services = .list created ∧
      alert.Services = .intPtrs sent ∧ created.length = sent.length ∧
      ∀ (i : Nat) (s : String), d.Get_services.List[i]? = some s →
        created[i]? = some (.int (Atoi s).1) ∧
        sent[i]? = some (if (Atoi s).2 = true then some (Atoi s).1 else none) := by
  refine ⟨d.Get_services.List.map fun serviceData => .int (Atoi serviceData).1, _, ?_,
    alertUpdatePayload_services d alert h hc, ?_, ?_⟩
  · rw [alertCreatePayload_services, if_pos hne]
  · simp
  · intro i s hs
    simp [List.getElem?_map, hs]

/-- C23: on a services set that holds the entry `abc`, which is no decimal
integer, Create sends the service id 0 and Update sends a nil pointer in its
place, `services` being reported as changed; on an entry one above the largest
`int`, Create sends the largest `int` and Update a nil pointer. -/
theorem create_and_update_services_differ :
    Atoi "abc" = (0, false) ∧
    unparsableServiceData.HasChange_services = true ∧
    (alertCreatePayload unparsableServiceData).Services = .list [.int 0] ∧
    alertUpdatePayload unparsableServiceData =
      .ok { Name := some "cpu-high", Active := some true, Md := some true,
            Services := .intPtrs [none] } ∧
    Atoi "9223372036854775808" = (9223372036854775807, false) ∧
    outOfRangeServiceData.HasChange_services = true ∧
    (alertCreatePayload outOfRangeServiceData).Services = .list [.int 9223372036854775807] ∧
    alertUpdatePayload outOfRangeServiceData =
      .ok { Name := some "cpu-high", Active := some true, Md := some true,
            Services := .intPtrs [none] } := by
  have h1 : Atoi "abc" = (0, false) := by decide
  have h2 : Atoi "9223372036854775808" = (9223372036854775807, false) := by decide
  have hs1 : SchemaSet.List {"abc"} = ["abc"] := SchemaSet.List_singleton "abc"
  have hs2 : SchemaSet.List {"9223372036854775808"} = ["9223372036854775808"] :=
    SchemaSet.List_singleton "9223372036854775808"
  have hne1 : ¬ ((∅ : SchemaSet) = {"abc"}) := by decide
  have hne2 : ¬ ((∅ : SchemaSet) = {"9223372036854775808"}) := by decide
  have hne3 : ¬ (({"abc"} : SchemaSet) = ∅) := by decide
  have hne4 : ¬ (({"9223372036854775808"} : SchemaSet) = ∅) := by decide
  refine ⟨h1, by decide, ?_, ?_, h2, by decide, ?_, ?_⟩
  · rw [alertCreatePayload_services]
    simp [unparsableServiceData, AlertData.Get_services, hs1, h1, hne3]
  · simp [alertUpdatePayload, unparsableServiceData, AlertData.HasChange_description,
      AlertData.HasChange_rearm_seconds, AlertData.HasChange_services,
      AlertData.HasChange_condition, AlertData.HasChange_attributes, AlertData.Get_name,
      AlertData.Get_active, AlertData.Get_md, AlertData.Get_description,
      AlertData.Get_rearm_seconds, AlertData.Get_services, AlertData.Get_condition,
      AlertData.Get_attributes, AlertBag.defaultActive, AlertBag.defaultMd,
      AlertBag.defaultRearmSeconds, h1, hs1, hne1]
  · rw [alertCreatePayload_services]
    simp [outOfRangeServiceData, AlertData.Get_services, hs2, h2, hne4]
  · simp [alertUpdatePayload, outOfRangeServiceData, AlertData.HasChange_description,
      AlertData.HasChange_rearm_seconds, AlertData.HasChange_services,
      AlertData.HasChange_condition, AlertData.HasChange_attributes, AlertData.Get_name,
      AlertData.Get_active, AlertData.Get_md, AlertData.Get_description,
      AlertData.Get_rearm_seconds, AlertData.Get_services, AlertData.Get_condition,
      AlertData.Get_attributes, AlertBag.defaultActive, AlertBag.defaultMd,
      AlertBag.defaultRearmSeconds, h2, hs2, hne2]

end Librato
